import Mathlib

/-!
# World model of OpenTomb (`src/world.h`, `src/world.cpp`)

A shallow embedding of the room graph of the engine and of the operations on it:
container membership, the near-room list construction and the flip
(base / alternate room) protocol.

## Conventions of the embedding

* `std::shared_ptr<Room>` is a reference `RoomRef` into a store of `Room` objects
  (`World.room_heap`); two pointers are equal exactly when the references are equal.
  A pointer that the source dereferences without a null test is a `RoomRef`;
  a pointer that the source tests against `NULL` is an `Option RoomRef`.
* `std::shared_ptr<EngineContainer>` is a reference `ContRef` into
  `World.cont_heap` in the same way.
* `engine_world.rooms` (a `std::vector` of room pointers) is the list `World.rooms`.
  A room id is a field of the room; it need not be the position in the table.
* `btScalar` coordinates are integers; only their order is ever used here.
* The fixed array `near_room_list` is a map from index to room pointer; a store
  at index `i` replaces the value at `i`. The length written in the declaration
  of the array is kept as the constant `near_room_list_declared_len`.
* The fixed array `overlapped_room_list` is a map from index to room pointer as well;
  its only store, in `Room_BuildOverlappedRoomsList`, has no capacity test in the
  source, and the model ends the run (`none`) when the index of that store is not below
  `overlapped_room_list_declared_len`.
* A `RoomSector*` is a `SectorRef`: the room whose sector vector holds the element and
  the position in that vector. Reading through a pointer whose position is beyond the
  vector is outside the model (`sectorAt` then yields the default sector); the claims
  state the validity they need.
* C integer division and the conversion of a `btScalar` to `int` truncate toward zero
  (`Int.tdiv`); `size_t` arithmetic that can wrap is written with `% 2 ^ 64`.
* A loop that the source does not bound takes a fuel argument; the result `none` means
  that the loop did not finish within the fuel.
* A rigid body, a bounding box and a base mesh are objects of other modules; a pointer
  to one of them is a reference (`Option Nat`) and only its being null or not is used.
* Calls into the physics library (`addRigidBody`, `removeRigidBody`) and into the
  renderer (`renderer.cleanList`) touch none of the fields modelled here and are
  left out.
-/

namespace OpenTomb

/-- Reference to a `Room` object (`std::shared_ptr<Room>`, non-null). -/
abbrev RoomRef := Nat

/-- Reference to an `EngineContainer` object (`std::shared_ptr<EngineContainer>`, non-null). -/
abbrev ContRef := Nat

/-- Three coordinates, as in `btVector3`. -/
structure Vec3 where
  x : Int
  y : Int
  z : Int
deriving DecidableEq, Repr

/-- Directed link to a destination room (`struct Portal`). The field `geometry`
stands for every field of the portal other than `dest_room`; no function of
`world.cpp` writes it. -/
structure Portal where
  dest_room : RoomRef
  geometry : Nat := 0
deriving DecidableEq, Repr

/-- Modelled from the spec: the constant `OBJECT_ENTITY` is declared in `object.h`, which is
not among the sources; the spec only separates entity containers from the others, and
only equality with the constant is used. -/
def OBJECT_ENTITY : Nat := 0x03

/-- Modelled from the spec: `Entity::enable` and `Entity::disable` are defined outside
`world.cpp`; the spec says a room re-enables / disables its contained entities. The
flag `object_enabled` records the last of the two calls made on the object behind
`EngineContainer::object`. -/
structure EngineContainer where
  object_type : Nat := OBJECT_ENTITY
  room : Option RoomRef := none
  object_enabled : Bool := true
deriving DecidableEq, Repr

/-- Pointer to an element of the sector vector of a room (`RoomSector*`, non-null). -/
structure SectorRef where
  room : RoomRef
  index : Nat
deriving DecidableEq, Repr

/-- The fields of `struct RoomSector` used by `world.cpp`. -/
structure RoomSector where
  floor : Int := 0
  ceiling : Int := 0
  sector_below : Option SectorRef := none
  sector_above : Option SectorRef := none
  owner_room : RoomRef := 0
  index_x : Int := 0
  index_y : Int := 0
  pos : Vec3 := ⟨0, 0, 0⟩
  portal_to_room : Int := -1
deriving DecidableEq, Repr

/-- Reference to an `Entity` object (`std::shared_ptr<Entity>`, non-null). -/
abbrev EntRef := Nat

/-- The part of `struct Entity` used by `world.cpp`: its container `m_self`, its id, the
origin of `m_transform`, its angles, its current sector and the two flag words. The
fields that `World_SpawnEntity` only sets to zero (`m_triggerLayout`, `m_OCB`, `m_timer`,
`m_moveType`, the inertia values) and the bone frame are left out. -/
structure Entity where
  m_self : ContRef
  m_id : Nat := 0
  m_origin : Vec3 := ⟨0, 0, 0⟩
  m_angles : Vec3 := ⟨0, 0, 0⟩
  m_currentSector : Option SectorRef := none
  m_typeFlags : Nat := 0
  m_stateFlags : Nat := 0
deriving DecidableEq, Repr

/-- The part of `struct SkeletalModel` (`mesh.h`) used by `world.cpp`: its id. -/
structure SkeletalModel where
  id : Nat
deriving DecidableEq, Repr

/-- Reference to a `StaticMesh` object (`std::shared_ptr<StaticMesh>`, non-null). -/
abbrev SmRef := Nat

/-- The fields of `struct StaticMesh` that `world.cpp` writes: the pointers to its rigid
body, to its bounding box and to its container. A rigid body, a bounding box and a base
mesh are objects of other modules; here they are only references. -/
structure StaticMesh where
  bt_body : Option Nat := none
  obb : Option Nat := none
  self : Option ContRef := none
deriving DecidableEq, Repr

/-- The fields of `struct BaseItem` (`world.h`); `name` holds the characters before the
terminator and `bf_model` is the model that the bone frame was made from. -/
structure BaseItem where
  id : Nat := 0
  world_model_id : Nat := 0
  type : Nat := 0
  count : Nat := 0
  name : List Char := []
  bf_model : Option Nat := none
deriving DecidableEq, Repr

/-- `enum class AnimTextureType` (`mesh.h`). -/
inductive AnimTextureType where
  | Forward
  | Backward
  | Reverse
deriving DecidableEq, Repr

/-- The fields of `struct AnimSeq` (`mesh.h`) used by `World::updateAnimTextures`. The two
times are integers (a number of time units); `frames` stands for the vector of texture
frames, of which only the size is used. -/
structure AnimSeq where
  frame_lock : Bool := false
  anim_type : AnimTextureType := AnimTextureType.Forward
  reverse_direction : Bool := false
  frame_time : Int := 0
  current_frame : Nat := 0
  frame_rate : Int := 1
  frames : List Nat := []
deriving DecidableEq, Repr

/-- Length of `overlapped_room_list` as declared in `struct Room` (`world.h`). -/
def overlapped_room_list_declared_len : Nat := 32

/-- Length of `near_room_list` as declared in `struct Room` (`world.h`). -/
def near_room_list_declared_len : Nat := 32

/-- The fields of `struct Room` read or written by the operations below. -/
structure Room where
  id : Nat := 0
  active : Bool := true
  containers : List ContRef := []
  bb_min : Vec3 := ⟨0, 0, 0⟩
  bb_max : Vec3 := ⟨0, 0, 0⟩
  portals : List Portal := []
  alternate_room : Option RoomRef := none
  base_room : Option RoomRef := none
  near_room_list_size : Nat := 0
  near_room_list : Nat → RoomRef := fun _ => 0
  origin : Vec3 := ⟨0, 0, 0⟩
  sectors_x : Nat := 0
  sectors_y : Nat := 0
  sectors : List RoomSector := []
  overlapped_room_list_size : Nat := 0
  overlapped_room_list : Nat → RoomRef := fun _ => 0
  static_mesh : List SmRef := []
  bt_body : Option Nat := none
  mesh : Option Nat := none
  frustum : List Nat := []
  sprites : List Nat := []
  lights : List Nat := []
  self : Option ContRef := none

/-- The global `engine_world` together with the objects its pointers refer to.
`entity_tree` is the `std::map` from id to entity pointer, as its list of pairs (its keys are
pairwise distinct); `ent_alloc` and `cont_alloc` are the next references that an
allocation returns. -/
structure World where
  rooms : List RoomRef
  room_heap : RoomRef → Room
  cont_heap : ContRef → EngineContainer
  skeletal_models : List SkeletalModel := []
  entity_tree : List (Nat × EntRef) := []
  ent_heap : EntRef → Entity := fun _ => { m_self := 0 }
  ent_alloc : EntRef := 0
  cont_alloc : ContRef := 0
  sm_heap : SmRef → StaticMesh := fun _ => {}
  items_tree : List (Nat × BaseItem) := []
  anim_sequences : List AnimSeq := []

/-- Write `v` through the room pointer `r`. -/
def setRoom (w : World) (r : RoomRef) (v : Room) : World :=
  { w with room_heap := fun x => if x = r then v else w.room_heap x }

/-- Write `v` through the container pointer `c`. -/
def setCont (w : World) (c : ContRef) (v : EngineContainer) : World :=
  { w with cont_heap := fun x => if x = c then v else w.cont_heap x }

/-- The entries of the near-room list of `r`: indices `0 .. near_room_list_size - 1`. -/
def nearEntries (w : World) (r : RoomRef) : List RoomRef :=
  (List.range (w.room_heap r).near_room_list_size).map (w.room_heap r).near_room_list

/-! ## Container membership -/

/-- `Room_AddEntity` (world.cpp 120-132). -/
def Room_AddEntity (w : World) (room : RoomRef) (entity : Entity) : World :=
  if (w.room_heap room).containers.any (fun curr => curr == entity.m_self) then
    w
  else
    let w1 := setCont w entity.m_self { w.cont_heap entity.m_self with room := some room }
    setRoom w1 room { w1.room_heap room with
      containers := entity.m_self :: (w1.room_heap room).containers }

/-- `Room_RemoveEntity` (world.cpp 135-155); the result is the returned flag and the
new state. -/
def Room_RemoveEntity (w : World) (room : RoomRef) (entity : Option Entity) : Bool × World :=
  match entity with
  | none => (false, w)
  | some e =>
    if (w.room_heap room).containers.isEmpty then
      (false, w)
    else if (w.room_heap room).containers.contains e.m_self then
      let w1 := setRoom w room { w.room_heap room with
        containers := (w.room_heap room).containers.erase e.m_self }
      (true, setCont w1 e.m_self { w1.cont_heap e.m_self with room := none })
    else if (w.room_heap room).containers.head? == some e.m_self then
      let w1 := setRoom w room { w.room_heap room with
        containers := (w.room_heap room).containers.tail }
      (true, setCont w1 e.m_self { w1.cont_heap e.m_self with room := none })
    else
      (false, w)

/-! ## Near-room list -/

/-- `Room_IsJoined` (world.cpp 1057-1076). -/
def Room_IsJoined (w : World) (r1 r2 : RoomRef) : Bool :=
  if (w.room_heap r1).portals.any
      (fun p => (w.room_heap p.dest_room).id == (w.room_heap r2).id) then
    true
  else if (w.room_heap r2).portals.any
      (fun p => (w.room_heap p.dest_room).id == (w.room_heap r1).id) then
    true
  else
    false

/-- `Room_IsOverlapped` (world.cpp 331-346); the `int` result is `0` or `1`. -/
def Room_IsOverlapped (w : World) (r0 r1 : RoomRef) : Nat :=
  let a := w.room_heap r0
  let b := w.room_heap r1
  if r0 = r1 ∨ some r0 = b.alternate_room ∨ a.alternate_room = some r1 then
    0
  else if a.bb_min.x ≥ b.bb_max.x ∨ a.bb_max.x ≤ b.bb_min.x ∨
          a.bb_min.y ≥ b.bb_max.y ∨ a.bb_max.y ≤ b.bb_min.y ∨
          a.bb_min.z ≥ b.bb_max.z ∨ a.bb_max.z ≤ b.bb_min.z then
    0
  else if Room_IsJoined w r0 r1 then 0 else 1

/-- `Room_IsInNearRoomsList` (world.cpp 168-200); the `int` result is `0` or `1`. -/
def Room_IsInNearRoomsList (w : World) (r0 r1 : Option RoomRef) : Nat :=
  match r0, r1 with
  | some r0, some r1 =>
    let a := w.room_heap r0
    let b := w.room_heap r1
    if a.id = b.id then
      1
    else if b.near_room_list_size ≥ a.near_room_list_size then
      if (List.range a.near_room_list_size).any
          (fun i => (w.room_heap (a.near_room_list i)).id == b.id) then 1 else 0
    else
      if (List.range b.near_room_list_size).any
          (fun i => (w.room_heap (b.near_room_list i)).id == a.id) then 1 else 0
  | _, _ => 0

/-- `Room_AddToNearRoomsList` (world.cpp 158-165). -/
def Room_AddToNearRoomsList (w : World) (room r : Option RoomRef) : World :=
  match room, r with
  | some room, some r =>
    if Room_IsInNearRoomsList w (some room) (some r) = 0 ∧
        (w.room_heap room).id ≠ (w.room_heap r).id ∧
        Room_IsOverlapped w room r = 0 ∧
        (w.room_heap room).near_room_list_size < 64 then
      let a := w.room_heap room
      setRoom w room { a with
        near_room_list := fun i => if i = a.near_room_list_size then r else a.near_room_list i
        near_room_list_size := a.near_room_list_size + 1 }
    else
      w
  | _, _ => w

/-- The loop `for(const Portal& p : r->portals) Room_AddToNearRoomsList(room, p.dest_room);`
that occurs twice in `Room_BuildNearRoomsList`. -/
def addPortalDests (w : World) (room : RoomRef) (ps : List Portal) : World :=
  ps.foldl (fun w p => Room_AddToNearRoomsList w (some room) (some p.dest_room)) w

/-- `Room_BuildNearRoomsList` (world.cpp 1078-1097). -/
def Room_BuildNearRoomsList (w : World) (room : RoomRef) : World :=
  let w0 := setRoom w room { w.room_heap room with near_room_list_size := 0 }
  let w1 := addPortalDests w0 room (w0.room_heap room).portals
  let nc1 := (w1.room_heap room).near_room_list_size
  (List.range nc1).foldl
    (fun w i =>
      let r := (w.room_heap room).near_room_list i
      addPortalDests w room (w.room_heap r).portals)
    w1

/-! ## Flip protocol -/

/-- The loop over `room->containers` in `Room_Enable` (`flag = true`) and
`Room_Disable` (`flag = false`). -/
def setObjectsEnabled (w : World) (cs : List ContRef) (flag : Bool) : World :=
  cs.foldl
    (fun w cont =>
      if (w.cont_heap cont).object_type = OBJECT_ENTITY then
        setCont w cont { w.cont_heap cont with object_enabled := flag }
      else w)
    w

/-- `Room_Enable` (world.cpp 821-852). -/
def Room_Enable (w : World) (room : RoomRef) : World :=
  if (w.room_heap room).active then
    w
  else
    let w1 := setObjectsEnabled w (w.room_heap room).containers true
    setRoom w1 room { w1.room_heap room with active := true }

/-- `Room_Disable` (world.cpp 855-886). -/
def Room_Disable (w : World) (room : RoomRef) : World :=
  if !(w.room_heap room).active then
    w
  else
    let w1 := setObjectsEnabled w (w.room_heap room).containers false
    setRoom w1 room { w1.room_heap room with active := false }

/-- The body of the inner loop of `Room_SwapPortals`: the portal `p` after the test
`p.dest_room->id == room->id` and the assignment. -/
def repoint (w : World) (room dest_room : RoomRef) (p : Portal) : Portal :=
  if (w.room_heap p.dest_room).id = (w.room_heap room).id then
    { p with dest_room := dest_room }
  else p

/-- `Room_SwapPortals` (world.cpp 931-946). The inner loop writes only `dest_room`
of the portals of `r` and reads only room ids, so it is a map over `r->portals`. -/
def Room_SwapPortals (w : World) (room dest_room : RoomRef) : World :=
  w.rooms.foldl
    (fun w r =>
      let w1 := setRoom w r { w.room_heap r with
        portals := (w.room_heap r).portals.map (repoint w room dest_room) }
      Room_BuildNearRoomsList w1 r)
    w

/-- The loop `for(t : cs) t->room = dest;` of `Room_SwapItems`. -/
def setContainersRoom (w : World) (cs : List ContRef) (dest : RoomRef) : World :=
  cs.foldl (fun w t => setCont w t { w.cont_heap t with room := some dest }) w

/-- `Room_SwapItems` (world.cpp 948-961). -/
def Room_SwapItems (w : World) (room dest_room : RoomRef) : World :=
  let w1 := setContainersRoom w (w.room_heap room).containers dest_room
  let w2 := setContainersRoom w1 (w1.room_heap dest_room).containers room
  let a := (w2.room_heap room).containers
  let b := (w2.room_heap dest_room).containers
  let w3 := setRoom w2 room { w2.room_heap room with containers := b }
  setRoom w3 dest_room { w3.room_heap dest_room with containers := a }

/-- `Room_SwapToBase` (world.cpp 888-899). -/
def Room_SwapToBase (w : World) (room : RoomRef) : World :=
  match (w.room_heap room).base_room with
  | some base =>
    if (w.room_heap room).active then
      let w1 := Room_Disable w room
      let w2 := Room_Disable w1 base
      let w3 := Room_SwapPortals w2 room base
      let w4 := Room_SwapItems w3 room base
      Room_Enable w4 base
    else w
  | none => w

/-- `Room_SwapToAlternate` (world.cpp 901-912). -/
def Room_SwapToAlternate (w : World) (room : RoomRef) : World :=
  match (w.room_heap room).alternate_room with
  | some alt =>
    if (w.room_heap room).active then
      let w1 := Room_Disable w room
      let w2 := Room_Disable w1 alt
      let w3 := Room_SwapPortals w2 room alt
      let w4 := Room_SwapItems w3 room alt
      Room_Enable w4 alt
    else w
  | none => w

/-! ## Flip resolution and point queries -/

/-- The test `(p != NULL) && (p->active)` on a room pointer. -/
def activePtr (w : World) (p : Option RoomRef) : Bool :=
  match p with
  | some q => (w.room_heap q).active
  | none => false

/-- `Room_CheckFlip` (world.cpp 914-929). -/
def Room_CheckFlip (w : World) (r : Option RoomRef) : Option RoomRef :=
  match r with
  | none => none
  | some r0 =>
    if !(w.room_heap r0).active then
      if activePtr w (w.room_heap r0).base_room then
        (w.room_heap r0).base_room
      else if activePtr w (w.room_heap r0).alternate_room then
        (w.room_heap r0).alternate_room
      else
        some r0
    else
      some r0

/-- The sector a `RoomSector*` points to. -/
def sectorAt (w : World) (s : SectorRef) : RoomSector :=
  ((w.room_heap s.room).sectors[s.index]?).getD {}

/-- The address `&r->sectors[ix * r->sectors_y + iy]`. -/
def sectorAddr (w : World) (r : RoomRef) (ix iy : Int) : SectorRef :=
  ⟨r, (ix * (w.room_heap r).sectors_y + iy).toNat⟩

/-- `Sector_CheckFlip` (world.cpp 760-777). -/
def Sector_CheckFlip (w : World) (rs : Option SectorRef) : Option SectorRef :=
  match rs with
  | none => none
  | some s =>
    let owner := w.room_heap (sectorAt w s).owner_room
    if !owner.active then
      if activePtr w owner.base_room then
        match owner.base_room with
        | some r => some (sectorAddr w r (sectorAt w s).index_x (sectorAt w s).index_y)
        | none => some s
      else if activePtr w owner.alternate_room then
        match owner.alternate_room with
        | some r => some (sectorAddr w r (sectorAt w s).index_x (sectorAt w s).index_y)
        | none => some s
      else
        some s
    else
      some s

/-- The test of `Room_FindPos` on one room: active, and `pos` inside the bounding box,
half-open on every axis. -/
def activeAndContains (w : World) (r : RoomRef) (pos : Vec3) : Bool :=
  (w.room_heap r).active &&
  decide ((w.room_heap r).bb_min.x ≤ pos.x) && decide (pos.x < (w.room_heap r).bb_max.x) &&
  decide ((w.room_heap r).bb_min.y ≤ pos.y) && decide (pos.y < (w.room_heap r).bb_max.y) &&
  decide ((w.room_heap r).bb_min.z ≤ pos.z) && decide (pos.z < (w.room_heap r).bb_max.z)

/-- The loop of `Room_FindPos` over the rest `rs` of the room table. -/
def findPosLoop (w : World) (pos : Vec3) : List RoomRef → Option RoomRef
  | [] => none
  | r :: rs => if activeAndContains w r pos then some r else findPosLoop w pos rs

/-- `Room_FindPos` (world.cpp 625-638). -/
def Room_FindPos (w : World) (pos : Vec3) : Option RoomRef :=
  findPosLoop w pos w.rooms

/-- `Room_GetSectorRaw` (world.cpp 691-713). -/
def Room_GetSectorRaw (w : World) (room : Option RoomRef) (pos : Vec3) : Option SectorRef :=
  match room with
  | none => none
  | some r =>
    if !(w.room_heap r).active then
      none
    else
      let x := Int.tdiv (pos.x - (w.room_heap r).origin.x) 1024
      let y := Int.tdiv (pos.y - (w.room_heap r).origin.y) 1024
      if x < 0 ∨ x ≥ (w.room_heap r).sectors_x ∨ y < 0 ∨ y ≥ (w.room_heap r).sectors_y then
        none
      else
        some (sectorAddr w r x y)

/-- `Room_GetSectorXYZ` (world.cpp 780-818). The source dereferences the result of
`Room_CheckFlip` at once, so `room` is a non-null pointer. -/
def Room_GetSectorXYZ (w : World) (room : RoomRef) (pos : Vec3) : Option SectorRef :=
  match Room_CheckFlip w (some room) with
  | none => none
  | some r =>
    if !(w.room_heap r).active then
      none
    else
      let x := Int.tdiv (pos.x - (w.room_heap r).origin.x) 1024
      let y := Int.tdiv (pos.y - (w.room_heap r).origin.y) 1024
      if x < 0 ∨ x ≥ (w.room_heap r).sectors_x ∨ y < 0 ∨ y ≥ (w.room_heap r).sectors_y then
        none
      else
        let ret := sectorAddr w r x y
        let below := (sectorAt w ret).sector_below
        let above := (sectorAt w ret).sector_above
        if below.any (fun b => decide ((sectorAt w b).ceiling ≥ pos.z)) then
          Sector_CheckFlip w below
        else if above.any (fun a => decide ((sectorAt w a).floor ≤ pos.z)) then
          Sector_CheckFlip w above
        else
          some ret

/-! ## World registries -/

/-- The element `models[i]` of the model table. -/
def modelAt (models : List SkeletalModel) (i : Nat) : SkeletalModel :=
  (models[i]?).getD ⟨0⟩

/-- The `do ... while(min < max - 1)` loop of `World_GetModelByID`, entered with the
values `min` and `max`; `max - 1` is computed in `size_t`. The result `some (some i)` is
the pointer `&w->skeletal_models[i]`, `some none` is `nullptr`, and `none` means that the
loop is still running when the fuel is used up. -/
def getModelLoop (models : List SkeletalModel) (id : Nat) : Nat → Nat → Nat → Option (Option Nat)
  | 0, _, _ => none
  | fuel + 1, min, max =>
    let i := (min + max) / 2
    if (modelAt models i).id = id then
      some (some i)
    else
      let min1 := if (modelAt models i).id < id then i else min
      let max1 := if (modelAt models i).id < id then max else i
      if min1 < (max1 + 2 ^ 64 - 1) % 2 ^ 64 then
        getModelLoop models id fuel min1 max1
      else
        some none

/-- `World_GetModelByID` (world.cpp 1008-1033), with the fuel of its loop. -/
def World_GetModelByID (fuel : Nat) (w : World) (id : Nat) : Option (Option Nat) :=
  if (modelAt w.skeletal_models 0).id = id then
    some (some 0)
  else if (modelAt w.skeletal_models (w.skeletal_models.length - 1)).id = id then
    some (some (w.skeletal_models.length - 1))
  else
    getModelLoop w.skeletal_models id fuel 0 ((w.skeletal_models.length + 2 ^ 64 - 1) % 2 ^ 64)

/-- `entity_tree.find(id)` of the `std::map`. -/
def mapFind (m : List (Nat × EntRef)) (key : Nat) : Option EntRef :=
  (m.find? (fun kv => kv.1 == key)).map Prod.snd

/-- `entity_tree[key] = ent` of the `std::map`. -/
def mapAssign (m : List (Nat × EntRef)) (key : Nat) (ent : EntRef) : List (Nat × EntRef) :=
  if m.any (fun kv => kv.1 == key) then
    m.map (fun kv => if kv.1 = key then (key, ent) else kv)
  else
    m ++ [(key, ent)]

/-- `World_GetEntityByID` (world.cpp 591-601). -/
def World_GetEntityByID (world : Option World) (id : Nat) : Option EntRef :=
  match world with
  | none => none
  | some w => mapFind w.entity_tree id

/-- `World_AddEntity` (world.cpp 963-969); the result is the returned value and the new
state. -/
def World_AddEntity (w : World) (entity : EntRef) : Nat × World :=
  if (mapFind w.entity_tree (w.ent_heap entity).m_id).isSome then
    (1, w)
  else
    (1, { w with entity_tree := mapAssign w.entity_tree (w.ent_heap entity).m_id entity })

/-- Write `v` through the entity pointer `e`. -/
def setEnt (w : World) (e : EntRef) (v : Entity) : World :=
  { w with ent_heap := fun x => if x = e then v else w.ent_heap x }

/-- Modelled from the spec: the values of `ENTITY_TYPE_SPAWNED` and of the three state
flags are declared in `entity.h`, which is not among the sources; the spec names the
flags (enabled, active, visible). -/
def ENTITY_TYPE_SPAWNED : Nat := 0x8000

/-- Modelled from the spec: see `ENTITY_TYPE_SPAWNED`. -/
def ENTITY_STATE_ENABLED : Nat := 0x0001

/-- Modelled from the spec: see `ENTITY_TYPE_SPAWNED`. -/
def ENTITY_STATE_ACTIVE : Nat := 0x0002

/-- Modelled from the spec: see `ENTITY_TYPE_SPAWNED`. -/
def ENTITY_STATE_VISIBLE : Nat := 0x0004

/-- The conversion of an `int32_t` to `uint32_t`. -/
def toUInt32 (i : Int) : Nat := (i % 2 ^ 32).toNat

/-- The statements of `World_SpawnEntity` that set position, angles and room of the
entity `ent` from the arguments (world.cpp 506-523 and again 540-557). The call
`updateRotation()` writes the rotation part of `m_transform`, which is not modelled. -/
def spawnPlace (w : World) (ent : EntRef) (room_id : Nat) (pos ang : Option Vec3) : World :=
  let w1 := match pos with
    | some p => setEnt w ent { w.ent_heap ent with m_origin := p }
    | none => w
  let w2 := match ang with
    | some a => setEnt w1 ent { w1.ent_heap ent with m_angles := a }
    | none => w1
  match w2.rooms[room_id]? with
  | some room =>
    let w3 := setCont w2 (w2.ent_heap ent).m_self
      { w2.cont_heap (w2.ent_heap ent).m_self with room := some room }
    setEnt w3 ent { w3.ent_heap ent with
      m_currentSector := Room_GetSectorRaw w3 (w3.cont_heap (w3.ent_heap ent).m_self).room
        (w3.ent_heap ent).m_origin }
  | none =>
    setCont w2 (w2.ent_heap ent).m_self
      { w2.cont_heap (w2.ent_heap ent).m_self with room := none }

/-- Modelled from the spec: `std::make_shared<Entity>()` runs the constructor of `Entity`,
which is defined outside `world.cpp`. The new entity gets the next entity reference and
a container of its own (the next container reference) of type `OBJECT_ENTITY` that
belongs to no room. -/
def newEntity (w : World) : EntRef × World :=
  (w.ent_alloc,
    { w with
      ent_alloc := w.ent_alloc + 1
      cont_alloc := w.cont_alloc + 1
      ent_heap := fun x => if x = w.ent_alloc then { m_self := w.cont_alloc } else w.ent_heap x
      cont_heap := fun x =>
        if x = w.cont_alloc then { object_type := OBJECT_ENTITY, room := none }
        else w.cont_heap x })

/-- `World_SpawnEntity` (world.cpp 495-588), with the fuel of the model lookup. The result
is the returned id and the new state. The calls `fromModel`, `setAnimation`,
`genEntityRigidBody` and `rebuildBV` write fields of the entity that are not modelled. -/
def World_SpawnEntity (fuel : Nat) (w : World) (model_id room_id : Nat)
    (pos ang : Option Vec3) (id : Int) : Option (Nat × World) :=
  if !w.entity_tree.isEmpty then
    match World_GetModelByID fuel w model_id with
    | none => none
    | some none => some (0xFFFFFFFF, w)
    | some (some _) =>
      match World_GetEntityByID (some w) (toUInt32 id) with
      | some ent =>
        let w1 := spawnPlace w ent room_id pos ang
        some ((w1.ent_heap ent).m_id, w1)
      | none =>
        let (ent, w0) := newEntity w
        let w1 :=
          if id < 0 then
            { setEnt w0 ent { w0.ent_heap ent with m_id := w0.entity_tree.length % 2 ^ 32 } with
              entity_tree := mapAssign w0.entity_tree (toUInt32 id) ent }
          else
            setEnt w0 ent { w0.ent_heap ent with m_id := toUInt32 id }
        let w2 := spawnPlace w1 ent room_id pos ang
        let w3 := setEnt w2 ent { w2.ent_heap ent with
          m_typeFlags := ENTITY_TYPE_SPAWNED
          m_stateFlags := ENTITY_STATE_ENABLED ||| ENTITY_STATE_ACTIVE ||| ENTITY_STATE_VISIBLE }
        let w4 := match (w3.cont_heap (w3.ent_heap ent).m_self).room with
          | some room => Room_AddEntity w3 room (w3.ent_heap ent)
          | none => w3
        some ((w4.ent_heap ent).m_id, (World_AddEntity w4 ent).2)
  else
    some (0xFFFFFFFF, w)

/-! ## Teardown of a room -/

/-- Write `v` through the static mesh pointer `sm`. -/
def setSm (w : World) (sm : SmRef) (v : StaticMesh) : World :=
  { w with sm_heap := fun x => if x = sm then v else w.sm_heap x }

/-- One pass of the loop over `room->static_mesh` in `Room_Empty` (world.cpp 51-81), for
the static mesh `sm`. Releasing the rigid body (motion state, collision shape, removal
from the dynamics world, `delete`) is work of the physics library. -/
def emptyStaticMesh (w : World) (sm : SmRef) : World :=
  let w1 := match (w.sm_heap sm).bt_body with
    | some _ => setSm w sm { w.sm_heap sm with bt_body := none }
    | none => w
  let w2 := setSm w1 sm { w1.sm_heap sm with obb := none }
  match (w2.sm_heap sm).self with
  | some c =>
    let w3 := setCont w2 c { w2.cont_heap c with room := none }
    setSm w3 sm { w3.sm_heap sm with self := none }
  | none => w2

/-- `Room_Empty` (world.cpp 30-117). -/
def Room_Empty (w : World) (room : Option RoomRef) : World :=
  match room with
  | none => w
  | some r =>
    let w1 := setRoom w r { w.room_heap r with
      containers := [], near_room_list_size := 0, portals := [], frustum := [], mesh := none }
    let w2 :=
      if !(w1.room_heap r).static_mesh.isEmpty then
        let w11 := (w1.room_heap r).static_mesh.foldl emptyStaticMesh w1
        setRoom w11 r { w11.room_heap r with static_mesh := [] }
      else w1
    let w3 := match (w2.room_heap r).bt_body with
      | some _ => setRoom w2 r { w2.room_heap r with bt_body := none }
      | none => w2
    setRoom w3 r { w3.room_heap r with
      sectors := [], sectors_x := 0, sectors_y := 0, sprites := [], lights := [], self := none }

/-! ## Overlapped-room list -/

/-- The entries of the overlapped-room list of `r`: indices
`0 .. overlapped_room_list_size - 1`. -/
def overlappedEntries (w : World) (r : RoomRef) : List RoomRef :=
  (List.range (w.room_heap r).overlapped_room_list_size).map (w.room_heap r).overlapped_room_list

/-- The body of the loop of `Room_BuildOverlappedRoomsList` for the room `r` of the table;
`overlapped_room_list_size` is a `uint16_t`. The array `overlapped_room_list` has
`overlapped_room_list_declared_len` elements and the source does not compare the index
with that length: the result `none` means that the store
`overlapped_room_list[overlapped_room_list_size] = r` is outside the array, from where on
the behaviour of the program is undefined. -/
def addOverlapped (w : World) (room r : RoomRef) : Option World :=
  if Room_IsOverlapped w room r ≠ 0 then
    let a := w.room_heap room
    if a.overlapped_room_list_size < overlapped_room_list_declared_len then
      some (setRoom w room { a with
        overlapped_room_list := fun i =>
          if i = a.overlapped_room_list_size then r else a.overlapped_room_list i
        overlapped_room_list_size := (a.overlapped_room_list_size + 1) % 2 ^ 16 })
    else
      none
  else
    some w

/-- The loop of `Room_BuildOverlappedRoomsList` over the rest `rs` of the room table. -/
def overlappedLoop (room : RoomRef) : List RoomRef → World → Option World
  | [], w => some w
  | r :: rs, w =>
    match addOverlapped w room r with
    | some w1 => overlappedLoop room rs w1
    | none => none

/-- `Room_BuildOverlappedRoomsList` (world.cpp 1099-1111); `none` when a store of the loop
is outside the array `overlapped_room_list`. -/
def Room_BuildOverlappedRoomsList (w : World) (room : RoomRef) : Option World :=
  let w0 := setRoom w room { w.room_heap room with overlapped_room_list_size := 0 }
  overlappedLoop room w0.rooms w0

/-! ## Sector resolution -/

/-- Modelled from the spec: the constant `TR_METERING_SECTORSIZE` is not declared in the
sources; the spec gives the sector edge length as 1024 world units. -/
def TR_METERING_SECTORSIZE : Int := 1024

/-- The element `engine_world.rooms[k]` of the room table. Reading beyond the table is
outside the model (the result is then the reference `0`). -/
def roomAt (w : World) (k : Int) : RoomRef :=
  w.rooms.getD k.toNat 0

/-- The first grid index that the resolution functions compute for the sector `s` in the
room `r`. -/
def resolveIndX (w : World) (s : SectorRef) (r : RoomRef) : Int :=
  Int.tdiv ((sectorAt w s).pos.x - (w.room_heap r).origin.x) TR_METERING_SECTORSIZE

/-- The second grid index that the resolution functions compute for the sector `s` in
the room `r`. -/
def resolveIndY (w : World) (s : SectorRef) (r : RoomRef) : Int :=
  Int.tdiv ((sectorAt w s).pos.y - (w.room_heap r).origin.y) TR_METERING_SECTORSIZE

/-- The block that ends each of the four resolution functions: compute the two indices of
the sector `s` in the room `r` and, when they are in range, take the sector of `r` at
these indices; otherwise keep `s`. -/
def resolveInRoom (w : World) (s : SectorRef) (r : RoomRef) : SectorRef :=
  if resolveIndX w s r ≥ 0 ∧ resolveIndX w s r < (w.room_heap r).sectors_x ∧
      resolveIndY w s r ≥ 0 ∧ resolveIndY w s r < (w.room_heap r).sectors_y then
    sectorAddr w r (resolveIndX w s r) (resolveIndY w s r)
  else
    s

/-- `TR_Sector_CheckPortalPointerRaw` (world.cpp 214-228). -/
def TR_Sector_CheckPortalPointerRaw (w : World) (rs : Option SectorRef) : Option SectorRef :=
  match rs with
  | none => none
  | some s =>
    if (sectorAt w s).portal_to_room ≥ 0 then
      some (resolveInRoom w s (roomAt w (sectorAt w s).portal_to_room))
    else
      some s

/-- The room in which `TR_Sector_CheckPortalPointer` looks for the sector: the room of the
portal, replaced by its alternate room when the owner room of `s` has a base room, or by
its base room when the owner room of `s` has an alternate room. -/
def flipTarget (w : World) (s : SectorRef) : RoomRef :=
  let r := roomAt w (sectorAt w s).portal_to_room
  let owner := w.room_heap (sectorAt w s).owner_room
  match owner.base_room, (w.room_heap r).alternate_room with
  | some _, some a => a
  | _, _ =>
    match owner.alternate_room, (w.room_heap r).base_room with
    | some _, some b => b
    | _, _ => r

/-- `TR_Sector_CheckPortalPointer` (world.cpp 231-253). -/
def TR_Sector_CheckPortalPointer (w : World) (rs : Option SectorRef) : Option SectorRef :=
  match rs with
  | none => none
  | some s =>
    if (sectorAt w s).portal_to_room ≥ 0 then
      some (resolveInRoom w s (flipTarget w s))
    else
      some s

/-- `TR_Sector_CheckBaseRoom` (world.cpp 256-270). -/
def TR_Sector_CheckBaseRoom (w : World) (rs : Option SectorRef) : Option SectorRef :=
  match rs with
  | none => none
  | some s =>
    match (w.room_heap (sectorAt w s).owner_room).base_room with
    | some r => some (resolveInRoom w s r)
    | none => some s

/-- `TR_Sector_CheckAlternateRoom` (world.cpp 273-287). -/
def TR_Sector_CheckAlternateRoom (w : World) (rs : Option SectorRef) : Option SectorRef :=
  match rs with
  | none => none
  | some s =>
    match (w.room_heap (sectorAt w s).owner_room).alternate_room with
    | some r => some (resolveInRoom w s r)
    | none => some s

/-! ## Two-sided portals -/

/-- `Sectors_Is2SidePortals` (world.cpp 290-328). The source dereferences each of its
sector pointers without a null test; the result `none` means that the pointer returned
by `Room_GetSectorRaw` that it dereferences is null. -/
def Sectors_Is2SidePortals (w : World) (s1 s2 : SectorRef) : Option Nat :=
  match TR_Sector_CheckPortalPointer w (some s1), TR_Sector_CheckPortalPointer w (some s2) with
  | some s1, some s2 =>
    if (sectorAt w s1).owner_room = (sectorAt w s2).owner_room then
      some 0
    else
      match Room_GetSectorRaw w (some (sectorAt w s2).owner_room) (sectorAt w s1).pos with
      | none => none
      | some s1p =>
        let s1p1 :=
          if (sectorAt w s1p).portal_to_room < 0 then TR_Sector_CheckAlternateRoom w (some s1p)
          else some s1p
        match s1p1 with
        | none => none
        | some s1p2 =>
          if (sectorAt w s1p).portal_to_room < 0 ∧ (sectorAt w s1p2).portal_to_room < 0 then
            some 0
          else
            match Room_GetSectorRaw w (some (sectorAt w s1).owner_room) (sectorAt w s2).pos with
            | none => none
            | some s2p =>
              let s2p1 :=
                if (sectorAt w s2p).portal_to_room < 0 then
                  TR_Sector_CheckAlternateRoom w (some s2p)
                else some s2p
              match s2p1 with
              | none => none
              | some s2p2 =>
                if (sectorAt w s2p).portal_to_room < 0 ∧
                    (sectorAt w s2p2).portal_to_room < 0 then
                  some 0
                else if
                    (TR_Sector_CheckPortalPointer w (some s1p2)
                        = TR_Sector_CheckBaseRoom w (some s1) ∧
                      TR_Sector_CheckPortalPointer w (some s2p2)
                        = TR_Sector_CheckBaseRoom w (some s2)) ∨
                    (TR_Sector_CheckPortalPointer w (some s1p2)
                        = TR_Sector_CheckAlternateRoom w (some s1) ∧
                      TR_Sector_CheckPortalPointer w (some s2p2)
                        = TR_Sector_CheckAlternateRoom w (some s2)) then
                  some 1
                else
                  some 0
  | _, _ => none

/-! ## Point query with a hint room -/

/-- `items_tree[key] = item` of the `std::map`. -/
def itemAssign (m : List (Nat × BaseItem)) (key : Nat) (item : BaseItem) :
    List (Nat × BaseItem) :=
  if m.any (fun kv => kv.1 == key) then
    m.map (fun kv => if kv.1 = key then (key, item) else kv)
  else
    m ++ [(key, item)]

/-- `World_CreateItem` (world.cpp 972-998), with the fuel of the model lookup; the result
is the returned value and the new state. `strncpy` copies at most 64 characters of the
name. -/
def World_CreateItem (fuel : Nat) (w : World) (item_id model_id world_model_id type count : Nat)
    (name : Option (List Char)) : Option (Nat × World) :=
  match World_GetModelByID fuel w model_id with
  | none => none
  | some model =>
    if model = none ∨ w.items_tree.isEmpty then
      some (0, w)
    else
      let item : BaseItem :=
        { id := item_id, world_model_id := world_model_id, type := type, count := count,
          name := (name.getD []).take 64, bf_model := model }
      some (1, { w with items_tree := itemAssign w.items_tree item.id item })

/-! ## Animated textures -/

/-- The `switch` of `World::updateAnimTextures` (world.cpp 1132-1167): one frame advance
of the sequence. `current_frame` is a `uint16_t`, `frames.size()` a `size_t`. -/
def advanceFrame (seq : AnimSeq) : AnimSeq :=
  match seq.anim_type with
  | AnimTextureType.Reverse =>
    if seq.reverse_direction then
      if seq.current_frame = 0 then
        { seq with current_frame := (seq.current_frame + 1) % 2 ^ 16, reverse_direction := false }
      else if seq.current_frame > 0 then
        { seq with current_frame := (seq.current_frame + 2 ^ 16 - 1) % 2 ^ 16 }
      else
        seq
    else
      let seq1 :=
        if seq.current_frame = (seq.frames.length + 2 ^ 64 - 1) % 2 ^ 64 then
          { seq with
            current_frame := (seq.current_frame + 2 ^ 16 - 1) % 2 ^ 16, reverse_direction := true }
        else if seq.current_frame < (seq.frames.length + 2 ^ 64 - 1) % 2 ^ 64 then
          { seq with current_frame := (seq.current_frame + 1) % 2 ^ 16 }
        else
          seq
      { seq1 with current_frame := (seq1.current_frame % seq1.frames.length) % 2 ^ 16 }
  | _ =>
    { seq with
      current_frame := (((seq.current_frame + 1) % 2 ^ 16) % seq.frames.length) % 2 ^ 16 }

/-- The body of the loop of `World::updateAnimTextures` for one sequence;
`engine_frame_time` is the global of that name. -/
def updateAnimSeq (engine_frame_time : Int) (seq : AnimSeq) : AnimSeq :=
  if seq.frame_lock then
    seq
  else
    let seq1 := { seq with frame_time := seq.frame_time + engine_frame_time }
    if seq1.frame_time ≥ seq1.frame_rate then
      let j := Int.tdiv seq1.frame_time seq1.frame_rate
      advanceFrame { seq1 with frame_time := seq1.frame_time - j * seq1.frame_rate }
    else
      seq1

/-- `World::updateAnimTextures` (world.cpp 1117-1170). -/
def World.updateAnimTextures (w : World) (engine_frame_time : Int) : World :=
  { w with anim_sequences := w.anim_sequences.map (updateAnimSeq engine_frame_time) }

/-! ## Definitions used in the statements and proofs -/

/-- A room with its near-room list forgotten. -/
def Room.eraseNear (a : Room) : Room :=
  { a with near_room_list_size := 0, near_room_list := fun _ => 0 }

/-- The state `w2` differs from `w1` at most in near-room lists. -/
def NearOnly (w1 w2 : World) : Prop :=
  w2.rooms = w1.rooms ∧ w2.cont_heap = w1.cont_heap ∧
    ∀ x, (w2.room_heap x).eraseNear = (w1.room_heap x).eraseNear

/-- The five calls made by `Room_SwapToBase` and `Room_SwapToAlternate` once their
guard holds, `other` being the base room or the alternate room of `room`. -/
def flipTo (w : World) (room other : RoomRef) : World :=
  Room_Enable (Room_SwapItems (Room_SwapPortals (Room_Disable (Room_Disable w room) other)
    room other) room other) other

/-- Container exclusivity: every container occurs in the list of at most one room, at
most once there, and refers back to the room whose list holds it. -/
def ContainerExclusive (w : World) : Prop :=
  (∀ r1 r2 c, c ∈ (w.room_heap r1).containers → c ∈ (w.room_heap r2).containers → r1 = r2) ∧
  (∀ r, (w.room_heap r).containers.Nodup) ∧
  (∀ r c, c ∈ (w.room_heap r).containers → (w.cont_heap c).room = some r)

/-- The point `P` is inside the bounding box of the room `a`, half-open on every axis. -/
def ContainsPoint (a : Room) (P : Vec3) : Prop :=
  a.bb_min.x ≤ P.x ∧ P.x < a.bb_max.x ∧
  a.bb_min.y ≤ P.y ∧ P.y < a.bb_max.y ∧
  a.bb_min.z ≤ P.z ∧ P.z < a.bb_max.z

instance (a : Room) (P : Vec3) : Decidable (ContainsPoint a P) := by
  unfold ContainsPoint
  infer_instance

/-- The ids of the model table are strictly ascending. -/
def AscendingIds (models : List SkeletalModel) : Prop :=
  models.Pairwise (fun a b => a.id < b.id)

instance (models : List SkeletalModel) : Decidable (AscendingIds models) := by
  unfold AscendingIds
  infer_instance

/-- A room with its overlapped-room list forgotten. -/
def Room.eraseOverlapped (a : Room) : Room :=
  { a with overlapped_room_list_size := 0, overlapped_room_list := fun _ => 0 }

/-- The room `e` is the destination of a portal of the room `R`. -/
def DirectDest (w : World) (R e : RoomRef) : Prop :=
  ∃ p ∈ (w.room_heap R).portals, p.dest_room = e

/-- The room `e` is the destination of a portal of `R`, or the destination of a portal of
a room that is the destination of a portal of `R`. -/
def TwoHopDest (w : World) (R e : RoomRef) : Prop :=
  DirectDest w R e ∨ ∃ m, DirectDest w R m ∧ DirectDest w m e

/-! ## Concrete worlds -/

/-- A base room `0` (id 10) with alternate `1` (id 11) and a third room `2` with a
portal to room `0`; container `5` is in room `0`, container `6` in room `1`. -/
def flipWorld : World :=
  { rooms := [0, 1, 2]
    room_heap := fun r =>
      if r = 0 then { id := 10, active := true, alternate_room := some 1, containers := [5] }
      else if r = 1 then { id := 11, active := false, base_room := some 0, containers := [6] }
      else if r = 2 then { id := 12, portals := [⟨0, 7⟩] }
      else { id := 100 + r }
    cont_heap := fun c =>
      if c = 5 then { room := some 0 }
      else if c = 6 then { room := some 1 }
      else {} }

/-- The state `flipWorld` after the flip to the alternate room: room `1` is active. -/
def flippedWorld : World :=
  { rooms := [0, 1, 2]
    room_heap := fun r =>
      if r = 0 then { id := 10, active := false, alternate_room := some 1, containers := [6] }
      else if r = 1 then { id := 11, active := true, base_room := some 0, containers := [5] }
      else if r = 2 then { id := 12, portals := [⟨1, 7⟩] }
      else { id := 100 + r }
    cont_heap := fun c =>
      if c = 5 then { room := some 1 }
      else if c = 6 then { room := some 0 }
      else {} }

/-- Two rooms; container `5` is in the list of room `1` and refers back to room `1`. -/
def twoRoomWorld : World :=
  { rooms := [0, 1]
    room_heap := fun r =>
      if r = 1 then { id := 1, containers := [5] } else { id := r }
    cont_heap := fun c => if c = 5 then { room := some 1 } else {} }

/-- Room `0` has portals to rooms `1`, `2` and `3`; room `3` has a portal back to room `0`.
Rooms `1`, `2` and `3` occupy the same box (stacked rooms) next to the box of room `0`.
The near-room list of room `3` is `[0]`, which is what `Room_BuildNearRoomsList` computes
for it in this world; the near-room lists of rooms `1` and `2` are empty. -/
def staleNearWorld : World :=
  { rooms := [0, 1, 2, 3]
    room_heap := fun r =>
      if r = 0 then
        { id := 0, bb_min := ⟨10, 0, 0⟩, bb_max := ⟨20, 10, 10⟩,
          portals := [⟨1, 0⟩, ⟨2, 0⟩, ⟨3, 0⟩] }
      else if r = 3 then
        { id := 3, bb_min := ⟨0, 0, 0⟩, bb_max := ⟨10, 10, 10⟩, portals := [⟨0, 0⟩],
          near_room_list_size := 1, near_room_list := fun _ => 0 }
      else { id := r, bb_min := ⟨0, 0, 0⟩, bb_max := ⟨10, 10, 10⟩ }
    cont_heap := fun _ => {} }

/-- Room `0` has two portals to room `1` and, between them, one to room `2`; every
near-room list is empty, as after loading. -/
def doublePortalWorld : World :=
  { rooms := [0, 1, 2]
    room_heap := fun r =>
      if r = 0 then { id := 0, portals := [⟨1, 0⟩, ⟨2, 0⟩, ⟨1, 1⟩] }
      else { id := r }
    cont_heap := fun _ => {} }

/-- Rooms in table order `0, 1, 2, 3`: room `0` has a portal to room `1`, room `1` has a
portal to room `2`, room `2` is an active base room whose alternate is room `3`. The
near-room lists are those of this portal graph: `[1, 2]` for room `0`, `[2]` for room `1`. -/
def chainWorld : World :=
  { rooms := [0, 1, 2, 3]
    room_heap := fun r =>
      if r = 0 then
        { id := 0, portals := [⟨1, 0⟩], near_room_list_size := 2,
          near_room_list := fun i => if i = 0 then 1 else 2 }
      else if r = 1 then
        { id := 1, portals := [⟨2, 0⟩], near_room_list_size := 1, near_room_list := fun _ => 2 }
      else if r = 2 then { id := 2, active := true, alternate_room := some 3 }
      else if r = 3 then { id := 3, active := false, base_room := some 2 }
      else { id := r }
    cont_heap := fun _ => {} }

/-- Room `0` has 70 portals, to the rooms `1 .. 70`, whose ids are their references. -/
def manyPortalWorld : World :=
  { rooms := List.range 71
    room_heap := fun r =>
      if r = 0 then { id := 0, portals := (List.range 70).map (fun k => ⟨k + 1, k⟩) }
      else { id := r }
    cont_heap := fun _ => {} }

/-- Room `0` with box `[0,10)^3` and room `1` with box `[5,15)^3`, not joined by a portal;
room `2` has the box of room `1` and a portal to room `0`; room `3` is inactive and has the
box of room `0`. -/
def overlapWorld : World :=
  { rooms := [3, 0, 1, 2]
    room_heap := fun r =>
      if r = 0 then { id := 0, bb_min := ⟨0, 0, 0⟩, bb_max := ⟨10, 10, 10⟩ }
      else if r = 1 then { id := 1, bb_min := ⟨5, 5, 5⟩, bb_max := ⟨15, 15, 15⟩ }
      else if r = 2 then
        { id := 2, bb_min := ⟨5, 5, 5⟩, bb_max := ⟨15, 15, 15⟩, portals := [⟨0, 0⟩] }
      else if r = 3 then
        { id := 3, active := false, bb_min := ⟨0, 0, 0⟩, bb_max := ⟨10, 10, 10⟩ }
      else { id := r }
    cont_heap := fun _ => {} }

/-- One active room `0` with origin `(0, 0, 0)` and a grid of `2 x 3` sectors, stored in the
order `x * 3 + y`; room `1` is inactive. -/
def gridWorld : World :=
  { rooms := [0, 1]
    room_heap := fun r =>
      if r = 0 then
        { id := 0, active := true, origin := ⟨0, 0, 0⟩, sectors_x := 2, sectors_y := 3,
          bb_min := ⟨0, 0, 0⟩, bb_max := ⟨2048, 3072, 1024⟩,
          sectors := (List.range 6).map (fun k =>
            { owner_room := 0, index_x := k / 3, index_y := k % 3,
              pos := ⟨1024 * (k / 3) + 512, 1024 * (k % 3) + 512, 0⟩ }) }
      else { id := r, active := false }
    cont_heap := fun _ => {} }

/-- Three active rooms with one sector each at the same place: the sector of room `0` has
the sector of room `1` (ceiling `100`) as `sector_below` and the sector of room `2`
(floor `0`) as `sector_above`. -/
def stackWorld : World :=
  { rooms := [0, 1, 2]
    room_heap := fun r =>
      if r = 0 then
        { id := 0, sectors_x := 1, sectors_y := 1,
          sectors := [{ owner_room := 0, floor := 0, ceiling := 200,
                        sector_below := some ⟨1, 0⟩, sector_above := some ⟨2, 0⟩ }] }
      else if r = 1 then
        { id := 1, sectors_x := 1, sectors_y := 1,
          sectors := [{ owner_room := 1, floor := -100, ceiling := 100 }] }
      else if r = 2 then
        { id := 2, sectors_x := 1, sectors_y := 1,
          sectors := [{ owner_room := 2, floor := 0, ceiling := 300 }] }
      else { id := r }
    cont_heap := fun _ => {} }

/-- A world without rooms whose model table has the given ids, in this order. -/
def modelWorld (ids : List Nat) : World :=
  { rooms := []
    room_heap := fun r => { id := r }
    cont_heap := fun _ => {}
    skeletal_models := ids.map (fun i => ⟨i⟩) }

/-- Rooms `0` and `1` (room `0` with one sector), models with the ids `10, 20, 30`, and one
entity (reference `0`, id `7`, container `3`) stored under the key `7`; the entity is at
`(0, 0, 0)` in room `1`. -/
def spawnWorld : World :=
  { rooms := [0, 1]
    room_heap := fun r =>
      if r = 0 then { id := 0, sectors_x := 1, sectors_y := 1, sectors := [{ owner_room := 0 }] }
      else if r = 1 then { id := 1, containers := [3] }
      else { id := r }
    cont_heap := fun c => if c = 3 then { room := some 1 } else {}
    skeletal_models := [⟨10⟩, ⟨20⟩, ⟨30⟩]
    entity_tree := [(7, 0)]
    ent_heap := fun e => if e = 0 then { m_self := 3, m_id := 7 } else { m_self := 0 }
    ent_alloc := 1
    cont_alloc := 4 }

/-- Room `0` with two containers, a portal, a sector, a rigid body and two static meshes:
static mesh `0` has a rigid body, a bounding box and the container `8`, static mesh `1`
has none of them. Room `1` has nothing. -/
def meshWorld : World :=
  { rooms := [0, 1]
    room_heap := fun r =>
      if r = 0 then
        { id := 0, containers := [5, 6], portals := [⟨1, 0⟩], sectors_x := 1, sectors_y := 1,
          sectors := [{ owner_room := 0 }], near_room_list_size := 1,
          near_room_list := fun _ => 1, static_mesh := [0, 1], bt_body := some 40,
          mesh := some 3, sprites := [1], lights := [2], self := some 7 }
      else { id := r }
    cont_heap := fun c =>
      if c = 5 ∨ c = 6 ∨ c = 8 then { room := some 0 } else {}
    sm_heap := fun s =>
      if s = 0 then { bt_body := some 41, obb := some 1, self := some 8 } else {} }

/-- Rooms `0 .. 65`, all with the box `[0,10)^3`, without portals and alternate rooms: the
65 rooms `1 .. 65` overlap room `0`. -/
def crowdWorld : World :=
  { rooms := List.range 66
    room_heap := fun r => { id := r, bb_min := ⟨0, 0, 0⟩, bb_max := ⟨10, 10, 10⟩ }
    cont_heap := fun _ => {} }

/-- Rooms `0` and `1` side by side, each with one sector: the sector of room `0` (position
`(512, 512, 0)`) is a portal sector to the room at table position `1`, whose origin is
`(0, 0, 0)`; room `2` is a room with one sector far away (origin `(8192, 0, 0)`), the base
room of room `3`; the sector of room `3` is a portal sector to table position `2`. -/
def portalWorld : World :=
  { rooms := [0, 1, 2, 3]
    room_heap := fun r =>
      if r = 0 then
        { id := 0, origin := ⟨0, 0, 0⟩, sectors_x := 1, sectors_y := 1,
          sectors := [{ owner_room := 0, pos := ⟨512, 512, 0⟩, portal_to_room := 1 }] }
      else if r = 1 then
        { id := 1, origin := ⟨0, 0, 0⟩, sectors_x := 1, sectors_y := 1,
          sectors := [{ owner_room := 1, pos := ⟨512, 512, 0⟩, portal_to_room := -1 }] }
      else if r = 2 then
        { id := 2, origin := ⟨8192, 0, 0⟩, sectors_x := 1, sectors_y := 1,
          alternate_room := some 3,
          sectors := [{ owner_room := 2, pos := ⟨8704, 512, 0⟩, portal_to_room := -1 }] }
      else if r = 3 then
        { id := 3, origin := ⟨0, 0, 0⟩, sectors_x := 1, sectors_y := 1, active := false,
          base_room := some 2,
          sectors := [{ owner_room := 3, pos := ⟨512, 512, 0⟩, portal_to_room := 2 }] }
      else { id := r }
    cont_heap := fun _ => {} }

/-- The world `spawnWorld` with a model table of the single id `10`. -/
def oneModelWorld : World :=
  { spawnWorld with skeletal_models := [⟨10⟩] }

/-- Room `0` (box `[0,10)^3`) has a portal to room `1`, room `1` has a portal to room `2`;
the box `[5,15)^3` of room `2` intersects the box of room `0`, and rooms `0` and `2` are
not joined by a portal. -/
def nearOverlapWorld : World :=
  { rooms := [0, 1, 2]
    room_heap := fun r =>
      if r = 0 then
        { id := 0, bb_min := ⟨0, 0, 0⟩, bb_max := ⟨10, 10, 10⟩, portals := [⟨1, 0⟩] }
      else if r = 1 then
        { id := 1, bb_min := ⟨10, 0, 0⟩, bb_max := ⟨20, 10, 10⟩, portals := [⟨2, 0⟩] }
      else if r = 2 then { id := 2, bb_min := ⟨5, 5, 5⟩, bb_max := ⟨15, 15, 15⟩ }
      else { id := r }
    cont_heap := fun _ => {} }

/-- Four rooms with the same grid of `1 x 2` sectors at the origin `(0, 0, 0)`: room `0` is
a base room with the alternate room `2`, room `1` is a base room with the alternate room
`3`. In rooms `0` and `2` the first sector is a portal sector to table position `1` and
the second one a portal sector to table position `3`. -/
def flipPortalWorld : World :=
  { rooms := [0, 1, 2, 3]
    room_heap := fun r =>
      if r = 0 then
        { id := 0, sectors_x := 1, sectors_y := 2, alternate_room := some 2,
          sectors := [{ owner_room := 0, pos := ⟨512, 512, 0⟩, portal_to_room := 1 },
                      { owner_room := 0, pos := ⟨512, 1536, 0⟩, portal_to_room := 3 }] }
      else if r = 1 then
        { id := 1, sectors_x := 1, sectors_y := 2, alternate_room := some 3,
          sectors := [{ owner_room := 1, pos := ⟨512, 512, 0⟩ },
                      { owner_room := 1, pos := ⟨512, 1536, 0⟩ }] }
      else if r = 2 then
        { id := 2, active := false, sectors_x := 1, sectors_y := 2, base_room := some 0,
          sectors := [{ owner_room := 2, pos := ⟨512, 512, 0⟩, portal_to_room := 1 },
                      { owner_room := 2, pos := ⟨512, 1536, 0⟩, portal_to_room := 3 }] }
      else if r = 3 then
        { id := 3, active := false, sectors_x := 1, sectors_y := 2, base_room := some 1,
          sectors := [{ owner_room := 3, pos := ⟨512, 512, 0⟩ },
                      { owner_room := 3, pos := ⟨512, 1536, 0⟩ }] }
      else { id := r }
    cont_heap := fun _ => {} }

/-- Two rooms whose ids are not their table positions: the room at position `0` has id
`1`, the room at position `1` has id `0`. The sector of the room at position `0` is a
portal sector with `portal_to_room = 1`. -/
def idWorld : World :=
  { rooms := [0, 1]
    room_heap := fun r =>
      if r = 0 then
        { id := 1, sectors_x := 1, sectors_y := 1,
          sectors := [{ owner_room := 0, pos := ⟨512, 512, 0⟩, portal_to_room := 1 }] }
      else if r = 1 then
        { id := 0, sectors_x := 1, sectors_y := 1,
          sectors := [{ owner_room := 1, pos := ⟨512, 512, 0⟩ }] }
      else { id := r }
    cont_heap := fun _ => {} }

/-- Four rooms whose ids are their references: the near-room list of room `0` is `[1, 2]`,
the near-room list of room `3` is `[0]`, the near-room lists of rooms `1` and `2` are
empty. -/
def nearListWorld : World :=
  { rooms := [0, 1, 2, 3]
    room_heap := fun r =>
      if r = 0 then
        { id := 0, near_room_list_size := 2, near_room_list := fun i => if i = 0 then 1 else 2 }
      else if r = 3 then { id := 3, near_room_list_size := 1, near_room_list := fun _ => 0 }
      else { id := r }
    cont_heap := fun _ => {} }

/-- The world `modelWorld [10]` with one item stored under the id `1`. -/
def itemWorld : World :=
  { modelWorld [10] with items_tree := [(1, {})] }

/-- An animated-texture sequence of one frame, of the type `TR_ANIMTEXTURE_REVERSE`, not
locked, at frame `0`, with one time unit per frame. -/
def oneFrameSeq (reverse_direction : Bool) : AnimSeq :=
  { anim_type := AnimTextureType.Reverse, reverse_direction := reverse_direction,
    current_frame := 0, frame_time := 0, frame_rate := 1, frames := [7] }

/-- Rooms `0 .. 33`, all with the box `[0,10)^3`, without portals and alternate rooms: the
33 rooms `1 .. 33` overlap room `0`. -/
def packedWorld : World :=
  { rooms := List.range 34
    room_heap := fun r => { id := r, bb_min := ⟨0, 0, 0⟩, bb_max := ⟨10, 10, 10⟩ }
    cont_heap := fun _ => {} }

/-- Room `0`, active, with one sector, and its alternate room `1`, inactive, with one
sector at the same place: the sector of room `0` has the sector of room `1` (ceiling
`100`) as `sector_below`. -/
def twinBelowWorld : World :=
  { rooms := [0, 1]
    room_heap := fun r =>
      if r = 0 then
        { id := 0, sectors_x := 1, sectors_y := 1, alternate_room := some 1,
          sectors := [{ owner_room := 0, floor := 0, ceiling := 200,
                        sector_below := some ⟨1, 0⟩ }] }
      else if r = 1 then
        { id := 1, active := false, sectors_x := 1, sectors_y := 1, base_room := some 0,
          sectors := [{ owner_room := 1, floor := -100, ceiling := 100 }] }
      else { id := r }
    cont_heap := fun _ => {} }

/-! ## Basic facts about the two stores -/

@[simp] theorem setRoom_rooms (w : World) (r : RoomRef) (v : Room) :
    (setRoom w r v).rooms = w.rooms := rfl

@[simp] theorem setRoom_cont_heap (w : World) (r : RoomRef) (v : Room) :
    (setRoom w r v).cont_heap = w.cont_heap := rfl

theorem setRoom_room_heap (w : World) (r : RoomRef) (v : Room) (x : RoomRef) :
    (setRoom w r v).room_heap x = if x = r then v else w.room_heap x := rfl

@[simp] theorem setRoom_room_heap_same (w : World) (r : RoomRef) (v : Room) :
    (setRoom w r v).room_heap r = v := by simp [setRoom_room_heap]

theorem setRoom_room_heap_other (w : World) (r : RoomRef) (v : Room) (x : RoomRef)
    (h : x ≠ r) : (setRoom w r v).room_heap x = w.room_heap x := by
  simp [setRoom_room_heap, h]

@[simp] theorem setCont_rooms (w : World) (c : ContRef) (v : EngineContainer) :
    (setCont w c v).rooms = w.rooms := rfl

@[simp] theorem setCont_room_heap (w : World) (c : ContRef) (v : EngineContainer) :
    (setCont w c v).room_heap = w.room_heap := rfl

theorem setCont_cont_heap (w : World) (c : ContRef) (v : EngineContainer) (x : ContRef) :
    (setCont w c v).cont_heap x = if x = c then v else w.cont_heap x := rfl

theorem NearOnly.refl (w : World) : NearOnly w w := ⟨rfl, rfl, fun _ => rfl⟩

theorem NearOnly.trans {w1 w2 w3 : World} (h12 : NearOnly w1 w2) (h23 : NearOnly w2 w3) :
    NearOnly w1 w3 :=
  ⟨h23.1.trans h12.1, h23.2.1.trans h12.2.1, fun x => (h23.2.2 x).trans (h12.2.2 x)⟩

theorem NearOnly.id_eq {w1 w2 : World} (h : NearOnly w1 w2) (x : RoomRef) :
    (w2.room_heap x).id = (w1.room_heap x).id := by
  have h1 := congrArg Room.id (h.2.2 x)
  exact h1

theorem NearOnly.active_eq {w1 w2 : World} (h : NearOnly w1 w2) (x : RoomRef) :
    (w2.room_heap x).active = (w1.room_heap x).active := by
  have h1 := congrArg Room.active (h.2.2 x)
  exact h1

theorem NearOnly.containers_eq {w1 w2 : World} (h : NearOnly w1 w2) (x : RoomRef) :
    (w2.room_heap x).containers = (w1.room_heap x).containers := by
  have h1 := congrArg Room.containers (h.2.2 x)
  exact h1

theorem NearOnly.portals_eq {w1 w2 : World} (h : NearOnly w1 w2) (x : RoomRef) :
    (w2.room_heap x).portals = (w1.room_heap x).portals := by
  have h1 := congrArg Room.portals (h.2.2 x)
  exact h1

theorem NearOnly.alternate_eq {w1 w2 : World} (h : NearOnly w1 w2) (x : RoomRef) :
    (w2.room_heap x).alternate_room = (w1.room_heap x).alternate_room := by
  have h1 := congrArg Room.alternate_room (h.2.2 x)
  exact h1

theorem NearOnly.base_eq {w1 w2 : World} (h : NearOnly w1 w2) (x : RoomRef) :
    (w2.room_heap x).base_room = (w1.room_heap x).base_room := by
  have h1 := congrArg Room.base_room (h.2.2 x)
  exact h1

theorem nearOnly_setRoom (w : World) (r : RoomRef) (n : Nat) (f : Nat → RoomRef) :
    NearOnly w (setRoom w r { w.room_heap r with near_room_list_size := n, near_room_list := f }) := by
  refine ⟨rfl, rfl, fun x => ?_⟩
  by_cases h : x = r
  · subst h; simp [Room.eraseNear]
  · simp [setRoom_room_heap, h]

theorem nearOnly_addToNear (w : World) (a b : Option RoomRef) :
    NearOnly w (Room_AddToNearRoomsList w a b) := by
  unfold Room_AddToNearRoomsList
  split
  · split
    · exact nearOnly_setRoom w _ _ _
    · exact NearOnly.refl w
  · exact NearOnly.refl w

theorem nearOnly_addPortalDests (w : World) (room : RoomRef) (ps : List Portal) :
    NearOnly w (addPortalDests w room ps) := by
  induction ps generalizing w with
  | nil => exact NearOnly.refl w
  | cons p ps ih =>
    exact (nearOnly_addToNear w _ _).trans (ih _)

theorem nearOnly_build (w : World) (room : RoomRef) :
    NearOnly w (Room_BuildNearRoomsList w room) := by
  unfold Room_BuildNearRoomsList
  have h0 : NearOnly w (setRoom w room { w.room_heap room with near_room_list_size := 0 }) :=
    nearOnly_setRoom w room 0 (w.room_heap room).near_room_list
  have key : ∀ (l : List Nat) (v : World), NearOnly v
      (l.foldl (fun w i => addPortalDests w room
        (w.room_heap ((w.room_heap room).near_room_list i)).portals) v) := by
    intro l
    induction l with
    | nil => intro v; exact NearOnly.refl v
    | cons i l ih =>
      intro v
      exact (nearOnly_addPortalDests v room _).trans (ih _)
  exact (h0.trans (nearOnly_addPortalDests _ _ _)).trans (key _ _)


/-! ## The portal loop of the flip -/

theorem repoint_congr (w1 w2 : World) (h : ∀ x, (w2.room_heap x).id = (w1.room_heap x).id)
    (room dest_room : RoomRef) : repoint w2 room dest_room = repoint w1 room dest_room := by
  funext p
  simp [repoint, h]

theorem repoint_idem (w : World) (room dest_room : RoomRef) (p : Portal) :
    repoint w room dest_room (repoint w room dest_room p) = repoint w room dest_room p := by
  unfold repoint
  by_cases h1 : (w.room_heap p.dest_room).id = (w.room_heap room).id
  · simp only [h1, if_true]
    split <;> rfl
  · simp [h1]

theorem repoint_geometry (w : World) (room dest_room : RoomRef) (p : Portal) :
    (repoint w room dest_room p).geometry = p.geometry := by
  unfold repoint
  split <;> rfl

/-- One pass of the outer loop of `Room_SwapPortals`. -/
theorem swapPortals_step_room (w : World) (room dest_room r x : RoomRef) :
    ((Room_BuildNearRoomsList (setRoom w r { w.room_heap r with
        portals := (w.room_heap r).portals.map (repoint w room dest_room) }) r).room_heap x).eraseNear
      = if x = r then
          ({ w.room_heap r with
            portals := (w.room_heap r).portals.map (repoint w room dest_room) } : Room).eraseNear
        else (w.room_heap x).eraseNear := by
  rw [(nearOnly_build _ r).2.2 x, setRoom_room_heap]
  split <;> rfl

/-- The outer loop of `Room_SwapPortals` over any list of rooms. -/
theorem swapPortals_loop (room dest_room : RoomRef) (l : List RoomRef) (w : World) :
    let w2 := l.foldl (fun w r => Room_BuildNearRoomsList (setRoom w r { w.room_heap r with
        portals := (w.room_heap r).portals.map (repoint w room dest_room) }) r) w
    w2.rooms = w.rooms ∧ w2.cont_heap = w.cont_heap ∧
    ∀ x, (w2.room_heap x).eraseNear =
      ({ w.room_heap x with portals :=
          if x ∈ l then (w.room_heap x).portals.map (repoint w room dest_room)
          else (w.room_heap x).portals } : Room).eraseNear := by
  induction l generalizing w with
  | nil => simp
  | cons r l ih =>
    simp only [List.foldl_cons]
    set w1 := Room_BuildNearRoomsList (setRoom w r { w.room_heap r with
        portals := (w.room_heap r).portals.map (repoint w room dest_room) }) r with hw1
    have hstep := swapPortals_step_room w room dest_room r
    rw [← hw1] at hstep
    have hids : ∀ x, (w1.room_heap x).id = (w.room_heap x).id := by
      intro x
      have h := congrArg Room.id (hstep x)
      by_cases hx : x = r
      · subst hx; simpa [Room.eraseNear] using h
      · simpa [Room.eraseNear, hx] using h
    have hrep := repoint_congr w w1 hids room dest_room
    obtain ⟨h1, h2, h3⟩ := ih w1
    refine ⟨?_, ?_, ?_⟩
    · rw [h1, hw1, (nearOnly_build _ r).1]; rfl
    · rw [h2, hw1, (nearOnly_build _ r).2.1]; rfl
    · intro x
      rw [h3 x, hrep]
      have hx := hstep x
      by_cases hxr : x = r
      · subst hxr
        simp only [if_true] at hx
        have e : w1.room_heap x = { (w1.room_heap x).eraseNear with
            near_room_list_size := (w1.room_heap x).near_room_list_size,
            near_room_list := (w1.room_heap x).near_room_list } := rfl
        rw [e, hx]
        by_cases hxl : x ∈ l
        · simp [Room.eraseNear, hxl, repoint_idem]
        · simp [Room.eraseNear, hxl]
      · simp only [hxr, if_false] at hx
        have e : w1.room_heap x = { (w1.room_heap x).eraseNear with
            near_room_list_size := (w1.room_heap x).near_room_list_size,
            near_room_list := (w1.room_heap x).near_room_list } := rfl
        rw [e, hx]
        simp [Room.eraseNear, hxr]

theorem swapPortals_spec (w : World) (room dest_room : RoomRef) :
    (Room_SwapPortals w room dest_room).rooms = w.rooms ∧
    (Room_SwapPortals w room dest_room).cont_heap = w.cont_heap ∧
    ∀ x, ((Room_SwapPortals w room dest_room).room_heap x).eraseNear =
      ({ w.room_heap x with portals :=
          if x ∈ w.rooms then (w.room_heap x).portals.map (repoint w room dest_room)
          else (w.room_heap x).portals } : Room).eraseNear :=
  swapPortals_loop room dest_room w.rooms w

theorem swapPortals_portals (w : World) (room dest_room x : RoomRef) :
    ((Room_SwapPortals w room dest_room).room_heap x).portals =
      if x ∈ w.rooms then (w.room_heap x).portals.map (repoint w room dest_room)
      else (w.room_heap x).portals := by
  have h := congrArg Room.portals ((swapPortals_spec w room dest_room).2.2 x)
  exact h

theorem swapPortals_id (w : World) (room dest_room x : RoomRef) :
    ((Room_SwapPortals w room dest_room).room_heap x).id = (w.room_heap x).id := by
  have h := congrArg Room.id ((swapPortals_spec w room dest_room).2.2 x)
  exact h

theorem swapPortals_active (w : World) (room dest_room x : RoomRef) :
    ((Room_SwapPortals w room dest_room).room_heap x).active = (w.room_heap x).active := by
  have h := congrArg Room.active ((swapPortals_spec w room dest_room).2.2 x)
  exact h

theorem swapPortals_containers (w : World) (room dest_room x : RoomRef) :
    ((Room_SwapPortals w room dest_room).room_heap x).containers = (w.room_heap x).containers := by
  have h := congrArg Room.containers ((swapPortals_spec w room dest_room).2.2 x)
  exact h

theorem swapPortals_alternate (w : World) (room dest_room x : RoomRef) :
    ((Room_SwapPortals w room dest_room).room_heap x).alternate_room
      = (w.room_heap x).alternate_room := by
  have h := congrArg Room.alternate_room ((swapPortals_spec w room dest_room).2.2 x)
  exact h

theorem swapPortals_base (w : World) (room dest_room x : RoomRef) :
    ((Room_SwapPortals w room dest_room).room_heap x).base_room = (w.room_heap x).base_room := by
  have h := congrArg Room.base_room ((swapPortals_spec w room dest_room).2.2 x)
  exact h

/-! ## Enabling and disabling a room -/

theorem setObjectsEnabled_rooms (cs : List ContRef) (flag : Bool) (w : World) :
    (setObjectsEnabled w cs flag).rooms = w.rooms := by
  induction cs generalizing w with
  | nil => rfl
  | cons c cs ih =>
    simp only [setObjectsEnabled, List.foldl_cons] at ih ⊢
    rw [ih]
    split <;> rfl

theorem setObjectsEnabled_room_heap (cs : List ContRef) (flag : Bool) (w : World) :
    (setObjectsEnabled w cs flag).room_heap = w.room_heap := by
  induction cs generalizing w with
  | nil => rfl
  | cons c cs ih =>
    simp only [setObjectsEnabled, List.foldl_cons] at ih ⊢
    rw [ih]
    split <;> rfl

theorem setObjectsEnabled_cont_room (cs : List ContRef) (flag : Bool) (w : World) (c : ContRef) :
    ((setObjectsEnabled w cs flag).cont_heap c).room = (w.cont_heap c).room := by
  induction cs generalizing w with
  | nil => rfl
  | cons d cs ih =>
    simp only [setObjectsEnabled, List.foldl_cons] at ih ⊢
    rw [ih]
    split
    · rw [setCont_cont_heap]
      split
      · next h => subst h; rfl
      · rfl
    · rfl

theorem Room.active_eta (a : Room) (b : Bool) (h : a.active = b) :
    a = { a with active := b } := by
  subst h; rfl

theorem enable_rooms (w : World) (room : RoomRef) : (Room_Enable w room).rooms = w.rooms := by
  unfold Room_Enable
  split
  · rfl
  · simp [setObjectsEnabled_rooms]

theorem enable_room_heap (w : World) (room x : RoomRef) :
    (Room_Enable w room).room_heap x =
      { w.room_heap x with active := if x = room then true else (w.room_heap x).active } := by
  unfold Room_Enable
  by_cases ha : (w.room_heap room).active = true
  · rw [if_pos ha]
    by_cases hx : x = room
    · subst hx; simpa using Room.active_eta _ true ha
    · simp [hx]
  · rw [if_neg ha]
    simp only [setRoom_room_heap, setObjectsEnabled_room_heap]
    by_cases hx : x = room
    · subst hx; simp
    · simp [hx]

theorem enable_cont_room (w : World) (room : RoomRef) (c : ContRef) :
    ((Room_Enable w room).cont_heap c).room = (w.cont_heap c).room := by
  unfold Room_Enable
  split
  · rfl
  · simp [setObjectsEnabled_cont_room]

theorem disable_rooms (w : World) (room : RoomRef) : (Room_Disable w room).rooms = w.rooms := by
  unfold Room_Disable
  split
  · rfl
  · simp [setObjectsEnabled_rooms]

theorem disable_room_heap (w : World) (room x : RoomRef) :
    (Room_Disable w room).room_heap x =
      { w.room_heap x with active := if x = room then false else (w.room_heap x).active } := by
  unfold Room_Disable
  by_cases ha : (w.room_heap room).active = true
  · simp only [ha, Bool.not_true, Bool.false_eq_true, if_false, setRoom_room_heap,
      setObjectsEnabled_room_heap]
    by_cases hx : x = room
    · subst hx; simp
    · simp [hx]
  · have ha2 : (w.room_heap room).active = false := by simpa using ha
    simp only [ha2, Bool.not_false, if_true]
    by_cases hx : x = room
    · subst hx; simpa using Room.active_eta _ false ha2
    · simp [hx]

theorem disable_cont_room (w : World) (room : RoomRef) (c : ContRef) :
    ((Room_Disable w room).cont_heap c).room = (w.cont_heap c).room := by
  unfold Room_Disable
  split
  · rfl
  · simp [setObjectsEnabled_cont_room]

/-! ## Exchanging the containers of two rooms -/

theorem setContainersRoom_rooms (cs : List ContRef) (d : RoomRef) (w : World) :
    (setContainersRoom w cs d).rooms = w.rooms := by
  induction cs generalizing w with
  | nil => rfl
  | cons c cs ih =>
    simp only [setContainersRoom, List.foldl_cons] at ih ⊢
    rw [ih]; rfl

theorem setContainersRoom_room_heap (cs : List ContRef) (d : RoomRef) (w : World) :
    (setContainersRoom w cs d).room_heap = w.room_heap := by
  induction cs generalizing w with
  | nil => rfl
  | cons c cs ih =>
    simp only [setContainersRoom, List.foldl_cons] at ih ⊢
    rw [ih]; rfl

theorem setContainersRoom_cont_room (cs : List ContRef) (d : RoomRef) (w : World) (c : ContRef) :
    ((setContainersRoom w cs d).cont_heap c).room =
      if c ∈ cs then some d else (w.cont_heap c).room := by
  induction cs generalizing w with
  | nil => simp [setContainersRoom]
  | cons t cs ih =>
    simp only [setContainersRoom, List.foldl_cons] at ih ⊢
    rw [ih]
    by_cases h1 : c ∈ cs
    · simp [h1]
    · by_cases h2 : c = t
      · subst h2; simp [setCont_cont_heap]
      · simp [h1, h2, setCont_cont_heap]

theorem swapItems_rooms (w : World) (room dest_room : RoomRef) :
    (Room_SwapItems w room dest_room).rooms = w.rooms := by
  simp [Room_SwapItems, setContainersRoom_rooms]

theorem swapItems_room_heap (w : World) (room dest_room x : RoomRef) :
    (Room_SwapItems w room dest_room).room_heap x =
      { w.room_heap x with containers :=
          if x = dest_room then (w.room_heap room).containers
          else if x = room then (w.room_heap dest_room).containers
          else (w.room_heap x).containers } := by
  simp only [Room_SwapItems, setRoom_room_heap, setContainersRoom_room_heap]
  by_cases h1 : x = dest_room
  · subst h1
    by_cases h2 : x = room
    · subst h2; simp
    · simp [h2]
  · by_cases h2 : x = room
    · subst h2; simp [h1]
    · simp [h1, h2]

theorem swapItems_cont_room (w : World) (room dest_room : RoomRef) (c : ContRef) :
    ((Room_SwapItems w room dest_room).cont_heap c).room =
      if c ∈ (w.room_heap dest_room).containers then some room
      else if c ∈ (w.room_heap room).containers then some dest_room
      else (w.cont_heap c).room := by
  simp only [Room_SwapItems, setRoom_cont_heap, setContainersRoom_cont_room,
    setContainersRoom_room_heap]

/-! ## The two flip transitions -/

theorem swapToAlternate_eq (w : World) (room alt : RoomRef)
    (halt : (w.room_heap room).alternate_room = some alt)
    (hact : (w.room_heap room).active = true) :
    Room_SwapToAlternate w room = flipTo w room alt := by
  simp [Room_SwapToAlternate, halt, hact, flipTo]

theorem swapToBase_eq (w : World) (room base : RoomRef)
    (hbase : (w.room_heap room).base_room = some base)
    (hact : (w.room_heap room).active = true) :
    Room_SwapToBase w room = flipTo w room base := by
  simp [Room_SwapToBase, hbase, hact, flipTo]

theorem swapToAlternate_noop (w : World) (room : RoomRef)
    (h : (w.room_heap room).alternate_room = none ∨ (w.room_heap room).active = false) :
    Room_SwapToAlternate w room = w := by
  unfold Room_SwapToAlternate
  rcases h with h | h
  · rw [h]
  · split
    · simp [h]
    · rfl

theorem swapToBase_noop (w : World) (room : RoomRef)
    (h : (w.room_heap room).base_room = none ∨ (w.room_heap room).active = false) :
    Room_SwapToBase w room = w := by
  unfold Room_SwapToBase
  rcases h with h | h
  · rw [h]
  · split
    · simp [h]
    · rfl

theorem flipTo_rooms (w : World) (room other : RoomRef) :
    (flipTo w room other).rooms = w.rooms := by
  simp [flipTo, enable_rooms, swapItems_rooms, (swapPortals_spec _ _ _).1, disable_rooms]

theorem flipTo_active (w : World) (room other x : RoomRef) :
    ((flipTo w room other).room_heap x).active =
      if x = other then true else if x = room then false else (w.room_heap x).active := by
  simp only [flipTo, enable_room_heap, swapItems_room_heap, swapPortals_active,
    disable_room_heap]
  by_cases h1 : x = other
  · simp [h1]
  · by_cases h2 : x = room
    · simp [h1, h2]
    · simp [h1, h2]

theorem flipTo_containers (w : World) (room other x : RoomRef) :
    ((flipTo w room other).room_heap x).containers =
      if x = other then (w.room_heap room).containers
      else if x = room then (w.room_heap other).containers
      else (w.room_heap x).containers := by
  simp only [flipTo, enable_room_heap, swapItems_room_heap, swapPortals_containers,
    disable_room_heap]

theorem flipTo_id (w : World) (room other x : RoomRef) :
    ((flipTo w room other).room_heap x).id = (w.room_heap x).id := by
  simp only [flipTo, enable_room_heap, swapItems_room_heap, swapPortals_id,
    disable_room_heap]

theorem flipTo_alternate (w : World) (room other x : RoomRef) :
    ((flipTo w room other).room_heap x).alternate_room = (w.room_heap x).alternate_room := by
  simp only [flipTo, enable_room_heap, swapItems_room_heap, swapPortals_alternate,
    disable_room_heap]

theorem flipTo_base (w : World) (room other x : RoomRef) :
    ((flipTo w room other).room_heap x).base_room = (w.room_heap x).base_room := by
  simp only [flipTo, enable_room_heap, swapItems_room_heap, swapPortals_base,
    disable_room_heap]

theorem flipTo_portals (w : World) (room other x : RoomRef) :
    ((flipTo w room other).room_heap x).portals =
      if x ∈ w.rooms then (w.room_heap x).portals.map (repoint w room other)
      else (w.room_heap x).portals := by
  have hrep : repoint (Room_Disable (Room_Disable w room) other) room other
      = repoint w room other :=
    repoint_congr w _ (fun y => by simp only [disable_room_heap]) room other
  simp only [flipTo, enable_room_heap, swapItems_room_heap, swapPortals_portals,
    disable_room_heap, disable_rooms, hrep]

theorem flipTo_cont_room (w : World) (room other : RoomRef) (c : ContRef) :
    ((flipTo w room other).cont_heap c).room =
      if c ∈ (w.room_heap other).containers then some room
      else if c ∈ (w.room_heap room).containers then some other
      else (w.cont_heap c).room := by
  simp only [flipTo, enable_cont_room, swapItems_cont_room, swapPortals_containers,
    (swapPortals_spec _ _ _).2.1, disable_room_heap, disable_cont_room]

/-! ## Container exclusivity -/

theorem containerExclusive_of_backref (w : World)
    (hnd : ∀ r, (w.room_heap r).containers.Nodup)
    (hback : ∀ r c, c ∈ (w.room_heap r).containers → (w.cont_heap c).room = some r) :
    ContainerExclusive w := by
  refine ⟨?_, hnd, hback⟩
  intro r1 r2 c h1 h2
  have e1 := hback r1 c h1
  have e2 := hback r2 c h2
  rw [e1] at e2
  exact Option.some.inj e2

theorem addEntity_exclusive (w : World) (h : ContainerExclusive w) (room : RoomRef)
    (e : Entity) (hfree : ∀ r, e.m_self ∈ (w.room_heap r).containers → r = room) :
    ContainerExclusive (Room_AddEntity w room e) := by
  obtain ⟨_, hnd, hback⟩ := h
  unfold Room_AddEntity
  split
  · exact containerExclusive_of_backref w hnd hback
  · next hnot =>
    have hnin : e.m_self ∉ (w.room_heap room).containers := by
      intro hm
      apply hnot
      simp only [List.any_eq_true, beq_iff_eq]
      exact ⟨_, hm, rfl⟩
    apply containerExclusive_of_backref
    · intro r
      simp only [setRoom_room_heap, setCont_room_heap]
      by_cases hr : r = room
      · subst hr
        simp only [if_true]
        exact List.nodup_cons.mpr ⟨hnin, hnd r⟩
      · simp only [hr, if_false]
        exact hnd r
    · intro r c hc
      simp only [setRoom_room_heap, setCont_room_heap] at hc
      simp only [setRoom_cont_heap, setCont_cont_heap]
      by_cases hc2 : c = e.m_self
      · subst hc2
        simp only [if_true]
        by_cases hr : r = room
        · rw [hr]
        · simp only [hr, if_false] at hc
          exact absurd (hfree r hc) hr
      · simp only [hc2, if_false]
        by_cases hr : r = room
        · subst hr
          simp only [if_true, List.mem_cons, hc2, false_or] at hc
          exact hback r c hc
        · simp only [hr, if_false] at hc
          exact hback r c hc

theorem removeEntity_exclusive (w : World) (h : ContainerExclusive w) (room : RoomRef)
    (e : Option Entity) : ContainerExclusive (Room_RemoveEntity w room e).2 := by
  obtain ⟨hex, hnd, hback⟩ := h
  have h0 : ContainerExclusive w := ⟨hex, hnd, hback⟩
  unfold Room_RemoveEntity
  cases e with
  | none => exact h0
  | some e =>
    simp only
    split
    · exact h0
    · split
      · next hne hc =>
        have hmem : e.m_self ∈ (w.room_heap room).containers := by
          simpa using hc
        apply containerExclusive_of_backref
        · intro r
          simp only [setRoom_room_heap, setCont_room_heap]
          by_cases hr : r = room
          · subst hr
            simp only [if_true]
            exact (hnd r).erase _
          · simp only [hr, if_false]
            exact hnd r
        · intro r c hc
          simp only [setRoom_room_heap, setCont_room_heap] at hc
          simp only [setRoom_cont_heap, setCont_cont_heap]
          by_cases hr : r = room
          · subst hr
            simp only [if_true] at hc
            have hc3 := ((hnd r).mem_erase_iff).mp hc
            simp only [hc3.1, if_false]
            exact hback r c hc3.2
          · simp only [hr, if_false] at hc
            by_cases hc2 : c = e.m_self
            · subst hc2
              exact absurd (hex r room _ hc hmem) hr
            · simp only [hc2, if_false]
              exact hback r c hc
      · next hne hc =>
        split
        · next hh =>
          exfalso
          apply hc
          cases hl : (w.room_heap room).containers with
          | nil => simp [hl] at hh
          | cons a l =>
            simp [hl] at hh
            simp [hh]
        · exact h0

theorem flipTo_exclusive (w : World) (h : ContainerExclusive w) (room other : RoomRef) :
    ContainerExclusive (flipTo w room other) := by
  obtain ⟨hex, hnd, hback⟩ := h
  apply containerExclusive_of_backref
  · intro r
    rw [flipTo_containers]
    split
    · exact hnd _
    · split
      · exact hnd _
      · exact hnd _
  · intro r c hc
    rw [flipTo_containers] at hc
    rw [flipTo_cont_room]
    by_cases h1 : r = other
    · subst h1
      simp only [if_true] at hc
      by_cases h2 : c ∈ (w.room_heap r).containers
      · rw [if_pos h2, hex room r c hc h2]
      · rw [if_neg h2, if_pos hc]
    · simp only [h1, if_false] at hc
      by_cases h2 : r = room
      · subst h2
        simp only [if_true] at hc
        rw [if_pos hc]
      · simp only [h2, if_false] at hc
        have n1 : c ∉ (w.room_heap other).containers := fun hm => h1 (hex r other c hc hm)
        have n2 : c ∉ (w.room_heap room).containers := fun hm => h2 (hex r room c hc hm)
        rw [if_neg n1, if_neg n2]
        exact hback r c hc

theorem swapToAlternate_exclusive (w : World) (h : ContainerExclusive w) (room : RoomRef) :
    ContainerExclusive (Room_SwapToAlternate w room) := by
  cases halt : (w.room_heap room).alternate_room with
  | none => rw [swapToAlternate_noop w room (Or.inl halt)]; exact h
  | some alt =>
    cases hact : (w.room_heap room).active with
    | false => rw [swapToAlternate_noop w room (Or.inr hact)]; exact h
    | true => rw [swapToAlternate_eq w room alt halt hact]; exact flipTo_exclusive w h room alt

theorem swapToBase_exclusive (w : World) (h : ContainerExclusive w) (room : RoomRef) :
    ContainerExclusive (Room_SwapToBase w room) := by
  cases hbase : (w.room_heap room).base_room with
  | none => rw [swapToBase_noop w room (Or.inl hbase)]; exact h
  | some base =>
    cases hact : (w.room_heap room).active with
    | false => rw [swapToBase_noop w room (Or.inr hact)]; exact h
    | true => rw [swapToBase_eq w room base hbase hact]; exact flipTo_exclusive w h room base

/-! ## The bound on the near-room list -/

theorem addToNear_full (w : World) (room : RoomRef) (r : Option RoomRef)
    (h : 64 ≤ (w.room_heap room).near_room_list_size) :
    Room_AddToNearRoomsList w (some room) r = w := by
  cases r with
  | none => rfl
  | some r =>
    simp only [Room_AddToNearRoomsList]
    rw [if_neg]
    intro hc
    exact absurd hc.2.2.2 (Nat.not_lt.mpr h)

theorem addToNear_size_le (w : World) (a b : Option RoomRef) (x : RoomRef)
    (h : (w.room_heap x).near_room_list_size ≤ 64) :
    ((Room_AddToNearRoomsList w a b).room_heap x).near_room_list_size ≤ 64 := by
  unfold Room_AddToNearRoomsList
  split
  · next room r =>
    split
    · next hc =>
      rw [setRoom_room_heap]
      by_cases hx : x = room
      · subst hx
        simp only [if_true]
        exact hc.2.2.2
      · simp only [hx, if_false]
        exact h
    · exact h
  · exact h

theorem addPortalDests_size_le (ps : List Portal) (w : World) (room x : RoomRef)
    (h : (w.room_heap x).near_room_list_size ≤ 64) :
    ((addPortalDests w room ps).room_heap x).near_room_list_size ≤ 64 := by
  induction ps generalizing w with
  | nil => exact h
  | cons p ps ih =>
    exact ih _ (addToNear_size_le w _ _ x h)

theorem build_size_le (w : World) (room : RoomRef) :
    ((Room_BuildNearRoomsList w room).room_heap room).near_room_list_size ≤ 64 := by
  unfold Room_BuildNearRoomsList
  have key : ∀ (l : List Nat) (v : World), (v.room_heap room).near_room_list_size ≤ 64 →
      ((l.foldl (fun w i => addPortalDests w room
        (w.room_heap ((w.room_heap room).near_room_list i)).portals) v).room_heap
          room).near_room_list_size ≤ 64 := by
    intro l
    induction l with
    | nil => intro v hv; exact hv
    | cons i l ih =>
      intro v hv
      exact ih _ (addPortalDests_size_le _ v room room hv)
  apply key
  apply addPortalDests_size_le
  simp

theorem twoRoomWorld_exclusive : ContainerExclusive twoRoomWorld := by
  apply containerExclusive_of_backref
  · intro r
    by_cases h : r = 1
    · subst h; decide
    · simp [twoRoomWorld, h]
  · intro r c hc
    by_cases h : r = 1
    · subst h
      have hc5 : c = 5 := by simpa [twoRoomWorld] using hc
      subst hc5
      rfl
    · simp [twoRoomWorld, h] at hc

/-! ## Overlap of two rooms -/

theorem isJoined_eq_true_iff (w : World) (r1 r2 : RoomRef) :
    Room_IsJoined w r1 r2 = true ↔
      (∃ p ∈ (w.room_heap r1).portals, (w.room_heap p.dest_room).id = (w.room_heap r2).id) ∨
      (∃ p ∈ (w.room_heap r2).portals, (w.room_heap p.dest_room).id = (w.room_heap r1).id) := by
  unfold Room_IsJoined
  split
  · next h =>
    simp only [List.any_eq_true, beq_iff_eq] at h
    simp [h]
  · next h =>
    split
    · next h2 =>
      simp only [List.any_eq_true, beq_iff_eq] at h2
      simp [h2]
    · next h2 =>
      simp only [List.any_eq_true, beq_iff_eq] at h h2
      simp [h, h2]

theorem isJoined_comm (w : World) (r1 r2 : RoomRef) :
    Room_IsJoined w r1 r2 = Room_IsJoined w r2 r1 := by
  rw [Bool.eq_iff_iff, isJoined_eq_true_iff, isJoined_eq_true_iff, or_comm]

theorem isOverlapped_ne_zero_iff (w : World) (r0 r1 : RoomRef) :
    Room_IsOverlapped w r0 r1 ≠ 0 ↔
      (r0 ≠ r1 ∧ some r0 ≠ (w.room_heap r1).alternate_room ∧
        (w.room_heap r0).alternate_room ≠ some r1) ∧
      ((w.room_heap r0).bb_min.x < (w.room_heap r1).bb_max.x ∧
        (w.room_heap r1).bb_min.x < (w.room_heap r0).bb_max.x ∧
        (w.room_heap r0).bb_min.y < (w.room_heap r1).bb_max.y ∧
        (w.room_heap r1).bb_min.y < (w.room_heap r0).bb_max.y ∧
        (w.room_heap r0).bb_min.z < (w.room_heap r1).bb_max.z ∧
        (w.room_heap r1).bb_min.z < (w.room_heap r0).bb_max.z) ∧
      Room_IsJoined w r0 r1 = false := by
  unfold Room_IsOverlapped
  simp only
  split
  · next h =>
    constructor
    · intro h0; exact absurd rfl h0
    · rintro ⟨⟨h1, h2, h3⟩, _, _⟩
      rcases h with h | h | h
      · exact absurd h h1
      · exact absurd h h2
      · exact absurd h h3
  · next h =>
    have hn : r0 ≠ r1 ∧ some r0 ≠ (w.room_heap r1).alternate_room ∧
        (w.room_heap r0).alternate_room ≠ some r1 := by
      refine ⟨fun e => h (Or.inl e), fun e => h (Or.inr (Or.inl e)), fun e => h (Or.inr (Or.inr e))⟩
    split
    · next hb =>
      constructor
      · intro h0; exact absurd rfl h0
      · rintro ⟨_, ⟨b1, b2, b3, b4, b5, b6⟩, _⟩
        omega
    · next hb =>
      have hbb : (w.room_heap r0).bb_min.x < (w.room_heap r1).bb_max.x ∧
        (w.room_heap r1).bb_min.x < (w.room_heap r0).bb_max.x ∧
        (w.room_heap r0).bb_min.y < (w.room_heap r1).bb_max.y ∧
        (w.room_heap r1).bb_min.y < (w.room_heap r0).bb_max.y ∧
        (w.room_heap r0).bb_min.z < (w.room_heap r1).bb_max.z ∧
        (w.room_heap r1).bb_min.z < (w.room_heap r0).bb_max.z := by
        omega
      cases hj : Room_IsJoined w r0 r1 with
      | true => simp
      | false => simp [hn, hbb]

theorem isOverlapped_le_one (w : World) (r0 r1 : RoomRef) : Room_IsOverlapped w r0 r1 ≤ 1 := by
  unfold Room_IsOverlapped
  simp only
  split
  · exact Nat.zero_le 1
  · split
    · exact Nat.zero_le 1
    · split
      · exact Nat.zero_le 1
      · exact Nat.le_refl 1

theorem isOverlapped_comm (w : World) (A B : RoomRef) :
    Room_IsOverlapped w A B = Room_IsOverlapped w B A := by
  have hiff : Room_IsOverlapped w A B ≠ 0 ↔ Room_IsOverlapped w B A ≠ 0 := by
    rw [isOverlapped_ne_zero_iff, isOverlapped_ne_zero_iff, isJoined_comm w B A]
    constructor
    · rintro ⟨⟨h1, h2, h3⟩, ⟨b1, b2, b3, b4, b5, b6⟩, hj⟩
      exact ⟨⟨fun e => h1 e.symm, fun e => h3 e.symm, fun e => h2 e.symm⟩,
        ⟨b2, b1, b4, b3, b6, b5⟩, hj⟩
    · rintro ⟨⟨h1, h2, h3⟩, ⟨b1, b2, b3, b4, b5, b6⟩, hj⟩
      exact ⟨⟨fun e => h1 e.symm, fun e => h3 e.symm, fun e => h2 e.symm⟩,
        ⟨b2, b1, b4, b3, b6, b5⟩, hj⟩
  have ha := isOverlapped_le_one w A B
  have hb := isOverlapped_le_one w B A
  by_cases h : Room_IsOverlapped w A B = 0
  · have h2 : Room_IsOverlapped w B A = 0 := by
      by_contra hc
      exact (hiff.mpr hc) h
    rw [h, h2]
  · have h2 := hiff.mp h
    omega

/-! ## Point queries -/

theorem activeAndContains_iff (w : World) (r : RoomRef) (P : Vec3) :
    activeAndContains w r P = true ↔
      (w.room_heap r).active = true ∧ ContainsPoint (w.room_heap r) P := by
  simp only [activeAndContains, ContainsPoint, Bool.and_eq_true, decide_eq_true_eq]
  tauto

theorem findPosLoop_some (w : World) (P : Vec3) (l : List RoomRef) (r : RoomRef)
    (h : findPosLoop w P l = some r) :
    ∃ i : Nat, l[i]? = some r ∧ activeAndContains w r P = true ∧
      ∀ j : Nat, j < i → ∀ q : RoomRef, l[j]? = some q → activeAndContains w q P = false := by
  induction l with
  | nil => simp [findPosLoop] at h
  | cons a l ih =>
    unfold findPosLoop at h
    by_cases ha : activeAndContains w a P = true
    · rw [if_pos ha] at h
      cases h
      exact ⟨0, by simp, ha, fun j hj => absurd hj (Nat.not_lt_zero j)⟩
    · rw [if_neg ha] at h
      obtain ⟨i, h1, h2, h3⟩ := ih h
      refine ⟨i + 1, by simpa using h1, h2, ?_⟩
      intro j hj q hq
      cases j with
      | zero =>
        simp only [List.getElem?_cons_zero, Option.some.injEq] at hq
        subst hq
        simpa using ha
      | succ j =>
        simp only [List.getElem?_cons_succ] at hq
        exact h3 j (Nat.lt_of_succ_lt_succ hj) q hq

theorem findPosLoop_none (w : World) (P : Vec3) (l : List RoomRef) :
    findPosLoop w P l = none ↔ ∀ r ∈ l, activeAndContains w r P = false := by
  induction l with
  | nil => simp [findPosLoop]
  | cons a l ih =>
    unfold findPosLoop
    by_cases ha : activeAndContains w a P = true
    · simp [ha]
    · have ha2 : activeAndContains w a P = false := by simpa using ha
      simp [ha2, ih]

/-! ## Sector lookup -/

/-- For a point inside the grid rectangle of the room `r` the two indices computed by
`Room_GetSectorRaw` pass the range test, and the sector address is the position
`x * sectors_y + y` with the floor quotients `x` and `y`, a position below
`sectors_x * sectors_y`. -/
theorem grid_inside (w : World) (r : RoomRef) (P : Vec3)
    (hx : (w.room_heap r).origin.x ≤ P.x ∧
      P.x < (w.room_heap r).origin.x + 1024 * (w.room_heap r).sectors_x)
    (hy : (w.room_heap r).origin.y ≤ P.y ∧
      P.y < (w.room_heap r).origin.y + 1024 * (w.room_heap r).sectors_y) :
    ¬ (Int.tdiv (P.x - (w.room_heap r).origin.x) 1024 < 0 ∨
        Int.tdiv (P.x - (w.room_heap r).origin.x) 1024 ≥ (w.room_heap r).sectors_x ∨
        Int.tdiv (P.y - (w.room_heap r).origin.y) 1024 < 0 ∨
        Int.tdiv (P.y - (w.room_heap r).origin.y) 1024 ≥ (w.room_heap r).sectors_y) ∧
    sectorAddr w r (Int.tdiv (P.x - (w.room_heap r).origin.x) 1024)
        (Int.tdiv (P.y - (w.room_heap r).origin.y) 1024)
      = ⟨r, ((P.x - (w.room_heap r).origin.x) / 1024).toNat * (w.room_heap r).sectors_y
          + ((P.y - (w.room_heap r).origin.y) / 1024).toNat⟩ ∧
    ((P.x - (w.room_heap r).origin.x) / 1024).toNat * (w.room_heap r).sectors_y
        + ((P.y - (w.room_heap r).origin.y) / 1024).toNat
      < (w.room_heap r).sectors_x * (w.room_heap r).sectors_y := by
  have hdx : 0 ≤ P.x - (w.room_heap r).origin.x := by omega
  have hdy : 0 ≤ P.y - (w.room_heap r).origin.y := by omega
  rw [Int.tdiv_eq_ediv hdx (by decide), Int.tdiv_eq_ediv hdy (by decide)]
  have hx0 : 0 ≤ (P.x - (w.room_heap r).origin.x) / 1024 := Int.ediv_nonneg hdx (by decide)
  have hy0 : 0 ≤ (P.y - (w.room_heap r).origin.y) / 1024 := Int.ediv_nonneg hdy (by decide)
  have hx1 : (P.x - (w.room_heap r).origin.x) / 1024 < (w.room_heap r).sectors_x := by
    apply Int.ediv_lt_of_lt_mul (by decide)
    omega
  have hy1 : (P.y - (w.room_heap r).origin.y) / 1024 < (w.room_heap r).sectors_y := by
    apply Int.ediv_lt_of_lt_mul (by decide)
    omega
  obtain ⟨xn, hxn⟩ := Int.eq_ofNat_of_zero_le hx0
  obtain ⟨yn, hyn⟩ := Int.eq_ofNat_of_zero_le hy0
  rw [hxn] at hx1
  rw [hyn] at hy1
  have hx2 : xn < (w.room_heap r).sectors_x := by exact_mod_cast hx1
  have hy2 : yn < (w.room_heap r).sectors_y := by exact_mod_cast hy1
  refine ⟨?_, ?_, ?_⟩
  · rw [hxn, hyn]
    omega
  · rw [hxn, hyn]
    unfold sectorAddr
    have e : ((xn : Int) * ((w.room_heap r).sectors_y : Int) + (yn : Int))
        = ((xn * (w.room_heap r).sectors_y + yn : Nat) : Int) := by push_cast; ring
    rw [e]
    simp only [Int.toNat_ofNat]
  · rw [hxn, hyn]
    simp only [Int.toNat_ofNat]
    calc xn * (w.room_heap r).sectors_y + yn
        < xn * (w.room_heap r).sectors_y + (w.room_heap r).sectors_y := by omega
      _ = (xn + 1) * (w.room_heap r).sectors_y := by ring
      _ ≤ (w.room_heap r).sectors_x * (w.room_heap r).sectors_y :=
          Nat.mul_le_mul_right _ hx2

/-! ## Lookup in the model table -/

theorem modelAt_eq (models : List SkeletalModel) (i : Nat) (h : i < models.length) :
    modelAt models i = models[i] := by
  simp [modelAt, List.getElem?_eq_getElem h]

theorem modelAt_lt (models : List SkeletalModel) (hasc : AscendingIds models) (i j : Nat)
    (hij : i < j) (hj : j < models.length) :
    (modelAt models i).id < (modelAt models j).id := by
  rw [modelAt_eq models i (Nat.lt_trans hij hj), modelAt_eq models j hj]
  exact List.pairwise_iff_getElem.mp hasc i j (Nat.lt_trans hij hj) hj hij

theorem modelAt_inj (models : List SkeletalModel) (hasc : AscendingIds models) (i j : Nat)
    (hi : i < models.length) (hj : j < models.length)
    (h : (modelAt models i).id = (modelAt models j).id) : i = j := by
  rcases Nat.lt_trichotomy i j with hlt | heq | hgt
  · have := modelAt_lt models hasc i j hlt hj
    omega
  · exact heq
  · have := modelAt_lt models hasc j i hgt hi
    omega

theorem sizeMinusOne (m : Nat) (h1 : 1 ≤ m) (h2 : m ≤ 2 ^ 64) :
    (m + 2 ^ 64 - 1) % 2 ^ 64 = m - 1 := by
  have e : m + 2 ^ 64 - 1 = (m - 1) + 2 ^ 64 := by omega
  rw [e, Nat.add_mod_right]
  exact Nat.mod_eq_of_lt (by omega)

theorem getModelLoop_correct (models : List SkeletalModel) (id : Nat)
    (hasc : AscendingIds models) (hsz : models.length ≤ 2 ^ 64) :
    ∀ (fuel min max : Nat), min + 2 ≤ max → max < models.length → max ≤ min + fuel + 1 →
      (∀ j, j < models.length → (modelAt models j).id = id → min < j ∧ j < max) →
      (∃ i, getModelLoop models id fuel min max = some (some i) ∧ i < models.length ∧
          (modelAt models i).id = id) ∨
      (getModelLoop models id fuel min max = some none ∧
          ∀ j, j < models.length → (modelAt models j).id ≠ id) := by
  intro fuel
  induction fuel with
  | zero =>
    intro min max h1 _ h3 _
    omega
  | succ fuel ih =>
    intro min max h1 h2 h3 hinv
    have hi1 : min < (min + max) / 2 := by omega
    have hi2 : (min + max) / 2 < max := by omega
    have hin : (min + max) / 2 < models.length := by omega
    unfold getModelLoop
    simp only
    by_cases hid : (modelAt models ((min + max) / 2)).id = id
    · left
      exact ⟨(min + max) / 2, by rw [if_pos hid], hin, hid⟩
    · rw [if_neg hid]
      by_cases hlt : (modelAt models ((min + max) / 2)).id < id
      · simp only [hlt, if_true]
        rw [sizeMinusOne max (by omega) (by omega)]
        have hinv2 : ∀ j, j < models.length → (modelAt models j).id = id →
            (min + max) / 2 < j ∧ j < max := by
          intro j hj hjid
          refine ⟨?_, (hinv j hj hjid).2⟩
          by_contra hc
          have hle : j ≤ (min + max) / 2 := by omega
          rcases Nat.lt_or_eq_of_le hle with hjl | hje
          · have := modelAt_lt models hasc j _ hjl hin
            omega
          · rw [hje] at hjid
            exact hid hjid
        by_cases hc : (min + max) / 2 < max - 1
        · rw [if_pos hc]
          exact ih _ _ (by omega) h2 (by omega) hinv2
        · rw [if_neg hc]
          right
          refine ⟨rfl, ?_⟩
          intro j hj hjid
          have := hinv2 j hj hjid
          omega
      · simp only [hlt, if_false]
        rw [sizeMinusOne ((min + max) / 2) (by omega) (by omega)]
        have hinv2 : ∀ j, j < models.length → (modelAt models j).id = id →
            min < j ∧ j < (min + max) / 2 := by
          intro j hj hjid
          refine ⟨(hinv j hj hjid).1, ?_⟩
          by_contra hc
          have hle : (min + max) / 2 ≤ j := by omega
          rcases Nat.lt_or_eq_of_le hle with hjl | hje
          · have := modelAt_lt models hasc _ j hjl hj
            omega
          · rw [← hje] at hjid
            exact hid hjid
        by_cases hc : min < (min + max) / 2 - 1
        · rw [if_pos hc]
          exact ih _ _ (by omega) (by omega) (by omega) hinv2
        · rw [if_neg hc]
          right
          refine ⟨rfl, ?_⟩
          intro j hj hjid
          have := hinv2 j hj hjid
          omega

theorem getModel_found (w : World) (id fuel j : Nat) (hasc : AscendingIds w.skeletal_models)
    (hsz : w.skeletal_models.length ≤ 2 ^ 64) (hfuel : w.skeletal_models.length ≤ fuel)
    (hj : j < w.skeletal_models.length) (hjid : (modelAt w.skeletal_models j).id = id) :
    World_GetModelByID fuel w id = some (some j) := by
  unfold World_GetModelByID
  by_cases h0 : (modelAt w.skeletal_models 0).id = id
  · rw [if_pos h0]
    have : 0 = j := modelAt_inj _ hasc 0 j (by omega) hj (by rw [h0, hjid])
    rw [← this]
  · rw [if_neg h0]
    by_cases hl : (modelAt w.skeletal_models (w.skeletal_models.length - 1)).id = id
    · rw [if_pos hl]
      have : w.skeletal_models.length - 1 = j :=
        modelAt_inj _ hasc _ j (by omega) hj (by rw [hl, hjid])
      rw [this]
    · rw [if_neg hl, sizeMinusOne _ (by omega) hsz]
      have hj0 : j ≠ 0 := fun e => h0 (by rw [← e]; exact hjid)
      have hjl : j ≠ w.skeletal_models.length - 1 := fun e => hl (by rw [← e]; exact hjid)
      have hinv : ∀ k, k < w.skeletal_models.length → (modelAt w.skeletal_models k).id = id →
          0 < k ∧ k < w.skeletal_models.length - 1 := by
        intro k hk hkid
        have : k = j := modelAt_inj _ hasc k j hk hj (by rw [hkid, hjid])
        omega
      rcases getModelLoop_correct w.skeletal_models id hasc hsz fuel 0
          (w.skeletal_models.length - 1) (by omega) (by omega) (by omega) hinv with
        ⟨i, h1, h2, h3⟩ | ⟨_, h2⟩
      · have : i = j := modelAt_inj _ hasc i j h2 hj (by rw [h3, hjid])
        rw [h1, this]
      · exact absurd hjid (h2 j hj)

theorem getModel_absent (w : World) (id fuel : Nat) (hasc : AscendingIds w.skeletal_models)
    (h3 : 3 ≤ w.skeletal_models.length)
    (hsz : w.skeletal_models.length ≤ 2 ^ 64) (hfuel : w.skeletal_models.length ≤ fuel)
    (habs : ∀ j, j < w.skeletal_models.length → (modelAt w.skeletal_models j).id ≠ id) :
    World_GetModelByID fuel w id = some none := by
  unfold World_GetModelByID
  rw [if_neg (habs 0 (by omega)), if_neg (habs _ (by omega)), sizeMinusOne _ (by omega) hsz]
  rcases getModelLoop_correct w.skeletal_models id hasc hsz fuel 0
      (w.skeletal_models.length - 1) (by omega) (by omega) (by omega)
      (fun k hk hkid => absurd hkid (habs k hk)) with
    ⟨i, _, h2, h3⟩ | ⟨h1, _⟩
  · exact absurd h3 (habs i h2)
  · exact h1

theorem getModelLoop_stuck (models : List SkeletalModel) (id : Nat)
    (h : (modelAt models 0).id ≠ id) : ∀ fuel, getModelLoop models id fuel 0 0 = none := by
  intro fuel
  induction fuel with
  | zero => rfl
  | succ fuel ih =>
    unfold getModelLoop
    simp only [Nat.add_zero, Nat.zero_div, if_neg h, ite_self]
    rw [if_pos (by norm_num)]
    exact ih

/-! ## Respawn of an entity -/

theorem spawnPlace_spec (w : World) (ent : EntRef) (room_id : Nat) (pos ang : Option Vec3) :
    (spawnPlace w ent room_id pos ang).entity_tree = w.entity_tree ∧
    (spawnPlace w ent room_id pos ang).rooms = w.rooms ∧
    (spawnPlace w ent room_id pos ang).room_heap = w.room_heap ∧
    (spawnPlace w ent room_id pos ang).skeletal_models = w.skeletal_models ∧
    (spawnPlace w ent room_id pos ang).ent_alloc = w.ent_alloc ∧
    (spawnPlace w ent room_id pos ang).cont_alloc = w.cont_alloc ∧
    ((spawnPlace w ent room_id pos ang).ent_heap ent).m_id = (w.ent_heap ent).m_id ∧
    ((spawnPlace w ent room_id pos ang).ent_heap ent).m_self = (w.ent_heap ent).m_self ∧
    ((spawnPlace w ent room_id pos ang).ent_heap ent).m_origin
      = pos.getD (w.ent_heap ent).m_origin ∧
    ((spawnPlace w ent room_id pos ang).ent_heap ent).m_angles
      = ang.getD (w.ent_heap ent).m_angles ∧
    ((spawnPlace w ent room_id pos ang).cont_heap (w.ent_heap ent).m_self).room
      = w.rooms[room_id]? ∧
    (∀ e, e ≠ ent → (spawnPlace w ent room_id pos ang).ent_heap e = w.ent_heap e) ∧
    (∀ c, c ≠ (w.ent_heap ent).m_self →
      (spawnPlace w ent room_id pos ang).cont_heap c = w.cont_heap c) := by
  unfold spawnPlace
  cases pos <;> cases ang <;> cases hr : w.rooms[room_id]? <;>
    simp [setEnt, setCont, hr]
  all_goals (try constructor)
  all_goals (intro x h1; first | (intro h2; exact absurd h2 h1) | simp [h1])

/-! ## Adding and removing one entity -/

theorem addEntity_absent (w : World) (room : RoomRef) (e : Entity)
    (h : e.m_self ∉ (w.room_heap room).containers) :
    Room_AddEntity w room e =
      setRoom (setCont w e.m_self { w.cont_heap e.m_self with room := some room }) room
        { w.room_heap room with containers := e.m_self :: (w.room_heap room).containers } := by
  unfold Room_AddEntity
  rw [if_neg]
  · rfl
  · intro hc
    simp only [List.any_eq_true, beq_iff_eq] at hc
    obtain ⟨x, hx, hxe⟩ := hc
    exact h (hxe ▸ hx)

theorem addEntity_present (w : World) (room : RoomRef) (e : Entity)
    (h : e.m_self ∈ (w.room_heap room).containers) : Room_AddEntity w room e = w := by
  unfold Room_AddEntity
  rw [if_pos]
  simp only [List.any_eq_true, beq_iff_eq]
  exact ⟨_, h, rfl⟩

/-! ## Teardown of a room -/

theorem setRoom_eq_self (w : World) (r : RoomRef) (a : Room) (h : a = w.room_heap r) :
    setRoom w r a = w := by
  subst h
  unfold setRoom
  have e : (fun x => if x = r then w.room_heap r else w.room_heap x) = w.room_heap := by
    funext x
    split
    · next hx => rw [hx]
    · rfl
  rw [e]

theorem foldl_emptyStaticMesh_room_heap (l : List SmRef) (w : World) :
    (l.foldl emptyStaticMesh w).room_heap = w.room_heap := by
  induction l generalizing w with
  | nil => rfl
  | cons a l ih =>
    simp only [List.foldl_cons]
    rw [ih]
    unfold emptyStaticMesh
    simp only
    split <;> split <;> rfl

/-- The room `a` after `Room_Empty`. -/
theorem empty_room_heap (w : World) (r x : RoomRef) :
    (Room_Empty w (some r)).room_heap x =
      if x = r then
        { w.room_heap r with
          containers := [], near_room_list_size := 0, portals := [], frustum := [],
          mesh := none, static_mesh := [], bt_body := none, sectors := [], sectors_x := 0,
          sectors_y := 0, sprites := [], lights := [], self := none }
      else w.room_heap x := by
  unfold Room_Empty
  simp only [setRoom_room_heap_same]
  by_cases hx : x = r
  · subst hx
    simp only [if_true, setRoom_room_heap_same]
    by_cases hs : (w.room_heap x).static_mesh.isEmpty = true
    · have hs2 : (w.room_heap x).static_mesh = [] := List.isEmpty_iff.mp hs
      simp only [hs, Bool.not_true, Bool.false_eq_true, if_false, setRoom_room_heap_same]
      cases hb : (w.room_heap x).bt_body <;> simp [hs2, hb]
    · have hs3 : (w.room_heap x).static_mesh.isEmpty = false := by simpa using hs
      simp only [hs3, Bool.not_false, if_true, setRoom_room_heap_same,
        foldl_emptyStaticMesh_room_heap]
      cases hb : (w.room_heap x).bt_body <;> simp [hb]
  · simp only [hx, if_false]
    by_cases hs : (w.room_heap r).static_mesh.isEmpty = true
    · simp only [hs, Bool.not_true, Bool.false_eq_true, if_false, setRoom_room_heap_same]
      cases hb : (w.room_heap r).bt_body <;> simp [hb, setRoom_room_heap, hx]
    · have hs3 : (w.room_heap r).static_mesh.isEmpty = false := by simpa using hs
      simp only [hs3, Bool.not_false, if_true, setRoom_room_heap_same,
        foldl_emptyStaticMesh_room_heap]
      cases hb : (w.room_heap r).bt_body <;>
        simp [hb, setRoom_room_heap, hx, foldl_emptyStaticMesh_room_heap]

/-- A room whose resources are already released is left as it is. -/
theorem empty_noop (w : World) (r : RoomRef)
    (h1 : (w.room_heap r).containers = []) (h2 : (w.room_heap r).near_room_list_size = 0)
    (h3 : (w.room_heap r).portals = []) (h4 : (w.room_heap r).frustum = [])
    (h5 : (w.room_heap r).mesh = none) (h6 : (w.room_heap r).static_mesh = [])
    (h7 : (w.room_heap r).bt_body = none) (h8 : (w.room_heap r).sectors = [])
    (h9 : (w.room_heap r).sectors_x = 0) (h10 : (w.room_heap r).sectors_y = 0)
    (h11 : (w.room_heap r).sprites = []) (h12 : (w.room_heap r).lights = [])
    (h13 : (w.room_heap r).self = none) :
    Room_Empty w (some r) = w := by
  have e1 : ({ w.room_heap r with
      containers := [], near_room_list_size := 0, portals := [], frustum := [],
      mesh := none } : Room) = w.room_heap r := by
    cases hr : w.room_heap r
    simp_all
  unfold Room_Empty
  simp only
  rw [e1, setRoom_eq_self w r _ rfl]
  simp only [h6, List.isEmpty_nil, Bool.not_true, Bool.false_eq_true, if_false, h7]
  apply setRoom_eq_self
  cases hr : w.room_heap r
  simp_all

/-! ## Overlapped-room list -/

theorem isOverlapped_congr (v w : World)
    (h : ∀ x, (v.room_heap x).eraseOverlapped = (w.room_heap x).eraseOverlapped)
    (a b : RoomRef) : Room_IsOverlapped v a b = Room_IsOverlapped w a b := by
  have hid : ∀ x, (v.room_heap x).id = (w.room_heap x).id := fun x => by
    have e := congrArg Room.id (h x); exact e
  have halt : ∀ x, (v.room_heap x).alternate_room = (w.room_heap x).alternate_room := fun x => by
    have e := congrArg Room.alternate_room (h x); exact e
  have hmin : ∀ x, (v.room_heap x).bb_min = (w.room_heap x).bb_min := fun x => by
    have e := congrArg Room.bb_min (h x); exact e
  have hmax : ∀ x, (v.room_heap x).bb_max = (w.room_heap x).bb_max := fun x => by
    have e := congrArg Room.bb_max (h x); exact e
  have hpor : ∀ x, (v.room_heap x).portals = (w.room_heap x).portals := fun x => by
    have e := congrArg Room.portals (h x); exact e
  simp only [Room_IsOverlapped, Room_IsJoined, hid, halt, hmin, hmax, hpor]

theorem addOverlapped_frame (w v : World) (room r : RoomRef)
    (h : addOverlapped w room r = some v) :
    v.rooms = w.rooms ∧
    ∀ x, (v.room_heap x).eraseOverlapped = (w.room_heap x).eraseOverlapped := by
  unfold addOverlapped at h
  split at h
  · simp only at h
    split at h
    · cases h
      refine ⟨rfl, fun x => ?_⟩
      by_cases hx : x = room
      · subst hx; simp [Room.eraseOverlapped]
      · simp [setRoom_room_heap, hx]
    · cases h
  · cases h
    exact ⟨rfl, fun _ => rfl⟩

theorem overlappedEntries_push (w : World) (room r : RoomRef) :
    overlappedEntries (setRoom w room { w.room_heap room with
        overlapped_room_list := fun i =>
          if i = (w.room_heap room).overlapped_room_list_size then r
          else (w.room_heap room).overlapped_room_list i
        overlapped_room_list_size := (w.room_heap room).overlapped_room_list_size + 1 }) room
      = overlappedEntries w room ++ [r] := by
  simp only [overlappedEntries, setRoom_room_heap_same, List.range_succ, List.map_append,
    List.map_cons, List.map_nil, if_true]
  congr 1
  apply List.map_congr_left
  intro i hi
  have : i < (w.room_heap room).overlapped_room_list_size := List.mem_range.mp hi
  rw [if_neg (by omega)]

/-- The loop of `Room_BuildOverlappedRoomsList` over the rest `l` of the room table, from a
state `v` that differs from `w` in overlapped-room lists only: it ends in a state when the
rooms of `l` that overlap `R` fit into the array behind the entries already stored, and
leaves the array otherwise. -/
theorem overlapped_loop (w : World) (R : RoomRef) (l : List RoomRef) :
    ∀ v : World,
      (∀ x, (v.room_heap x).eraseOverlapped = (w.room_heap x).eraseOverlapped) →
      (v.room_heap R).overlapped_room_list_size ≤ overlapped_room_list_declared_len →
      ((v.room_heap R).overlapped_room_list_size +
          (l.filter (fun r => decide (Room_IsOverlapped w R r ≠ 0))).length
            ≤ overlapped_room_list_declared_len →
        ∃ u, overlappedLoop R l v = some u ∧ u.rooms = v.rooms ∧
          (∀ x, (u.room_heap x).eraseOverlapped = (w.room_heap x).eraseOverlapped) ∧
          overlappedEntries u R
            = overlappedEntries v R ++ l.filter (fun r => decide (Room_IsOverlapped w R r ≠ 0)) ∧
          (u.room_heap R).overlapped_room_list_size
            = (v.room_heap R).overlapped_room_list_size
              + (l.filter (fun r => decide (Room_IsOverlapped w R r ≠ 0))).length) ∧
      (overlapped_room_list_declared_len < (v.room_heap R).overlapped_room_list_size +
          (l.filter (fun r => decide (Room_IsOverlapped w R r ≠ 0))).length →
        overlappedLoop R l v = none) := by
  induction l with
  | nil =>
    intro v hv hle
    refine ⟨fun _ => ⟨v, rfl, rfl, hv, by simp, by simp⟩, fun h => ?_⟩
    simp only [List.filter_nil, List.length_nil, Nat.add_zero] at h
    omega
  | cons r l ih =>
    intro v hv hle
    by_cases hp : Room_IsOverlapped w R r ≠ 0
    · have hpv : Room_IsOverlapped v R r ≠ 0 := by rw [isOverlapped_congr v w hv]; exact hp
      have hfil : (r :: l).filter (fun r => decide (Room_IsOverlapped w R r ≠ 0))
          = r :: l.filter (fun r => decide (Room_IsOverlapped w R r ≠ 0)) := by
        simp [List.filter_cons, hp]
      rw [hfil]
      simp only [List.length_cons]
      by_cases hlt : (v.room_heap R).overlapped_room_list_size
          < overlapped_room_list_declared_len
      · have hmod : ((v.room_heap R).overlapped_room_list_size + 1) % 2 ^ 16
            = (v.room_heap R).overlapped_room_list_size + 1 := by
          apply Nat.mod_eq_of_lt
          have : overlapped_room_list_declared_len = 32 := rfl
          omega
        have hstep : addOverlapped v R r = some (setRoom v R { v.room_heap R with
            overlapped_room_list := fun i =>
              if i = (v.room_heap R).overlapped_room_list_size then r
              else (v.room_heap R).overlapped_room_list i
            overlapped_room_list_size := (v.room_heap R).overlapped_room_list_size + 1 }) := by
          unfold addOverlapped
          rw [if_pos hpv]
          simp only [hmod, if_pos hlt]
        obtain ⟨hr1, hv1⟩ := addOverlapped_frame v _ R r hstep
        have hv2 := fun x => (hv1 x).trans (hv x)
        have hsize1 : ((setRoom v R { v.room_heap R with
            overlapped_room_list := fun i =>
              if i = (v.room_heap R).overlapped_room_list_size then r
              else (v.room_heap R).overlapped_room_list i
            overlapped_room_list_size :=
              (v.room_heap R).overlapped_room_list_size + 1 }).room_heap R).overlapped_room_list_size
            = (v.room_heap R).overlapped_room_list_size + 1 := by
          simp
        obtain ⟨ih1, ih2⟩ := ih _ hv2 (by rw [hsize1]; omega)
        have hloop : overlappedLoop R (r :: l) v = overlappedLoop R l (setRoom v R
            { v.room_heap R with
              overlapped_room_list := fun i =>
                if i = (v.room_heap R).overlapped_room_list_size then r
                else (v.room_heap R).overlapped_room_list i
              overlapped_room_list_size := (v.room_heap R).overlapped_room_list_size + 1 }) := by
          rw [overlappedLoop, hstep]
        rw [hloop]
        constructor
        · intro hfit
          obtain ⟨u, hu, hur, huf, hue, hus⟩ := ih1 (by rw [hsize1]; omega)
          refine ⟨u, hu, hur.trans hr1, huf, ?_, ?_⟩
          · rw [hue, overlappedEntries_push v R r]
            simp
          · rw [hus, hsize1]
            omega
        · intro hover
          exact ih2 (by rw [hsize1]; omega)
      · have hstep : addOverlapped v R r = none := by
          unfold addOverlapped
          rw [if_pos hpv]
          simp only [if_neg hlt]
        have hloop : overlappedLoop R (r :: l) v = none := by
          rw [overlappedLoop, hstep]
        exact ⟨fun hfit => by omega, fun _ => hloop⟩
    · have hp0 : Room_IsOverlapped w R r = 0 := by simpa using hp
      have hpv : Room_IsOverlapped v R r = 0 := by rw [isOverlapped_congr v w hv]; exact hp0
      have hfil : (r :: l).filter (fun r => decide (Room_IsOverlapped w R r ≠ 0))
          = l.filter (fun r => decide (Room_IsOverlapped w R r ≠ 0)) := by
        simp [List.filter_cons, hp0]
      rw [hfil]
      have hstep : addOverlapped v R r = some v := by
        unfold addOverlapped
        rw [if_neg (by simp [hpv])]
      have hloop : overlappedLoop R (r :: l) v = overlappedLoop R l v := by
        rw [overlappedLoop, hstep]
      rw [hloop]
      exact ih v hv hle

/-- `Room_BuildOverlappedRoomsList(R)`: when the rooms of the table that overlap `R` fit
into the array, the call ends with the list of these rooms in table order, and it changes
nothing but the overlapped-room list of `R`; when they do not fit, a store of the loop is
outside the array. -/
theorem buildOverlapped_spec (w : World) (R : RoomRef) :
    ((w.rooms.filter (fun r => decide (Room_IsOverlapped w R r ≠ 0))).length
        ≤ overlapped_room_list_declared_len →
      ∃ u, Room_BuildOverlappedRoomsList w R = some u ∧ u.rooms = w.rooms ∧
        (∀ x, (u.room_heap x).eraseOverlapped = (w.room_heap x).eraseOverlapped) ∧
        overlappedEntries u R = w.rooms.filter (fun r => decide (Room_IsOverlapped w R r ≠ 0)) ∧
        (u.room_heap R).overlapped_room_list_size
          = (w.rooms.filter (fun r => decide (Room_IsOverlapped w R r ≠ 0))).length) ∧
    (overlapped_room_list_declared_len
        < (w.rooms.filter (fun r => decide (Room_IsOverlapped w R r ≠ 0))).length →
      Room_BuildOverlappedRoomsList w R = none) := by
  unfold Room_BuildOverlappedRoomsList
  simp only [setRoom_rooms]
  have hv : ∀ x, ((setRoom w R { w.room_heap R with
      overlapped_room_list_size := 0 }).room_heap x).eraseOverlapped
        = (w.room_heap x).eraseOverlapped := by
    intro x
    by_cases hx : x = R
    · subst hx; simp [Room.eraseOverlapped]
    · simp [setRoom_room_heap, hx]
  obtain ⟨h1, h2⟩ := overlapped_loop w R w.rooms _ hv (by simp)
  constructor
  · intro hfit
    obtain ⟨u, hu, hur, huf, hue, hus⟩ := h1 (by simpa using hfit)
    refine ⟨u, hu, by simpa using hur, huf, ?_, ?_⟩
    · rw [hue]; simp [overlappedEntries]
    · rw [hus]; simp
  · intro hover
    exact h2 (by simpa using hover)

/-! ## Sector resolution -/

theorem resolveInRoom_out_of_range (w : World) (s : SectorRef) (r : RoomRef)
    (h : ¬ (0 ≤ resolveIndX w s r ∧ resolveIndX w s r < (w.room_heap r).sectors_x ∧
        0 ≤ resolveIndY w s r ∧ resolveIndY w s r < (w.room_heap r).sectors_y)) :
    resolveInRoom w s r = s := by
  unfold resolveInRoom
  rw [if_neg]
  simpa [ge_iff_le] using h

/-! ## Spawning an entity -/

/-- The two cases in which `World_SpawnEntity` returns the sentinel: an empty entity
table, and a model table of at least three strictly ascending ids without the requested
one. The state is returned as it was. -/
theorem spawnEntity_sentinel (w : World) (fuel model_id room_id : Nat)
    (pos ang : Option Vec3) (id : Int) :
    (w.entity_tree = [] →
      World_SpawnEntity fuel w model_id room_id pos ang id = some (0xFFFFFFFF, w)) ∧
    (3 ≤ w.skeletal_models.length → AscendingIds w.skeletal_models →
      w.skeletal_models.length ≤ 2 ^ 64 → w.skeletal_models.length ≤ fuel →
      (∀ m ∈ w.skeletal_models, m.id ≠ model_id) →
      World_SpawnEntity fuel w model_id room_id pos ang id = some (0xFFFFFFFF, w)) := by
  constructor
  · intro h
    simp [World_SpawnEntity, h]
  · intro h3 hasc hsz hfuel habs
    have hnone : World_GetModelByID fuel w model_id = some none := by
      apply getModel_absent w model_id fuel hasc h3 hsz hfuel
      intro j hj
      rw [modelAt_eq _ j hj]
      exact habs _ (List.getElem_mem hj)
    unfold World_SpawnEntity
    rw [hnone]
    split <;> rfl

/-! ## What the near-room list holds -/

theorem isOverlapped_congr_near (w v : World) (h : NearOnly w v) (a b : RoomRef) :
    Room_IsOverlapped v a b = Room_IsOverlapped w a b := by
  have hmin : ∀ x, (v.room_heap x).bb_min = (w.room_heap x).bb_min := fun x => by
    have e := congrArg Room.bb_min (h.2.2 x); exact e
  have hmax : ∀ x, (v.room_heap x).bb_max = (w.room_heap x).bb_max := fun x => by
    have e := congrArg Room.bb_max (h.2.2 x); exact e
  simp only [Room_IsOverlapped, Room_IsJoined, h.id_eq, h.alternate_eq, hmin, hmax,
    h.portals_eq]

/-- One call of `Room_AddToNearRoomsList(R, e)` from a state `v` that differs from `w` in
near-room lists only: the entries below the old size stay, the size does not shrink, and
if every old entry is not overlapped with `R` and has the property `C`, and `e` has the
property `C`, then so does every new entry. -/
theorem addToNear_step (w v : World) (R e : RoomRef) (C : RoomRef → Prop)
    (hv : NearOnly w v) (hC : C e)
    (hgood : ∀ j, j < (v.room_heap R).near_room_list_size →
      Room_IsOverlapped w R ((v.room_heap R).near_room_list j) = 0 ∧
        C ((v.room_heap R).near_room_list j)) :
    NearOnly w (Room_AddToNearRoomsList v (some R) (some e)) ∧
    (v.room_heap R).near_room_list_size
      ≤ ((Room_AddToNearRoomsList v (some R) (some e)).room_heap R).near_room_list_size ∧
    (∀ j, j < (v.room_heap R).near_room_list_size →
      ((Room_AddToNearRoomsList v (some R) (some e)).room_heap R).near_room_list j
        = (v.room_heap R).near_room_list j) ∧
    (∀ j, j < ((Room_AddToNearRoomsList v (some R) (some e)).room_heap R).near_room_list_size →
      Room_IsOverlapped w R
          (((Room_AddToNearRoomsList v (some R) (some e)).room_heap R).near_room_list j) = 0 ∧
        C (((Room_AddToNearRoomsList v (some R) (some e)).room_heap R).near_room_list j)) := by
  refine ⟨hv.trans (nearOnly_addToNear v _ _), ?_⟩
  simp only [Room_AddToNearRoomsList]
  split
  · next hguard =>
    have hov : Room_IsOverlapped w R e = 0 := by
      rw [← isOverlapped_congr_near w v hv]; exact hguard.2.2.1
    simp only [setRoom_room_heap_same]
    refine ⟨Nat.le_succ _, ?_, ?_⟩
    · intro j hj
      rw [if_neg (by omega)]
    · intro j hj
      by_cases hje : j = (v.room_heap R).near_room_list_size
      · rw [if_pos hje]
        exact ⟨hov, hC⟩
      · rw [if_neg hje]
        exact hgood j (by omega)
  · exact ⟨Nat.le_refl _, fun _ _ => rfl, hgood⟩

/-- The loop over a portal list `ps` whose destinations all have the property `C`. -/
theorem addPortalDests_step (w : World) (R : RoomRef) (C : RoomRef → Prop) (ps : List Portal)
    (hps : ∀ p ∈ ps, C p.dest_room) :
    ∀ v : World, NearOnly w v →
      (∀ j, j < (v.room_heap R).near_room_list_size →
        Room_IsOverlapped w R ((v.room_heap R).near_room_list j) = 0 ∧
          C ((v.room_heap R).near_room_list j)) →
      NearOnly w (addPortalDests v R ps) ∧
      (v.room_heap R).near_room_list_size
        ≤ ((addPortalDests v R ps).room_heap R).near_room_list_size ∧
      (∀ j, j < (v.room_heap R).near_room_list_size →
        ((addPortalDests v R ps).room_heap R).near_room_list j
          = (v.room_heap R).near_room_list j) ∧
      (∀ j, j < ((addPortalDests v R ps).room_heap R).near_room_list_size →
        Room_IsOverlapped w R (((addPortalDests v R ps).room_heap R).near_room_list j) = 0 ∧
          C (((addPortalDests v R ps).room_heap R).near_room_list j)) := by
  induction ps with
  | nil =>
    intro v hv hgood
    exact ⟨hv, Nat.le_refl _, fun _ _ => rfl, hgood⟩
  | cons p ps ih =>
    intro v hv hgood
    obtain ⟨a1, a2, a3, a4⟩ :=
      addToNear_step w v R p.dest_room C hv (hps p (List.mem_cons_self p ps)) hgood
    obtain ⟨b1, b2, b3, b4⟩ :=
      ih (fun q hq => hps q (List.mem_cons_of_mem p hq)) _ a1 a4
    refine ⟨b1, Nat.le_trans a2 b2, ?_, b4⟩
    intro j hj
    have e1 := b3 j (Nat.lt_of_lt_of_le hj a2)
    have e2 := a3 j hj
    simp only [addPortalDests, List.foldl_cons] at e1 ⊢
    rw [e1, e2]

/-- The second loop of `Room_BuildNearRoomsList`, over the indices `l` below `nc1`. -/
theorem secondHop_step (w : World) (R : RoomRef) (nc1 : Nat) (l : List Nat)
    (hl : ∀ i ∈ l, i < nc1) :
    ∀ v : World, NearOnly w v →
      nc1 ≤ (v.room_heap R).near_room_list_size →
      (∀ j, j < nc1 → DirectDest w R ((v.room_heap R).near_room_list j)) →
      (∀ j, j < (v.room_heap R).near_room_list_size →
        Room_IsOverlapped w R ((v.room_heap R).near_room_list j) = 0 ∧
          TwoHopDest w R ((v.room_heap R).near_room_list j)) →
      ∀ j, j < ((l.foldl (fun u i => addPortalDests u R
            (u.room_heap ((u.room_heap R).near_room_list i)).portals) v).room_heap
              R).near_room_list_size →
        Room_IsOverlapped w R (((l.foldl (fun u i => addPortalDests u R
            (u.room_heap ((u.room_heap R).near_room_list i)).portals) v).room_heap
              R).near_room_list j) = 0 ∧
          TwoHopDest w R (((l.foldl (fun u i => addPortalDests u R
            (u.room_heap ((u.room_heap R).near_room_list i)).portals) v).room_heap
              R).near_room_list j) := by
  induction l with
  | nil =>
    intro v _ _ _ hgood
    exact hgood
  | cons i l ih =>
    intro v hv hsz hdir hgood
    simp only [List.foldl_cons]
    have hi : i < nc1 := hl i (List.mem_cons_self i l)
    have hm : DirectDest w R ((v.room_heap R).near_room_list i) := hdir i hi
    have hps : ∀ p ∈ (v.room_heap ((v.room_heap R).near_room_list i)).portals,
        TwoHopDest w R p.dest_room := by
      intro p hp
      rw [hv.portals_eq] at hp
      exact Or.inr ⟨_, hm, p, hp, rfl⟩
    obtain ⟨b1, b2, b3, b4⟩ := addPortalDests_step w R (TwoHopDest w R) _ hps v hv hgood
    apply ih (fun k hk => hl k (List.mem_cons_of_mem i hk)) _ b1 (Nat.le_trans hsz b2) _ b4
    intro j hj
    rw [b3 j (Nat.lt_of_lt_of_le hj hsz)]
    exact hdir j hj

theorem build_entries (w : World) (R : RoomRef) :
    ∀ j, j < ((Room_BuildNearRoomsList w R).room_heap R).near_room_list_size →
      Room_IsOverlapped w R (((Room_BuildNearRoomsList w R).room_heap R).near_room_list j) = 0 ∧
      TwoHopDest w R (((Room_BuildNearRoomsList w R).room_heap R).near_room_list j) := by
  unfold Room_BuildNearRoomsList
  simp only
  have h0 : NearOnly w (setRoom w R { w.room_heap R with near_room_list_size := 0 }) :=
    nearOnly_setRoom w R 0 (w.room_heap R).near_room_list
  have hps : ∀ p ∈ ((setRoom w R { w.room_heap R with near_room_list_size := 0 }).room_heap
      R).portals, DirectDest w R p.dest_room := by
    intro p hp
    simp only [setRoom_room_heap_same] at hp
    exact ⟨p, hp, rfl⟩
  obtain ⟨b1, _, _, b4⟩ := addPortalDests_step w R (DirectDest w R) _ hps _ h0
    (by intro j hj; simp at hj)
  apply secondHop_step w R _ _ (fun i hi => List.mem_range.mp hi) _ b1 (Nat.le_refl _)
  · intro j hj
    exact (b4 j hj).2
  · intro j hj
    exact ⟨(b4 j hj).1, Or.inl (b4 j hj).2⟩

/-! ## Flip-aware resolution -/

theorem resolveInRoom_in_range (w : World) (s : SectorRef) (r : RoomRef)
    (h : 0 ≤ resolveIndX w s r ∧ resolveIndX w s r < (w.room_heap r).sectors_x ∧
        0 ≤ resolveIndY w s r ∧ resolveIndY w s r < (w.room_heap r).sectors_y) :
    resolveInRoom w s r = sectorAddr w r (resolveIndX w s r) (resolveIndY w s r) := by
  unfold resolveInRoom
  rw [if_pos]
  simpa [ge_iff_le] using h

theorem roomAt_eq (w : World) (k : Int) (r : RoomRef) (h : w.rooms[k.toNat]? = some r) :
    roomAt w k = r := by
  simp [roomAt, List.getD, h]

/-! ## Point query with a hint room -/

theorem advanceFrame_in_range (seq : AnimSeq) (h2 : 2 ≤ seq.frames.length)
    (hc : seq.current_frame < seq.frames.length) :
    (advanceFrame seq).current_frame < (advanceFrame seq).frames.length := by
  have hpos : 0 < seq.frames.length := by omega
  unfold advanceFrame
  cases seq.anim_type
  · exact lt_of_le_of_lt (Nat.mod_le _ _) (Nat.mod_lt _ hpos)
  · exact lt_of_le_of_lt (Nat.mod_le _ _) (Nat.mod_lt _ hpos)
  · by_cases hd : seq.reverse_direction = true
    · simp only [hd, if_true]
      by_cases h0 : seq.current_frame = 0
      · simp only [h0, if_true]
        show (0 + 1) % 2 ^ 16 < seq.frames.length
        norm_num
        omega
      · simp only [h0, if_false]
        have hgt : seq.current_frame > 0 := Nat.pos_of_ne_zero h0
        simp only [hgt, if_true]
        show (seq.current_frame + 2 ^ 16 - 1) % 2 ^ 16 < seq.frames.length
        omega
    · simp only [hd, Bool.false_eq_true, if_false]
      split_ifs <;> exact lt_of_le_of_lt (Nat.mod_le _ _) (Nat.mod_lt _ hpos)

/-! ## Flip resolution of a sector -/

theorem sectorCheckFlip_cases (w : World) (b : SectorRef) :
    ((w.room_heap (sectorAt w b).owner_room).active = true →
      Sector_CheckFlip w (some b) = some b) ∧
    (∀ t : RoomRef, (w.room_heap (sectorAt w b).owner_room).active = false →
      (w.room_heap (sectorAt w b).owner_room).base_room = some t →
      (w.room_heap t).active = true →
      Sector_CheckFlip w (some b)
        = some (sectorAddr w t (sectorAt w b).index_x (sectorAt w b).index_y)) ∧
    (∀ t : RoomRef, (w.room_heap (sectorAt w b).owner_room).active = false →
      activePtr w (w.room_heap (sectorAt w b).owner_room).base_room = false →
      (w.room_heap (sectorAt w b).owner_room).alternate_room = some t →
      (w.room_heap t).active = true →
      Sector_CheckFlip w (some b)
        = some (sectorAddr w t (sectorAt w b).index_x (sectorAt w b).index_y)) ∧
    (∃ q, Sector_CheckFlip w (some b) = some q ∧
      (q.room = b.room ∨
        (w.room_heap (sectorAt w b).owner_room).base_room = some q.room ∨
        (w.room_heap (sectorAt w b).owner_room).alternate_room = some q.room)) := by
  refine ⟨?_, ?_, ?_, ?_⟩
  · intro ha
    simp [Sector_CheckFlip, ha]
  · intro t ha hb ht
    simp [Sector_CheckFlip, ha, hb, activePtr, ht]
  · intro t ha hnb hal ht
    simp only [Sector_CheckFlip, ha, Bool.not_false, if_true, hnb, Bool.false_eq_true, if_false]
    simp [hal, activePtr, ht]
  · unfold Sector_CheckFlip
    simp only
    split_ifs with h1 h2 h3
    · cases hb : (w.room_heap (sectorAt w b).owner_room).base_room with
      | none => exact ⟨b, rfl, Or.inl rfl⟩
      | some t => exact ⟨_, rfl, Or.inr (Or.inl rfl)⟩
    · cases hb : (w.room_heap (sectorAt w b).owner_room).alternate_room with
      | none => exact ⟨b, rfl, Or.inl rfl⟩
      | some t => exact ⟨_, rfl, Or.inr (Or.inr rfl)⟩
    · exact ⟨b, rfl, Or.inl rfl⟩
    · exact ⟨b, rfl, Or.inl rfl⟩
/-! ## The claims -/

/-- C1: flip round trip. For a base room `A` with alternate `B` (different rooms with
different ids, `B.base_room = A`, `A` active, `B` inactive), after
`Room_SwapToAlternate(A)` and then `Room_SwapToBase(B)`: `A` is active, `B` is inactive,
the container list of `A` is the list it was before, and every portal of a room of the
table whose destination was `A` has destination `A` again (and its geometry). -/
theorem C1_flip_round_trip (w : World) (A B : RoomRef) (hAB : A ≠ B)
    (halt : (w.room_heap A).alternate_room = some B)
    (hbase : (w.room_heap B).base_room = some A)
    (_hid : (w.room_heap A).id ≠ (w.room_heap B).id)
    (hA : (w.room_heap A).active = true) (_hB : (w.room_heap B).active = false) :
    ((Room_SwapToBase (Room_SwapToAlternate w A) B).room_heap A).active = true ∧
    ((Room_SwapToBase (Room_SwapToAlternate w A) B).room_heap B).active = false ∧
    ((Room_SwapToBase (Room_SwapToAlternate w A) B).room_heap A).containers
      = (w.room_heap A).containers ∧
    (Room_SwapToBase (Room_SwapToAlternate w A) B).rooms = w.rooms ∧
    (∀ (r : RoomRef) (i : Nat) (p : Portal), r ∈ w.rooms →
      (w.room_heap r).portals[i]? = some p → p.dest_room = A →
      ∃ q : Portal,
        ((Room_SwapToBase (Room_SwapToAlternate w A) B).room_heap r).portals[i]? = some q ∧
        q.dest_room = A ∧ q.geometry = p.geometry) := by
  have hBA : B ≠ A := fun h => hAB h.symm
  rw [swapToAlternate_eq w A B halt hA]
  have hb1 : ((flipTo w A B).room_heap B).base_room = some A := by
    rw [flipTo_base]; exact hbase
  have ha1 : ((flipTo w A B).room_heap B).active = true := by
    rw [flipTo_active]; simp
  rw [swapToBase_eq _ B A hb1 ha1]
  refine ⟨?_, ?_, ?_, ?_, ?_⟩
  · rw [flipTo_active]; simp
  · rw [flipTo_active]; simp [hBA]
  · rw [flipTo_containers, if_pos rfl, flipTo_containers, if_pos rfl]
  · rw [flipTo_rooms, flipTo_rooms]
  · intro r i p hr hp hd
    rw [flipTo_portals, flipTo_rooms, if_pos hr, flipTo_portals, if_pos hr, List.map_map,
      List.getElem?_map, hp]
    refine ⟨_, rfl, ?_, ?_⟩
    · simp [repoint, hd, flipTo_id]
    · simp [repoint_geometry]

/-- C1 at `flipWorld`, base room `0` and alternate `1`: the hypotheses hold there, and
after the round trip room `0` is active with container list `[5]`, room `1` is inactive
and the portal of room `2` points at room `0` again. -/
theorem C1_flip_round_trip_witness :
    (flipWorld.room_heap 0).alternate_room = some 1 ∧
    (flipWorld.room_heap 1).base_room = some 0 ∧
    ((Room_SwapToBase (Room_SwapToAlternate flipWorld 0) 1).room_heap 0).active = true ∧
    ((Room_SwapToBase (Room_SwapToAlternate flipWorld 0) 1).room_heap 1).active = false ∧
    ((Room_SwapToBase (Room_SwapToAlternate flipWorld 0) 1).room_heap 0).containers = [5] ∧
    (∃ q : Portal,
      ((Room_SwapToBase (Room_SwapToAlternate flipWorld 0) 1).room_heap 2).portals[0]? = some q ∧
      q.dest_room = 0 ∧ q.geometry = 7) :=
  have h := C1_flip_round_trip flipWorld 0 1 (by decide) (by decide) (by decide) (by decide)
    (by decide) (by decide)
  ⟨by decide, by decide, h.1, h.2.1, h.2.2.1,
    h.2.2.2.2 2 0 ⟨0, 7⟩ (by decide) (by decide) rfl⟩

/-- C2: if `A` is active and has an alternate `B` different from `A`, then after
`Room_SwapToAlternate(A)` the room `A` is inactive and `B` is active, whatever the flag
of `B` was; and if `B` is active and has a base room `A` different from `B`, then after
`Room_SwapToBase(B)` the room `B` is inactive and `A` is active. -/
theorem C2_swap_sets_active_flags (w : World) (A B : RoomRef) (hAB : A ≠ B) :
    ((w.room_heap A).active = true → (w.room_heap A).alternate_room = some B →
      ((Room_SwapToAlternate w A).room_heap A).active = false ∧
      ((Room_SwapToAlternate w A).room_heap B).active = true) ∧
    ((w.room_heap B).active = true → (w.room_heap B).base_room = some A →
      ((Room_SwapToBase w B).room_heap B).active = false ∧
      ((Room_SwapToBase w B).room_heap A).active = true) := by
  have hBA : B ≠ A := fun h => hAB h.symm
  constructor
  · intro hA halt
    rw [swapToAlternate_eq w A B halt hA, flipTo_active, flipTo_active]
    simp [hAB]
  · intro hB hbase
    rw [swapToBase_eq w B A hbase hB, flipTo_active, flipTo_active]
    simp [hBA]

/-- C2 at `flipWorld` (swap to the alternate) and at `flippedWorld` (swap to the base). -/
theorem C2_swap_sets_active_flags_witness :
    (((Room_SwapToAlternate flipWorld 0).room_heap 0).active = false ∧
      ((Room_SwapToAlternate flipWorld 0).room_heap 1).active = true) ∧
    (((Room_SwapToBase flippedWorld 1).room_heap 1).active = false ∧
      ((Room_SwapToBase flippedWorld 1).room_heap 0).active = true) :=
  ⟨(C2_swap_sets_active_flags flipWorld 0 1 (by decide)).1 (by decide) (by decide),
   (C2_swap_sets_active_flags flippedWorld 0 1 (by decide)).2 (by decide) (by decide)⟩

/-- C3: after `Room_SwapPortals(room, dest_room)` the room table is the same, every room
has the same number of portals with the same geometry at the same positions, a portal
of a room of the table whose destination had the id of `room` has destination
`dest_room`, and every other portal has the destination it had before. -/
theorem C3_swap_portals_repoints (w : World) (room dest_room : RoomRef) :
    (Room_SwapPortals w room dest_room).rooms = w.rooms ∧
    (∀ r, ((Room_SwapPortals w room dest_room).room_heap r).portals.length
        = (w.room_heap r).portals.length) ∧
    (∀ r, ((Room_SwapPortals w room dest_room).room_heap r).portals.map Portal.geometry
        = (w.room_heap r).portals.map Portal.geometry) ∧
    (∀ (r : RoomRef) (i : Nat) (p : Portal), (w.room_heap r).portals[i]? = some p →
      ∃ q : Portal, ((Room_SwapPortals w room dest_room).room_heap r).portals[i]? = some q ∧
        q.geometry = p.geometry ∧
        (r ∈ w.rooms → (w.room_heap p.dest_room).id = (w.room_heap room).id →
          q.dest_room = dest_room) ∧
        (¬ (r ∈ w.rooms ∧ (w.room_heap p.dest_room).id = (w.room_heap room).id) →
          q.dest_room = p.dest_room)) := by
  refine ⟨(swapPortals_spec w room dest_room).1, ?_, ?_, ?_⟩
  · intro r
    rw [swapPortals_portals]
    split <;> simp
  · intro r
    rw [swapPortals_portals]
    split
    · rw [List.map_map]
      congr 1
      funext p
      exact repoint_geometry w room dest_room p
    · rfl
  · intro r i p hp
    rw [swapPortals_portals]
    by_cases hr : r ∈ w.rooms
    · rw [if_pos hr, List.getElem?_map, hp]
      refine ⟨_, rfl, repoint_geometry w room dest_room p, ?_, ?_⟩
      · intro _ hid
        simp [repoint, hid]
      · intro hn
        have hid : ¬ (w.room_heap p.dest_room).id = (w.room_heap room).id :=
          fun h => hn ⟨hr, h⟩
        simp [repoint, hid]
    · rw [if_neg hr]
      exact ⟨p, hp, rfl, fun h => absurd h hr, fun _ => rfl⟩

/-- C3 at `flipWorld`: the portal of room `2`, whose destination has the id of room `0`,
points at room `1` after `Room_SwapPortals(0, 1)`. -/
theorem C3_swap_portals_repoints_witness :
    ∃ q : Portal, ((Room_SwapPortals flipWorld 0 1).room_heap 2).portals[0]? = some q ∧
      q.geometry = 7 ∧ q.dest_room = 1 := by
  obtain ⟨q, h1, h2, h3, _⟩ :=
    (C3_swap_portals_repoints flipWorld 0 1).2.2.2 2 0 ⟨0, 7⟩ (by decide)
  exact ⟨q, h1, h2, h3 (by decide) (by decide)⟩

/-- C4, evaluated: in `chainWorld` the room ids are pairwise distinct and room `2` is an
active base room with alternate `3`; after `Room_SwapToAlternate(2)` no portal of a room of
the table points at room `2`, yet the near-room list of room `0` is `[1, 2]`. -/
theorem C4_stale_near_entry_after_swap :
    (chainWorld.rooms.map (fun r => (chainWorld.room_heap r).id)).Nodup ∧
    (chainWorld.room_heap 2).active = true ∧
    (chainWorld.room_heap 2).alternate_room = some 3 ∧
    (∀ r ∈ (Room_SwapToAlternate chainWorld 2).rooms,
      ∀ p ∈ ((Room_SwapToAlternate chainWorld 2).room_heap r).portals, p.dest_room ≠ 2) ∧
    nearEntries (Room_SwapToAlternate chainWorld 2) 0 = [1, 2] ∧
    ((Room_SwapToAlternate chainWorld 2).room_heap 2).id = (chainWorld.room_heap 2).id := by
  decide

/-- C5: for two different rooms `A` and `B` with disjoint container lists, after
`Room_SwapItems(A, B)` the list of `A` is the former list of `B`, the list of `B` is the
former list of `A`, and every container of either list refers back to the room whose
list now holds it. -/
theorem C5_swap_items_exchanges (w : World) (A B : RoomRef) (hAB : A ≠ B)
    (hdisj : ∀ c, c ∈ (w.room_heap A).containers → c ∉ (w.room_heap B).containers) :
    ((Room_SwapItems w A B).room_heap A).containers = (w.room_heap B).containers ∧
    ((Room_SwapItems w A B).room_heap B).containers = (w.room_heap A).containers ∧
    (∀ c, c ∈ ((Room_SwapItems w A B).room_heap A).containers →
      ((Room_SwapItems w A B).cont_heap c).room = some A) ∧
    (∀ c, c ∈ ((Room_SwapItems w A B).room_heap B).containers →
      ((Room_SwapItems w A B).cont_heap c).room = some B) := by
  have e1 : ((Room_SwapItems w A B).room_heap A).containers = (w.room_heap B).containers := by
    rw [swapItems_room_heap]; simp [hAB]
  have e2 : ((Room_SwapItems w A B).room_heap B).containers = (w.room_heap A).containers := by
    rw [swapItems_room_heap]; simp
  refine ⟨e1, e2, ?_, ?_⟩
  · intro c hc
    rw [e1] at hc
    rw [swapItems_cont_room, if_pos hc]
  · intro c hc
    rw [e2] at hc
    rw [swapItems_cont_room, if_neg (hdisj c hc), if_pos hc]

/-- C5 at `flipWorld`: the lists `[5]` of room `0` and `[6]` of room `1` are exchanged. -/
theorem C5_swap_items_exchanges_witness :
    ((Room_SwapItems flipWorld 0 1).room_heap 0).containers = (flipWorld.room_heap 1).containers ∧
    ((Room_SwapItems flipWorld 0 1).room_heap 1).containers = (flipWorld.room_heap 0).containers ∧
    ((Room_SwapItems flipWorld 0 1).cont_heap 6).room = some 0 ∧
    ((Room_SwapItems flipWorld 0 1).cont_heap 5).room = some 1 :=
  have h := C5_swap_items_exchanges flipWorld 0 1 (by decide) (by decide)
  ⟨h.1, h.2.1, h.2.2.1 6 (by decide), h.2.2.2 5 (by decide)⟩

/-- C6 as stated fails for `Room_AddEntity`: in `twoRoomWorld` container `5` is in the list
of room `1` only; after `Room_AddEntity(0, e)` for the entity `e` with that container it
is in the lists of room `0` and of room `1`. -/
theorem C6_add_entity_breaks_exclusivity :
    ContainerExclusive twoRoomWorld ∧
    ¬ ContainerExclusive (Room_AddEntity twoRoomWorld 0 { m_self := 5 }) := by
  refine ⟨twoRoomWorld_exclusive, ?_⟩
  intro h
  have h01 := h.1 0 1 5 (by decide) (by decide)
  exact absurd h01 (by decide)

/-- C6 (amended): container exclusivity is kept by `Room_RemoveEntity`,
`Room_SwapToAlternate` and `Room_SwapToBase` for every room and entity, and by
`Room_AddEntity(room, e)` when the container of `e` is in the list of no room other
than `room`. -/
theorem C6_container_exclusive_preserved (w : World) (h : ContainerExclusive w) :
    (∀ (room : RoomRef) (e : Entity),
      (∀ r, e.m_self ∈ (w.room_heap r).containers → r = room) →
      ContainerExclusive (Room_AddEntity w room e)) ∧
    (∀ (room : RoomRef) (e : Option Entity),
      ContainerExclusive (Room_RemoveEntity w room e).2) ∧
    (∀ room : RoomRef, ContainerExclusive (Room_SwapToAlternate w room)) ∧
    (∀ room : RoomRef, ContainerExclusive (Room_SwapToBase w room)) :=
  ⟨fun room e hfree => addEntity_exclusive w h room e hfree,
   fun room e => removeEntity_exclusive w h room e,
   fun room => swapToAlternate_exclusive w h room,
   fun room => swapToBase_exclusive w h room⟩

/-- C6 (amended) at `twoRoomWorld`: adding the entity with container `5` to room `1`,
removing it from room `1`, and both swaps on room `1` keep exclusivity. -/
theorem C6_container_exclusive_preserved_witness :
    ContainerExclusive (Room_AddEntity twoRoomWorld 1 { m_self := 5 }) ∧
    ContainerExclusive (Room_RemoveEntity twoRoomWorld 1 (some { m_self := 5 })).2 ∧
    ContainerExclusive (Room_SwapToAlternate twoRoomWorld 1) ∧
    ContainerExclusive (Room_SwapToBase twoRoomWorld 1) :=
  have h := C6_container_exclusive_preserved twoRoomWorld twoRoomWorld_exclusive
  ⟨h.1 1 { m_self := 5 } (by
      intro r hr
      by_cases h1 : r = 1
      · exact h1
      · simp [twoRoomWorld, h1] at hr),
   h.2.1 1 (some { m_self := 5 }), h.2.2.1 1, h.2.2.2 1⟩

/-- C7: the swap transitions are no-ops outside their valid state. When `room` has no
alternate room or is inactive, `Room_SwapToAlternate(room)` returns the state it was
given; when `room` has no base room or is inactive, so does `Room_SwapToBase(room)`;
and a second `Room_SwapToAlternate(room)` directly after a first one, on a room whose
alternate is a different room, changes nothing. -/
theorem C7_swap_guarded_noop (w : World) (room : RoomRef) :
    (((w.room_heap room).alternate_room = none ∨ (w.room_heap room).active = false) →
      Room_SwapToAlternate w room = w) ∧
    (((w.room_heap room).base_room = none ∨ (w.room_heap room).active = false) →
      Room_SwapToBase w room = w) ∧
    ((w.room_heap room).alternate_room ≠ some room →
      Room_SwapToAlternate (Room_SwapToAlternate w room) room = Room_SwapToAlternate w room) := by
  refine ⟨swapToAlternate_noop w room, swapToBase_noop w room, ?_⟩
  intro hne
  cases halt : (w.room_heap room).alternate_room with
  | none =>
    rw [swapToAlternate_noop w room (Or.inl halt), swapToAlternate_noop w room (Or.inl halt)]
  | some alt =>
    cases hact : (w.room_heap room).active with
    | false =>
      rw [swapToAlternate_noop w room (Or.inr hact), swapToAlternate_noop w room (Or.inr hact)]
    | true =>
      rw [swapToAlternate_eq w room alt halt hact]
      apply swapToAlternate_noop
      right
      rw [flipTo_active]
      have hx : room ≠ alt := by
        intro hx
        apply hne
        rw [halt, ← hx]
      simp [hx]

/-- C7 at `flippedWorld`, where the base room `0` is inactive and has no base room, and at
`flipWorld` for the repeated swap. -/
theorem C7_swap_guarded_noop_witness :
    Room_SwapToAlternate flippedWorld 0 = flippedWorld ∧
    Room_SwapToBase flippedWorld 0 = flippedWorld ∧
    Room_SwapToAlternate (Room_SwapToAlternate flipWorld 0) 0 = Room_SwapToAlternate flipWorld 0 :=
  ⟨(C7_swap_guarded_noop flippedWorld 0).1 (Or.inr (by decide)),
   (C7_swap_guarded_noop flippedWorld 0).2.1 (Or.inl (by decide)),
   (C7_swap_guarded_noop flipWorld 0).2.2 (by decide)⟩

/-- C8, evaluated: in `staleNearWorld` room `0` has three portals, one of them to room `3`
whose id differs from the id of room `0`, and the near-room list of room `3` is the one
`Room_BuildNearRoomsList(3)` computes; after `Room_BuildNearRoomsList(0)` the near-room
list of room `0` is `[1, 2]`, without room `3`. -/
theorem C8_direct_destination_missing :
    (staleNearWorld.room_heap 0).portals.length ≤ 64 ∧
    (⟨3, 0⟩ : Portal) ∈ (staleNearWorld.room_heap 0).portals ∧
    (staleNearWorld.room_heap 3).id ≠ (staleNearWorld.room_heap 0).id ∧
    nearEntries staleNearWorld 3 = [0] ∧
    nearEntries (Room_BuildNearRoomsList staleNearWorld 3) 3 = [0] ∧
    nearEntries (Room_BuildNearRoomsList staleNearWorld 0) 0 = [1, 2] ∧
    3 ∉ nearEntries (Room_BuildNearRoomsList staleNearWorld 0) 0 := by
  decide

/-- C9, evaluated: in `doublePortalWorld` every near-room list is empty and room `0` has two
portals to room `1`; after `Room_BuildNearRoomsList(0)` the near-room list of room `0` is
`[1, 2, 1]`, so the ids of its entries are not pairwise distinct. -/
theorem C9_duplicate_near_entry :
    nearEntries (Room_BuildNearRoomsList doublePortalWorld 0) 0 = [1, 2, 1] ∧
    ¬ ((nearEntries (Room_BuildNearRoomsList doublePortalWorld 0) 0).map
        (fun r => ((Room_BuildNearRoomsList doublePortalWorld 0).room_heap r).id)).Nodup := by
  decide

/-- C10: after `Room_BuildNearRoomsList(R)` the value of `near_room_list_size` of `R` is
at most 64, and `Room_AddToNearRoomsList` called on a room that already stores 64
entries returns the state unchanged. -/
theorem C10_near_list_capped (w : World) (R : RoomRef) :
    ((Room_BuildNearRoomsList w R).room_heap R).near_room_list_size ≤ 64 ∧
    (∀ (v : World) (room : RoomRef) (r : Option RoomRef),
      64 ≤ (v.room_heap room).near_room_list_size →
      Room_AddToNearRoomsList v (some room) r = v) :=
  ⟨build_size_le w R, fun v room r h => addToNear_full v room r h⟩

set_option maxRecDepth 100000 in
/-- C10 at a room with 70 portals to 70 different rooms: 64 entries are stored, and
adding another candidate to the result changes nothing. -/
theorem C10_near_list_capped_witness :
    (manyPortalWorld.room_heap 0).portals.length = 70 ∧
    ((Room_BuildNearRoomsList manyPortalWorld 0).room_heap 0).near_room_list_size = 64 ∧
    Room_AddToNearRoomsList (Room_BuildNearRoomsList manyPortalWorld 0) (some 0) (some 70)
      = Room_BuildNearRoomsList manyPortalWorld 0 := by
  have h64 : ((Room_BuildNearRoomsList manyPortalWorld 0).room_heap 0).near_room_list_size
      = 64 := by decide
  exact ⟨by decide, h64,
    (C10_near_list_capped manyPortalWorld 0).2 _ 0 (some 70) (le_of_eq h64.symm)⟩

/-- C11: `Room_IsOverlapped` is irreflexive and symmetric: `Room_IsOverlapped(R, R) = 0`
for every room `R`, and `Room_IsOverlapped(A, B) = Room_IsOverlapped(B, A)` for every two
rooms `A` and `B`. -/
theorem C11_overlap_irreflexive_symmetric (w : World) :
    (∀ R : RoomRef, Room_IsOverlapped w R R = 0) ∧
    (∀ A B : RoomRef, Room_IsOverlapped w A B = Room_IsOverlapped w B A) := by
  refine ⟨fun R => ?_, isOverlapped_comm w⟩
  simp [Room_IsOverlapped]

/-- C12: for two different rooms `r0` and `r1`, `Room_IsOverlapped(r0, r1)` is nonzero
exactly when the bounding boxes intersect on each of the three axes
(`r0.bb_min < r1.bb_max` and `r1.bb_min < r0.bb_max`), no portal of `r0` has a destination
with the id of `r1`, no portal of `r1` has a destination with the id of `r0`, and neither
room is the alternate room of the other. -/
theorem C12_overlap_characterised (w : World) (r0 r1 : RoomRef) (hne : r0 ≠ r1) :
    Room_IsOverlapped w r0 r1 ≠ 0 ↔
      (((w.room_heap r0).bb_min.x < (w.room_heap r1).bb_max.x ∧
          (w.room_heap r1).bb_min.x < (w.room_heap r0).bb_max.x) ∧
        ((w.room_heap r0).bb_min.y < (w.room_heap r1).bb_max.y ∧
          (w.room_heap r1).bb_min.y < (w.room_heap r0).bb_max.y) ∧
        ((w.room_heap r0).bb_min.z < (w.room_heap r1).bb_max.z ∧
          (w.room_heap r1).bb_min.z < (w.room_heap r0).bb_max.z)) ∧
      (∀ p ∈ (w.room_heap r0).portals, (w.room_heap p.dest_room).id ≠ (w.room_heap r1).id) ∧
      (∀ p ∈ (w.room_heap r1).portals, (w.room_heap p.dest_room).id ≠ (w.room_heap r0).id) ∧
      (w.room_heap r0).alternate_room ≠ some r1 ∧
      (w.room_heap r1).alternate_room ≠ some r0 := by
  have hj : Room_IsJoined w r0 r1 = false ↔
      (∀ p ∈ (w.room_heap r0).portals, (w.room_heap p.dest_room).id ≠ (w.room_heap r1).id) ∧
      (∀ p ∈ (w.room_heap r1).portals, (w.room_heap p.dest_room).id ≠ (w.room_heap r0).id) := by
    rw [← Bool.not_eq_true, isJoined_eq_true_iff]
    constructor
    · intro h
      exact ⟨fun p hp e => h (Or.inl ⟨p, hp, e⟩), fun p hp e => h (Or.inr ⟨p, hp, e⟩)⟩
    · rintro ⟨h1, h2⟩ (⟨p, hp, e⟩ | ⟨p, hp, e⟩)
      · exact h1 p hp e
      · exact h2 p hp e
  rw [isOverlapped_ne_zero_iff, hj]
  constructor
  · rintro ⟨⟨_, h2, h3⟩, ⟨b1, b2, b3, b4, b5, b6⟩, j1, j2⟩
    exact ⟨⟨⟨b1, b2⟩, ⟨b3, b4⟩, ⟨b5, b6⟩⟩, j1, j2, h3, fun e => h2 e.symm⟩
  · rintro ⟨⟨⟨b1, b2⟩, ⟨b3, b4⟩, ⟨b5, b6⟩⟩, j1, j2, h3, h2⟩
    exact ⟨⟨hne, fun e => h2 e.symm, h3⟩, ⟨b1, b2, b3, b4, b5, b6⟩, j1, j2⟩

/-- C12 at `overlapWorld`: rooms `0` and `1` are different, their boxes intersect, they are
not joined and neither is the alternate of the other, so they are overlapped. -/
theorem C12_overlap_characterised_witness :
    Room_IsOverlapped overlapWorld 0 1 ≠ 0 :=
  (C12_overlap_characterised overlapWorld 0 1 (by decide)).mpr (by decide)

/-- C13: `Room_FindPos(P)` returns the first room of the room table that is active and
whose bounding box contains `P` (half-open on every axis), and null exactly when the table
has no such room; so if `R` is a room of the table that is active and contains `P`, and
no other room of the table is active and contains `P`, the result is `R`. -/
theorem C13_find_pos_first_match (w : World) (P : Vec3) :
    (∀ r, Room_FindPos w P = some r →
      ∃ i : Nat, w.rooms[i]? = some r ∧
        ((w.room_heap r).active = true ∧ ContainsPoint (w.room_heap r) P) ∧
        ∀ j : Nat, j < i → ∀ q : RoomRef, w.rooms[j]? = some q →
          ¬ ((w.room_heap q).active = true ∧ ContainsPoint (w.room_heap q) P)) ∧
    (Room_FindPos w P = none ↔
      ∀ r ∈ w.rooms, ¬ ((w.room_heap r).active = true ∧ ContainsPoint (w.room_heap r) P)) ∧
    (∀ R ∈ w.rooms, (w.room_heap R).active = true → ContainsPoint (w.room_heap R) P →
      (∀ r ∈ w.rooms, r ≠ R →
        ¬ ((w.room_heap r).active = true ∧ ContainsPoint (w.room_heap r) P)) →
      Room_FindPos w P = some R) := by
  have hnone : Room_FindPos w P = none ↔
      ∀ r ∈ w.rooms, ¬ ((w.room_heap r).active = true ∧ ContainsPoint (w.room_heap r) P) := by
    unfold Room_FindPos
    rw [findPosLoop_none]
    constructor
    · intro h r hr hc
      have := h r hr
      rw [(activeAndContains_iff w r P).mpr hc] at this
      exact absurd this (by decide)
    · intro h r hr
      have := h r hr
      rw [← activeAndContains_iff] at this
      simpa using this
  refine ⟨?_, hnone, ?_⟩
  · intro r h
    obtain ⟨i, h1, h2, h3⟩ := findPosLoop_some w P w.rooms r h
    refine ⟨i, h1, (activeAndContains_iff w r P).mp h2, ?_⟩
    intro j hj q hq hc
    have := h3 j hj q hq
    rw [(activeAndContains_iff w q P).mpr hc] at this
    exact absurd this (by decide)
  · intro R hR hact hcont huniq
    cases hres : Room_FindPos w P with
    | none => exact absurd ⟨hact, hcont⟩ (hnone.mp hres R hR)
    | some r =>
      obtain ⟨i, h1, h2, _⟩ := findPosLoop_some w P w.rooms r hres
      have hmem : r ∈ w.rooms := List.getElem?_mem h1
      by_cases hrR : r = R
      · rw [hrR]
      · exact absurd ((activeAndContains_iff w r P).mp h2) (huniq r hmem hrR)

/-- C13 at `overlapWorld`: the point `(2, 2, 2)` is in the boxes of rooms `3` and `0` only,
room `3` is inactive, and the result is room `0`. -/
theorem C13_find_pos_first_match_witness :
    Room_FindPos overlapWorld ⟨2, 2, 2⟩ = some 0 :=
  (C13_find_pos_first_match overlapWorld ⟨2, 2, 2⟩).2.2 0 (by decide) (by decide)
    (by decide) (by decide)

/-- C14, evaluated: in `gridWorld` room `0` is active with origin `(0, 0, 0)` and `2 x 3`
sectors; the point `(-1, 5, 0)` lies outside the grid rectangle `[0, 2048) x [0, 3072)`,
yet `Room_GetSectorRaw` returns the sector at position `0` instead of null. -/
theorem C14_point_left_of_grid_gets_sector :
    (gridWorld.room_heap 0).active = true ∧
    ¬ ((gridWorld.room_heap 0).origin.x ≤ (-1 : Int)) ∧
    Room_GetSectorRaw gridWorld (some 0) ⟨-1, 5, 0⟩ = some ⟨0, 0⟩ := by
  decide

/-- C15: for an active room whose sector vector holds `sectors_x * sectors_y` sectors and
a point inside the grid rectangle, `Room_GetSectorRaw` returns the pointer to position
`x * sectors_y + y` of the sector vector, `x` and `y` being the floor quotients of the
offsets from the origin by 1024, and that position is below the length of the vector; for
a null room and for an inactive room the result is null. -/
theorem C15_get_sector_raw_inside (w : World) (P : Vec3) :
    (∀ r : RoomRef, (w.room_heap r).active = true →
      (w.room_heap r).sectors.length = (w.room_heap r).sectors_x * (w.room_heap r).sectors_y →
      ((w.room_heap r).origin.x ≤ P.x ∧
        P.x < (w.room_heap r).origin.x + 1024 * (w.room_heap r).sectors_x) →
      ((w.room_heap r).origin.y ≤ P.y ∧
        P.y < (w.room_heap r).origin.y + 1024 * (w.room_heap r).sectors_y) →
      Room_GetSectorRaw w (some r) P
        = some ⟨r, ((P.x - (w.room_heap r).origin.x) / 1024).toNat * (w.room_heap r).sectors_y
            + ((P.y - (w.room_heap r).origin.y) / 1024).toNat⟩ ∧
      ((P.x - (w.room_heap r).origin.x) / 1024).toNat * (w.room_heap r).sectors_y
          + ((P.y - (w.room_heap r).origin.y) / 1024).toNat
        < (w.room_heap r).sectors.length) ∧
    Room_GetSectorRaw w none P = none ∧
    (∀ r : RoomRef, (w.room_heap r).active = false → Room_GetSectorRaw w (some r) P = none) := by
  refine ⟨?_, rfl, ?_⟩
  · intro r hact hlen hx hy
    obtain ⟨h1, h2, h3⟩ := grid_inside w r P hx hy
    refine ⟨?_, by rw [hlen]; exact h3⟩
    simp only [Room_GetSectorRaw, hact, Bool.not_true, Bool.false_eq_true, if_false]
    rw [if_neg h1, h2]
  · intro r hact
    simp [Room_GetSectorRaw, hact]

/-- C15 at `gridWorld`: the point `(1500, 2100, 0)` is in column `1`, row `2` of the grid of
room `0`, and the result is position `1 * 3 + 2 = 5` of its six sectors. -/
theorem C15_get_sector_raw_inside_witness :
    Room_GetSectorRaw gridWorld (some 0) ⟨1500, 2100, 0⟩ = some ⟨0, 5⟩ ∧
    5 < (gridWorld.room_heap 0).sectors.length ∧
    Room_GetSectorRaw gridWorld (some 1) ⟨1500, 2100, 0⟩ = none :=
  have h := C15_get_sector_raw_inside gridWorld ⟨1500, 2100, 0⟩
  have h0 := h.1 0 (by decide) (by decide) (by decide) (by decide)
  ⟨h0.1, h0.2, h.2.2 1 (by decide)⟩

/-- C16 as stated fails in `twinBelowWorld`: room `0` is active and is its own flip-resolved
room, the point `P = (10, 10, 50)` is inside its grid, the grid sector at `P` is the sector
`(0, 0)`, its `sector_below` is the sector `(1, 0)` of the inactive alternate room `1`,
whose ceiling `100` is at least `P.z`; `Sector_CheckFlip` resolves that sector into the
active base room `0`, and the result of `Room_GetSectorXYZ` is the grid sector itself. -/
theorem C16_sector_below_in_inactive_twin :
    Room_CheckFlip twinBelowWorld (some 0) = some 0 ∧
    (twinBelowWorld.room_heap 0).active = true ∧
    Room_GetSectorRaw twinBelowWorld (some 0) ⟨10, 10, 50⟩ = some ⟨0, 0⟩ ∧
    (sectorAt twinBelowWorld ⟨0, 0⟩).sector_below = some ⟨1, 0⟩ ∧
    (sectorAt twinBelowWorld ⟨1, 0⟩).ceiling ≥ 50 ∧
    Sector_CheckFlip twinBelowWorld (some ⟨1, 0⟩) = some ⟨0, 0⟩ ∧
    Room_GetSectorXYZ twinBelowWorld 0 ⟨10, 10, 50⟩ = some ⟨0, 0⟩ := by
  decide

/-- C16 (amended): vertical priority of `Room_GetSectorXYZ`. When the flip-resolved room
`r` of `room` is active, `P` is inside the grid rectangle of `r`, the grid sector `s` at
`P` has a `sector_below` `b` and the ceiling of that sector is at least `P.z`, the result
is `Sector_CheckFlip(b)`, whatever `s.sector_above` is: `b` itself when the owner room of
`b` is active, and the sector with the indices of `b` in the active base room, else in the
active alternate room, of that owner room when it is inactive. The result is a sector of
another room than `r`, hence not `s`, when `b` lies in another room than `r` and `r` is
neither the base room nor the alternate room of the owner room of `b`. -/
theorem C16_sector_below_wins (w : World) (room r : RoomRef) (P : Vec3) (s sb : RoomSector)
    (b : SectorRef)
    (hflip : Room_CheckFlip w (some room) = some r)
    (hact : (w.room_heap r).active = true)
    (hx : (w.room_heap r).origin.x ≤ P.x ∧
      P.x < (w.room_heap r).origin.x + 1024 * (w.room_heap r).sectors_x)
    (hy : (w.room_heap r).origin.y ≤ P.y ∧
      P.y < (w.room_heap r).origin.y + 1024 * (w.room_heap r).sectors_y)
    (hs : (w.room_heap r).sectors[((P.x - (w.room_heap r).origin.x) / 1024).toNat
        * (w.room_heap r).sectors_y + ((P.y - (w.room_heap r).origin.y) / 1024).toNat]? = some s)
    (hb : s.sector_below = some b)
    (hsb : (w.room_heap b.room).sectors[b.index]? = some sb)
    (hceil : sb.ceiling ≥ P.z) :
    Room_GetSectorXYZ w room P = Sector_CheckFlip w (some b) ∧
    ((w.room_heap sb.owner_room).active = true → Room_GetSectorXYZ w room P = some b) ∧
    (∀ t : RoomRef, (w.room_heap sb.owner_room).active = false →
      (w.room_heap sb.owner_room).base_room = some t → (w.room_heap t).active = true →
      Room_GetSectorXYZ w room P
        = some ⟨t, (sb.index_x * (w.room_heap t).sectors_y + sb.index_y).toNat⟩) ∧
    (∀ t : RoomRef, (w.room_heap sb.owner_room).active = false →
      activePtr w (w.room_heap sb.owner_room).base_room = false →
      (w.room_heap sb.owner_room).alternate_room = some t → (w.room_heap t).active = true →
      Room_GetSectorXYZ w room P
        = some ⟨t, (sb.index_x * (w.room_heap t).sectors_y + sb.index_y).toNat⟩) ∧
    (b.room ≠ r → (w.room_heap sb.owner_room).base_room ≠ some r →
      (w.room_heap sb.owner_room).alternate_room ≠ some r →
      ∃ q, Room_GetSectorXYZ w room P = some q ∧ q.room ≠ r ∧
        q ≠ ⟨r, ((P.x - (w.room_heap r).origin.x) / 1024).toNat * (w.room_heap r).sectors_y
          + ((P.y - (w.room_heap r).origin.y) / 1024).toNat⟩) := by
  obtain ⟨h1, h2, _⟩ := grid_inside w r P hx hy
  have hsbat : sectorAt w b = sb := by
    simp [sectorAt, hsb]
  have key : Room_GetSectorXYZ w room P = Sector_CheckFlip w (some b) := by
    unfold Room_GetSectorXYZ
    rw [hflip]
    simp only [hact, Bool.not_true, Bool.false_eq_true, if_false]
    rw [if_neg h1, h2]
    have hsat : sectorAt w ⟨r, ((P.x - (w.room_heap r).origin.x) / 1024).toNat
        * (w.room_heap r).sectors_y + ((P.y - (w.room_heap r).origin.y) / 1024).toNat⟩ = s := by
      simp [sectorAt, hs]
    rw [hsat, hb]
    simp [hsbat, hceil]
  obtain ⟨c1, c2, c3, c4⟩ := sectorCheckFlip_cases w b
  rw [hsbat] at c1 c2 c3 c4
  refine ⟨key, ?_, ?_, ?_, ?_⟩
  · intro ha
    rw [key]
    exact c1 ha
  · intro t ha hbase ht
    rw [key]
    exact c2 t ha hbase ht
  · intro t ha hnb hal ht
    rw [key]
    exact c3 t ha hnb hal ht
  · intro hbr hnbase hnalt
    obtain ⟨q, hq, hroom⟩ := c4
    have hqr : q.room ≠ r := by
      rcases hroom with h | h | h
      · rw [h]; exact hbr
      · intro e; rw [e] at h; exact hnbase h
      · intro e; rw [e] at h; exact hnalt h
    refine ⟨q, by rw [key]; exact hq, hqr, ?_⟩
    intro e
    rw [e] at hqr
    exact hqr rfl

/-- C16 (amended) at `stackWorld`: at the point `(10, 10, 50)` the sector of room `0` has
a sector below with ceiling `100`, in the active room `1`, and a sector above with floor
`0`; the result is the sector of the lower room `1`, which is not the grid sector. -/
theorem C16_sector_below_wins_witness :
    Room_GetSectorXYZ stackWorld 0 ⟨10, 10, 50⟩ = some ⟨1, 0⟩ ∧
    (∃ q : SectorRef, Room_GetSectorXYZ stackWorld 0 ⟨10, 10, 50⟩ = some q ∧ q.room ≠ 0 ∧
      q ≠ ⟨0, 0⟩) ∧
    (sectorAt stackWorld ⟨0, 0⟩).sector_above = some ⟨2, 0⟩ ∧
    (sectorAt stackWorld ⟨2, 0⟩).floor ≤ 50 :=
  have h := C16_sector_below_wins stackWorld 0 0 ⟨10, 10, 50⟩
    { owner_room := 0, floor := 0, ceiling := 200,
      sector_below := some ⟨1, 0⟩, sector_above := some ⟨2, 0⟩ }
    { owner_room := 1, floor := -100, ceiling := 100 } ⟨1, 0⟩
    (by decide) (by decide) (by decide) (by decide) (by decide) rfl (by decide) (by decide)
  ⟨h.2.1 (by decide), h.2.2.2.2 (by decide) (by decide) (by decide), by decide, by decide⟩

/-- C17: `Room_CheckFlip` returns null for null and `r` itself when `r` is active; when
`r` is inactive it returns the base room if that is non-null and active, otherwise the
alternate room if that is non-null and active, otherwise `r`. So the returned room is
active whenever `r`, its base room or its alternate room is active. The function returns
a pointer only; it has no state to change. -/
theorem C17_check_flip (w : World) :
    Room_CheckFlip w none = none ∧
    (∀ r, (w.room_heap r).active = true → Room_CheckFlip w (some r) = some r) ∧
    (∀ r b, (w.room_heap r).active = false → (w.room_heap r).base_room = some b →
      (w.room_heap b).active = true → Room_CheckFlip w (some r) = some b) ∧
    (∀ r a, (w.room_heap r).active = false →
      activePtr w (w.room_heap r).base_room = false →
      (w.room_heap r).alternate_room = some a → (w.room_heap a).active = true →
      Room_CheckFlip w (some r) = some a) ∧
    (∀ r, (w.room_heap r).active = false →
      activePtr w (w.room_heap r).base_room = false →
      activePtr w (w.room_heap r).alternate_room = false →
      Room_CheckFlip w (some r) = some r) ∧
    (∀ r, ((w.room_heap r).active = true ∨ activePtr w (w.room_heap r).base_room = true ∨
        activePtr w (w.room_heap r).alternate_room = true) →
      ∃ q, Room_CheckFlip w (some r) = some q ∧ (w.room_heap q).active = true) := by
  refine ⟨rfl, ?_, ?_, ?_, ?_, ?_⟩
  · intro r h
    simp [Room_CheckFlip, h]
  · intro r b h hb hba
    simp [Room_CheckFlip, h, hb, activePtr, hba]
  · intro r a h hb ha haa
    simp only [Room_CheckFlip, h, Bool.not_false, if_true, hb, Bool.false_eq_true, if_false]
    simp [ha, activePtr, haa]
  · intro r h hb ha
    simp [Room_CheckFlip, h, hb, ha]
  · intro r h
    by_cases hact : (w.room_heap r).active = true
    · exact ⟨r, by simp [Room_CheckFlip, hact], hact⟩
    · have hact2 : (w.room_heap r).active = false := by simpa using hact
      rcases h with h | h | h
      · exact absurd h hact
      · cases hb : (w.room_heap r).base_room with
        | none => simp [hb, activePtr] at h
        | some b =>
          have hba : (w.room_heap b).active = true := by simpa [hb, activePtr] using h
          exact ⟨b, by simp [Room_CheckFlip, hact2, hb, activePtr, hba], hba⟩
      · cases ha : (w.room_heap r).alternate_room with
        | none => simp [ha, activePtr] at h
        | some a =>
          have haa : (w.room_heap a).active = true := by simpa [ha, activePtr] using h
          by_cases hb : activePtr w (w.room_heap r).base_room = true
          · cases hbb : (w.room_heap r).base_room with
            | none => simp [hbb, activePtr] at hb
            | some b =>
              have hba : (w.room_heap b).active = true := by simpa [hbb, activePtr] using hb
              exact ⟨b, by simp [Room_CheckFlip, hact2, hbb, activePtr, hba], hba⟩
          · have hb2 : activePtr w (w.room_heap r).base_room = false := by simpa using hb
            refine ⟨a, ?_, haa⟩
            simp only [Room_CheckFlip, hact2, Bool.not_false, if_true, hb2, Bool.false_eq_true,
              if_false]
            simp [ha, activePtr, haa]

/-- C17 at `flippedWorld`: the base room `0` is inactive and its alternate `1` is active,
so `Room_CheckFlip(0)` is room `1`; for room `1`, which is active, it is room `1`. -/
theorem C17_check_flip_witness :
    Room_CheckFlip flippedWorld (some 0) = some 1 ∧
    Room_CheckFlip flippedWorld (some 1) = some 1 :=
  ⟨(C17_check_flip flippedWorld).2.2.2.1 0 1 (by decide) (by decide) (by decide) (by decide),
   (C17_check_flip flippedWorld).2.1 1 (by decide)⟩

/-- C18: for a model table with at least three entries and strictly ascending ids (a
table that fits the range of `size_t`), and any fuel of at least the table length,
`World_GetModelByID` returns the pointer to the entry whose id equals the query when
there is one, and null when there is none. -/
theorem C18_model_lookup_three_or_more (w : World) (id fuel : Nat)
    (h3 : 3 ≤ w.skeletal_models.length)
    (hasc : AscendingIds w.skeletal_models)
    (hsz : w.skeletal_models.length ≤ 2 ^ 64)
    (hfuel : w.skeletal_models.length ≤ fuel) :
    (∀ (i : Nat) (m : SkeletalModel), w.skeletal_models[i]? = some m → m.id = id →
      World_GetModelByID fuel w id = some (some i)) ∧
    ((∀ m ∈ w.skeletal_models, m.id ≠ id) → World_GetModelByID fuel w id = some none) := by
  constructor
  · intro i m hm hid
    have hi : i < w.skeletal_models.length := (List.getElem?_eq_some_iff.mp hm).1
    apply getModel_found w id fuel i hasc hsz hfuel hi
    simp [modelAt, hm, hid]
  · intro habs
    apply getModel_absent w id fuel hasc h3 hsz hfuel
    intro j hj
    rw [modelAt_eq _ j hj]
    exact habs _ (List.getElem_mem hj)

/-- C18 at the table with ids `10, 20, 30, 40, 50`: the queries `10`, `50` and `30` return
the entries at positions `0`, `4` and `2`, and the query `25` returns null. -/
theorem C18_model_lookup_three_or_more_witness :
    World_GetModelByID 5 (modelWorld [10, 20, 30, 40, 50]) 10 = some (some 0) ∧
    World_GetModelByID 5 (modelWorld [10, 20, 30, 40, 50]) 50 = some (some 4) ∧
    World_GetModelByID 5 (modelWorld [10, 20, 30, 40, 50]) 30 = some (some 2) ∧
    World_GetModelByID 5 (modelWorld [10, 20, 30, 40, 50]) 25 = some none :=
  ⟨(C18_model_lookup_three_or_more (modelWorld [10, 20, 30, 40, 50]) 10 5 (by decide)
      (by decide) (by decide) (by decide)).1 0 ⟨10⟩ (by decide) rfl,
   (C18_model_lookup_three_or_more (modelWorld [10, 20, 30, 40, 50]) 50 5 (by decide)
      (by decide) (by decide) (by decide)).1 4 ⟨50⟩ (by decide) rfl,
   (C18_model_lookup_three_or_more (modelWorld [10, 20, 30, 40, 50]) 30 5 (by decide)
      (by decide) (by decide) (by decide)).1 2 ⟨30⟩ (by decide) rfl,
   (C18_model_lookup_three_or_more (modelWorld [10, 20, 30, 40, 50]) 25 5 (by decide)
      (by decide) (by decide) (by decide)).2 (by decide)⟩

/-- C19, evaluated: for the single-element table with id `10` the queries `5` and `15`,
and for the two-element table with ids `10, 20` the query `5`, never leave the loop of
`World_GetModelByID`: whatever the fuel, the loop is still running when it is used up.
The other queries on these tables return (the present ids, and `15` and `25` on the
two-element table). -/
theorem C19_lookup_does_not_terminate (fuel : Nat) :
    World_GetModelByID fuel (modelWorld [10]) 5 = none ∧
    World_GetModelByID fuel (modelWorld [10]) 15 = none ∧
    World_GetModelByID fuel (modelWorld [10, 20]) 5 = none ∧
    World_GetModelByID (fuel + 1) (modelWorld [10, 20]) 15 = some none ∧
    World_GetModelByID (fuel + 1) (modelWorld [10, 20]) 25 = some none ∧
    World_GetModelByID fuel (modelWorld [10]) 10 = some (some 0) ∧
    World_GetModelByID fuel (modelWorld [10, 20]) 20 = some (some 1) := by
  refine ⟨?_, ?_, ?_, ?_, ?_, ?_, ?_⟩
  · have h := getModelLoop_stuck (modelWorld [10]).skeletal_models 5 (by decide) fuel
    simpa [World_GetModelByID, modelWorld, modelAt] using h
  · have h := getModelLoop_stuck (modelWorld [10]).skeletal_models 15 (by decide) fuel
    simpa [World_GetModelByID, modelWorld, modelAt] using h
  · cases fuel with
    | zero => rfl
    | succ fuel =>
      have h := getModelLoop_stuck (modelWorld [10, 20]).skeletal_models 5 (by decide) fuel
      simp only [World_GetModelByID, modelWorld, modelAt, getModelLoop] at h ⊢
      simpa using h
  · simp [World_GetModelByID, modelWorld, modelAt, getModelLoop]
  · simp [World_GetModelByID, modelWorld, modelAt, getModelLoop]
  · simp [World_GetModelByID, modelWorld, modelAt]
  · simp [World_GetModelByID, modelWorld, modelAt]

/-- C20: in-place respawn. When the entity table is not empty, the model table (strictly
ascending, within the range of `size_t`) has a model with the requested id, and an entity
is stored under the requested id, then `World_SpawnEntity` (with fuel of at least the
length of the model table) returns the id of that entity; the entity table is the same
list of keys and entity pointers and no entity is allocated; the origin and the angles of
the entity are the arguments where these are non-null; the room of its container is the
room at position `room_id` of the room table, or null when `room_id` is not below the
number of rooms; and no other entity is written. -/
theorem C20_respawn_in_place (w : World) (fuel model_id room_id : Nat)
    (pos ang : Option Vec3) (id : Int) (ent : EntRef)
    (hne : w.entity_tree ≠ [])
    (hasc : AscendingIds w.skeletal_models)
    (hsz : w.skeletal_models.length ≤ 2 ^ 64)
    (hfuel : w.skeletal_models.length ≤ fuel)
    (hmodel : ∃ m ∈ w.skeletal_models, m.id = model_id)
    (hent : World_GetEntityByID (some w) (toUInt32 id) = some ent) :
    ∃ w2 : World,
      World_SpawnEntity fuel w model_id room_id pos ang id = some ((w.ent_heap ent).m_id, w2) ∧
      w2.entity_tree = w.entity_tree ∧
      w2.ent_alloc = w.ent_alloc ∧
      (w2.ent_heap ent).m_id = (w.ent_heap ent).m_id ∧
      (w2.ent_heap ent).m_origin = pos.getD (w.ent_heap ent).m_origin ∧
      (w2.ent_heap ent).m_angles = ang.getD (w.ent_heap ent).m_angles ∧
      (w2.cont_heap (w.ent_heap ent).m_self).room = w.rooms[room_id]? ∧
      (∀ e, e ≠ ent → w2.ent_heap e = w.ent_heap e) := by
  obtain ⟨m, hm, hmid⟩ := hmodel
  obtain ⟨j, hj, hjm⟩ := List.getElem_of_mem hm
  have hfound : World_GetModelByID fuel w model_id = some (some j) := by
    apply getModel_found w model_id fuel j hasc hsz hfuel hj
    rw [modelAt_eq _ j hj, hjm, hmid]
  have hs := spawnPlace_spec w ent room_id pos ang
  refine ⟨spawnPlace w ent room_id pos ang, ?_, hs.1, hs.2.2.2.2.1, hs.2.2.2.2.2.2.1,
    hs.2.2.2.2.2.2.2.2.1, hs.2.2.2.2.2.2.2.2.2.1, hs.2.2.2.2.2.2.2.2.2.2.1,
    hs.2.2.2.2.2.2.2.2.2.2.2.1⟩
  unfold World_SpawnEntity
  have hemp : w.entity_tree.isEmpty = false := by
    cases he : w.entity_tree with
    | nil => exact absurd he hne
    | cons a l => rfl
  simp only [hemp, Bool.not_false, if_true, hfound, hent]
  rw [hs.2.2.2.2.2.2.1]

/-- C20 at `spawnWorld`: the entity with id `7` is respawned with model `20` at room-table
position `0` and the point `(5, 6, 7)`, with null angles. -/
theorem C20_respawn_in_place_witness :
    ∃ w2 : World,
      World_SpawnEntity 3 spawnWorld 20 0 (some ⟨5, 6, 7⟩) none 7 = some (7, w2) ∧
      w2.entity_tree = [(7, 0)] ∧
      (w2.ent_heap 0).m_origin = ⟨5, 6, 7⟩ ∧
      (w2.ent_heap 0).m_angles = ⟨0, 0, 0⟩ ∧
      (w2.cont_heap 3).room = some 0 := by
  obtain ⟨w2, h1, h2, _, _, h5, h6, h7, _⟩ :=
    C20_respawn_in_place spawnWorld 3 20 0 (some ⟨5, 6, 7⟩) none 7 0 (by decide) (by decide)
      (by decide) (by decide) (by decide) (by decide)
  exact ⟨w2, h1, h2, h5, h6, h7⟩

/-- C21, evaluated: in `spawnWorld` (entity table `[(7, 0)]`) the call with model `20` and
the requested id `-1` allocates the entity `1` with id `1` and returns `1`, and the
entity table then holds the new entity under two keys, `4294967295` and `1`: it has two
more entries than before. With the requested id `9` the new entity is held under the
single key `9`. -/
theorem C21_negative_id_stored_under_two_keys :
    (World_SpawnEntity 3 spawnWorld 20 0 none none (-1)).map
        (fun r => (r.1, r.2.entity_tree, r.2.ent_alloc))
      = some (1, [(7, 0), (4294967295, 1), (1, 1)], 2) ∧
    spawnWorld.entity_tree.length = 1 ∧
    spawnWorld.ent_alloc = 1 ∧
    (World_SpawnEntity 3 spawnWorld 20 0 none none 9).map
        (fun r => (r.1, r.2.entity_tree, r.2.ent_alloc))
      = some (9, [(7, 0), (9, 1)], 2) := by
  decide

/-- C22, evaluated: in `spawnWorld` two successive calls with model `20` and the requested
id `-1` both return the id `1`; the first call allocates the entity `1`, the second call
allocates nothing and leaves the entity table as the first call left it. -/
theorem C22_second_negative_spawn_returns_same_id :
    (World_SpawnEntity 3 spawnWorld 20 0 none none (-1)).bind
        (fun r1 => (World_SpawnEntity 3 r1.2 20 0 none none (-1)).map
          (fun r2 => (r1.1, r2.1)))
      = some (1, 1) ∧
    (World_SpawnEntity 3 spawnWorld 20 0 none none (-1)).bind
        (fun r1 => (World_SpawnEntity 3 r1.2 20 0 none none (-1)).map
          (fun r2 => (r1.2.ent_alloc, r2.2.ent_alloc)))
      = some (2, 2) ∧
    (World_SpawnEntity 3 spawnWorld 20 0 none none (-1)).bind
        (fun r1 => (World_SpawnEntity 3 r1.2 20 0 none none (-1)).map
          (fun r2 => (r1.2.entity_tree, r2.2.entity_tree)))
      = some ([(7, 0), (4294967295, 1), (1, 1)], [(7, 0), (4294967295, 1), (1, 1)]) := by
  decide

/-- C23, evaluated: in `oneModelWorld` the entity table is not empty and the model table
holds the single id `10`; the call with the model id `5`, which no model has, does not
return, whatever the fuel of the model lookup. -/
theorem C23_spawn_with_missing_model_does_not_return (fuel : Nat) :
    oneModelWorld.entity_tree ≠ [] ∧
    (∀ m ∈ oneModelWorld.skeletal_models, m.id ≠ 5) ∧
    World_SpawnEntity fuel oneModelWorld 5 0 none none 9 = none := by
  refine ⟨by decide, by decide, ?_⟩
  have h : World_GetModelByID fuel oneModelWorld 5 = none := by
    have h0 := getModelLoop_stuck oneModelWorld.skeletal_models 5 (by decide) fuel
    simpa [World_GetModelByID, oneModelWorld, modelAt] using h0
  unfold World_SpawnEntity
  rw [h]
  rfl

/-- C24: when the container of the entity is not in the container list of the room, after
`Room_AddEntity(room, entity)` the list is the container followed by the former list, the
container refers back to `room`, and no other room and no other container is written. -/
theorem C24_add_entity_front (w : World) (room : RoomRef) (e : Entity)
    (h : e.m_self ∉ (w.room_heap room).containers) :
    ((Room_AddEntity w room e).room_heap room).containers
      = e.m_self :: (w.room_heap room).containers ∧
    ((Room_AddEntity w room e).cont_heap e.m_self).room = some room ∧
    (∀ r, r ≠ room → (Room_AddEntity w room e).room_heap r = w.room_heap r) ∧
    (∀ c, c ≠ e.m_self → (Room_AddEntity w room e).cont_heap c = w.cont_heap c) := by
  rw [addEntity_absent w room e h]
  refine ⟨by simp, by simp [setCont_cont_heap], ?_, ?_⟩
  · intro r hr
    simp [setRoom_room_heap, hr]
  · intro c hc
    simp [setCont_cont_heap, hc]

/-- C24 at `twoRoomWorld`: the entity with container `9` is added to room `1`, whose list
was `[5]`. -/
theorem C24_add_entity_front_witness :
    ((Room_AddEntity twoRoomWorld 1 { m_self := 9 }).room_heap 1).containers = [9, 5] ∧
    ((Room_AddEntity twoRoomWorld 1 { m_self := 9 }).cont_heap 9).room = some 1 :=
  have h := C24_add_entity_front twoRoomWorld 1 { m_self := 9 } (by decide)
  ⟨h.1, h.2.1⟩

/-- C25: `Room_AddEntity` is idempotent: a second call with the same room and entity
returns the state of the first call; and when the list held the container of the entity
at most once before, it holds it exactly once afterwards. -/
theorem C25_add_entity_idempotent (w : World) (room : RoomRef) (e : Entity) :
    Room_AddEntity (Room_AddEntity w room e) room e = Room_AddEntity w room e ∧
    ((w.room_heap room).containers.count e.m_self ≤ 1 →
      ((Room_AddEntity w room e).room_heap room).containers.count e.m_self = 1) := by
  by_cases h : e.m_self ∈ (w.room_heap room).containers
  · rw [addEntity_present w room e h]
    refine ⟨addEntity_present w room e h, ?_⟩
    intro hc
    have := List.count_pos_iff.mpr h
    omega
  · constructor
    · apply addEntity_present
      rw [addEntity_absent w room e h]
      simp
    · intro _
      rw [addEntity_absent w room e h]
      simp [List.count_eq_zero_of_not_mem h]

/-- C25 at `twoRoomWorld`, for the container `9` (not in room `1` before) and for the
container `5` (in room `1` once). -/
theorem C25_add_entity_idempotent_witness :
    ((Room_AddEntity twoRoomWorld 1 { m_self := 9 }).room_heap 1).containers.count 9 = 1 ∧
    ((Room_AddEntity twoRoomWorld 1 { m_self := 5 }).room_heap 1).containers.count 5 = 1 :=
  ⟨(C25_add_entity_idempotent twoRoomWorld 1 { m_self := 9 }).2 (by decide),
   (C25_add_entity_idempotent twoRoomWorld 1 { m_self := 5 }).2 (by decide)⟩

/-- C26: `Room_RemoveEntity(room, entity)` returns true exactly when `entity` is non-null
and its container occurs in the container list of the room. When it returns true the
list loses the first occurrence of the container and nothing else (the list was
`l1 ++ c :: l2` with `c` not in `l1` and is `l1 ++ l2` afterwards), the room reference of
the container is null, and no other room and no other container is written. When it
returns false the state is unchanged. -/
theorem C26_remove_entity (w : World) (room : RoomRef) (entity : Option Entity) :
    ((Room_RemoveEntity w room entity).1 = true ↔
      ∃ e, entity = some e ∧ e.m_self ∈ (w.room_heap room).containers) ∧
    (∀ e, entity = some e → (Room_RemoveEntity w room entity).1 = true →
      (∃ l1 l2, e.m_self ∉ l1 ∧ (w.room_heap room).containers = l1 ++ e.m_self :: l2 ∧
        ((Room_RemoveEntity w room entity).2.room_heap room).containers = l1 ++ l2) ∧
      ((Room_RemoveEntity w room entity).2.cont_heap e.m_self).room = none ∧
      (∀ r, r ≠ room → (Room_RemoveEntity w room entity).2.room_heap r = w.room_heap r) ∧
      (∀ c, c ≠ e.m_self → (Room_RemoveEntity w room entity).2.cont_heap c = w.cont_heap c)) ∧
    ((Room_RemoveEntity w room entity).1 = false → (Room_RemoveEntity w room entity).2 = w) := by
  cases entity with
  | none =>
    refine ⟨?_, ?_, ?_⟩
    · simp [Room_RemoveEntity]
    · intro e he; cases he
    · intro _; rfl
  | some e =>
    by_cases hmem : e.m_self ∈ (w.room_heap room).containers
    · have hne : (w.room_heap room).containers.isEmpty = false := by
        cases hl : (w.room_heap room).containers with
        | nil => rw [hl] at hmem; cases hmem
        | cons a l => rfl
      have hcon : (w.room_heap room).containers.contains e.m_self = true := by
        simpa using hmem
      have hres : Room_RemoveEntity w room (some e) =
          (true, setCont (setRoom w room { w.room_heap room with
              containers := (w.room_heap room).containers.erase e.m_self }) e.m_self
            { w.cont_heap e.m_self with room := none }) := by
        simp only [Room_RemoveEntity, hne, Bool.false_eq_true, if_false, hcon, if_true,
          setRoom_cont_heap]
      rw [hres]
      refine ⟨?_, ?_, ?_⟩
      · simp only [true_iff]
        exact ⟨e, rfl, hmem⟩
      · intro e2 he2 _
        cases he2
        obtain ⟨l1, l2, h1, h2, h3⟩ := List.exists_erase_eq hmem
        refine ⟨⟨l1, l2, h1, h2, ?_⟩, ?_, ?_, ?_⟩
        · simp [h3]
        · simp [setCont_cont_heap]
        · intro r hr
          simp [setRoom_room_heap, hr]
        · intro c hc
          simp [setCont_cont_heap, hc]
      · intro hf
        cases hf
    · have hcon : (w.room_heap room).containers.contains e.m_self = false := by
        simpa using hmem
      have hhead : ((w.room_heap room).containers.head? == some e.m_self) = false := by
        cases hl : (w.room_heap room).containers with
        | nil => rfl
        | cons a l =>
          rw [hl] at hmem
          have : a ≠ e.m_self := fun h => hmem (by simp [h])
          simpa using this
      have hres : Room_RemoveEntity w room (some e) = (false, w) := by
        simp only [Room_RemoveEntity, hcon, hhead, Bool.false_eq_true, if_false, ite_self]
      rw [hres]
      refine ⟨?_, ?_, ?_⟩
      · simp only [Bool.false_eq_true, false_iff]
        rintro ⟨e2, he2, hm2⟩
        cases he2
        exact hmem hm2
      · intro e2 _ hf
        cases hf
      · intro _; rfl

/-- C26 at `twoRoomWorld`: removing the entity with container `5` from room `1` returns
true, removing it from room `0` and removing a null entity return false. -/
theorem C26_remove_entity_witness :
    (Room_RemoveEntity twoRoomWorld 1 (some { m_self := 5 })).1 = true ∧
    ((Room_RemoveEntity twoRoomWorld 1 (some { m_self := 5 })).2.cont_heap 5).room = none ∧
    (Room_RemoveEntity twoRoomWorld 0 (some { m_self := 5 })).2 = twoRoomWorld ∧
    (Room_RemoveEntity twoRoomWorld 0 none).2 = twoRoomWorld :=
  have h1 := C26_remove_entity twoRoomWorld 1 (some { m_self := 5 })
  have ht : (Room_RemoveEntity twoRoomWorld 1 (some { m_self := 5 })).1 = true :=
    h1.1.mpr ⟨{ m_self := 5 }, rfl, by decide⟩
  ⟨ht, (h1.2.1 { m_self := 5 } rfl ht).2.1,
   (C26_remove_entity twoRoomWorld 0 (some { m_self := 5 })).2.2 (by decide),
   (C26_remove_entity twoRoomWorld 0 none).2.2 (by decide)⟩

/-- C27: after `Room_Empty(R)` the container list, the portal list, the static mesh list
and the sector list of `R` are empty, `sectors_x`, `sectors_y` and `near_room_list_size`
are `0` and the rigid body pointer of the room is null; a second `Room_Empty(R)` returns
the state of the first one, whether or not the room had a rigid body. -/
theorem C27_room_empty (w : World) (R : RoomRef) :
    ((Room_Empty w (some R)).room_heap R).containers = [] ∧
    ((Room_Empty w (some R)).room_heap R).portals = [] ∧
    ((Room_Empty w (some R)).room_heap R).static_mesh = [] ∧
    ((Room_Empty w (some R)).room_heap R).sectors = [] ∧
    ((Room_Empty w (some R)).room_heap R).sectors_x = 0 ∧
    ((Room_Empty w (some R)).room_heap R).sectors_y = 0 ∧
    ((Room_Empty w (some R)).room_heap R).near_room_list_size = 0 ∧
    ((Room_Empty w (some R)).room_heap R).bt_body = none ∧
    Room_Empty (Room_Empty w (some R)) (some R) = Room_Empty w (some R) := by
  have h := empty_room_heap w R R
  rw [if_pos rfl] at h
  refine ⟨by rw [h], by rw [h], by rw [h], by rw [h], by rw [h], by rw [h], by rw [h],
    by rw [h], ?_⟩
  apply empty_noop <;> rw [h]

/-- C27, evaluated at `meshWorld`: the static meshes of the room that is emptied lose their
rigid body, bounding box and container pointers, and a room without a rigid body
is emptied to the same fields. -/
theorem C27_room_empty_at_meshWorld :
    ((Room_Empty meshWorld (some 0)).room_heap 0).bt_body = none ∧
    ((Room_Empty meshWorld (some 0)).room_heap 0).containers = [] ∧
    ((Room_Empty meshWorld (some 0)).sm_heap 0) = {} ∧
    ((Room_Empty meshWorld (some 0)).cont_heap 8).room = none ∧
    ((Room_Empty meshWorld (some 1)).room_heap 1).bt_body = none ∧
    Room_Empty meshWorld none = meshWorld := by
  refine ⟨by decide, by decide, by decide, by decide, by decide, rfl⟩

set_option maxRecDepth 100000 in
/-- C28, evaluated: in `packedWorld` the rooms of the table that overlap room `0` are the
33 rooms `1 .. 33`, at most 64 rooms. The array `overlapped_room_list` has 32 elements:
in `Room_BuildOverlappedRoomsList(0)` the loop over the rooms `0 .. 32` of the table
stores the rooms `1 .. 32` at the indices `0 .. 31`, and the store of room `33`, at index
`32`, is outside the array, so the call does not end with the list of the 33 rooms. In
`overlapWorld`, where two rooms overlap room `0`, the call ends with the list `[3, 1]`. -/
theorem C28_overlapped_store_leaves_array :
    packedWorld.rooms.filter (fun r => decide (Room_IsOverlapped packedWorld 0 r ≠ 0))
      = (List.range 33).map (fun k => k + 1) ∧
    (packedWorld.rooms.filter
      (fun r => decide (Room_IsOverlapped packedWorld 0 r ≠ 0))).length ≤ 64 ∧
    overlapped_room_list_declared_len = 32 ∧
    (overlappedLoop 0 (List.range 33) packedWorld).map (fun u => overlappedEntries u 0)
      = some ((List.range 32).map (fun k => k + 1)) ∧
    ((overlappedLoop 0 (List.range 33) packedWorld).bind
      (fun u => addOverlapped u 0 33)).isNone = true ∧
    (Room_BuildOverlappedRoomsList packedWorld 0).isNone = true ∧
    (Room_BuildOverlappedRoomsList overlapWorld 0).map (fun u => overlappedEntries u 0)
      = some [3, 1] := by
  decide

set_option maxRecDepth 100000 in
/-- C29, evaluated: in `crowdWorld` the 65 rooms `1 .. 65` overlap room `0`. The loop of
`Room_BuildOverlappedRoomsList(0)` has no capacity test, neither at 64 nor at the length 32
of the array: no room is dropped, the store of room `33` at index `32` is outside the
array, and the call does not end in a state with at most 64 entries. -/
theorem C29_overlapped_list_not_capped :
    (crowdWorld.rooms.filter
      (fun r => decide (Room_IsOverlapped crowdWorld 0 r ≠ 0))).length = 65 ∧
    overlapped_room_list_declared_len = 32 ∧
    (overlappedLoop 0 (List.range 33) crowdWorld).map
        (fun u => (u.room_heap 0).overlapped_room_list_size)
      = some 32 ∧
    ((overlappedLoop 0 (List.range 33) crowdWorld).bind
      (fun u => addOverlapped u 0 33)).isNone = true ∧
    (Room_BuildOverlappedRoomsList crowdWorld 0).isNone = true ∧
    ¬ ∃ u, Room_BuildOverlappedRoomsList crowdWorld 0 = some u ∧
      (u.room_heap 0).overlapped_room_list_size ≤ 64 := by
  have hnone : (Room_BuildOverlappedRoomsList crowdWorld 0).isNone = true := by decide
  refine ⟨by decide, rfl, by decide, by decide, hnone, ?_⟩
  rintro ⟨u, hu, _⟩
  rw [hu] at hnone
  exact absurd hnone (by simp)

/-- C30: each of the four sector resolution functions returns null for a null argument;
returns its argument when the sector has no portal (`portal_to_room < 0`) or, for the base
and alternate variants, when the owner room has no base room or no alternate room; and
returns its argument when the grid indices computed in the target room are outside
`[0, sectors_x) x [0, sectors_y)`. The functions return a pointer only; they have no
state to change. -/
theorem C30_sector_resolution_edge_cases (w : World) :
    (TR_Sector_CheckPortalPointerRaw w none = none ∧
      TR_Sector_CheckPortalPointer w none = none ∧
      TR_Sector_CheckBaseRoom w none = none ∧
      TR_Sector_CheckAlternateRoom w none = none) ∧
    (∀ s : SectorRef, (sectorAt w s).portal_to_room < 0 →
      TR_Sector_CheckPortalPointerRaw w (some s) = some s ∧
      TR_Sector_CheckPortalPointer w (some s) = some s) ∧
    (∀ s : SectorRef, (w.room_heap (sectorAt w s).owner_room).base_room = none →
      TR_Sector_CheckBaseRoom w (some s) = some s) ∧
    (∀ s : SectorRef, (w.room_heap (sectorAt w s).owner_room).alternate_room = none →
      TR_Sector_CheckAlternateRoom w (some s) = some s) ∧
    (∀ s : SectorRef,
      ¬ (0 ≤ resolveIndX w s (roomAt w (sectorAt w s).portal_to_room) ∧
          resolveIndX w s (roomAt w (sectorAt w s).portal_to_room)
            < (w.room_heap (roomAt w (sectorAt w s).portal_to_room)).sectors_x ∧
          0 ≤ resolveIndY w s (roomAt w (sectorAt w s).portal_to_room) ∧
          resolveIndY w s (roomAt w (sectorAt w s).portal_to_room)
            < (w.room_heap (roomAt w (sectorAt w s).portal_to_room)).sectors_y) →
      TR_Sector_CheckPortalPointerRaw w (some s) = some s) ∧
    (∀ s : SectorRef,
      ¬ (0 ≤ resolveIndX w s (flipTarget w s) ∧
          resolveIndX w s (flipTarget w s) < (w.room_heap (flipTarget w s)).sectors_x ∧
          0 ≤ resolveIndY w s (flipTarget w s) ∧
          resolveIndY w s (flipTarget w s) < (w.room_heap (flipTarget w s)).sectors_y) →
      TR_Sector_CheckPortalPointer w (some s) = some s) ∧
    (∀ (s : SectorRef) (r : RoomRef),
      (w.room_heap (sectorAt w s).owner_room).base_room = some r →
      ¬ (0 ≤ resolveIndX w s r ∧ resolveIndX w s r < (w.room_heap r).sectors_x ∧
          0 ≤ resolveIndY w s r ∧ resolveIndY w s r < (w.room_heap r).sectors_y) →
      TR_Sector_CheckBaseRoom w (some s) = some s) ∧
    (∀ (s : SectorRef) (r : RoomRef),
      (w.room_heap (sectorAt w s).owner_room).alternate_room = some r →
      ¬ (0 ≤ resolveIndX w s r ∧ resolveIndX w s r < (w.room_heap r).sectors_x ∧
          0 ≤ resolveIndY w s r ∧ resolveIndY w s r < (w.room_heap r).sectors_y) →
      TR_Sector_CheckAlternateRoom w (some s) = some s) := by
  refine ⟨⟨rfl, rfl, rfl, rfl⟩, ?_, ?_, ?_, ?_, ?_, ?_, ?_⟩
  · intro s h
    have hn : ¬ (sectorAt w s).portal_to_room ≥ 0 := by omega
    simp [TR_Sector_CheckPortalPointerRaw, TR_Sector_CheckPortalPointer, hn]
  · intro s h
    simp [TR_Sector_CheckBaseRoom, h]
  · intro s h
    simp [TR_Sector_CheckAlternateRoom, h]
  · intro s h
    unfold TR_Sector_CheckPortalPointerRaw
    simp only
    split
    · rw [resolveInRoom_out_of_range w s _ h]
    · rfl
  · intro s h
    unfold TR_Sector_CheckPortalPointer
    simp only
    split
    · rw [resolveInRoom_out_of_range w s _ h]
    · rfl
  · intro s r hb h
    simp only [TR_Sector_CheckBaseRoom, hb]
    rw [resolveInRoom_out_of_range w s r h]
  · intro s r ha h
    simp only [TR_Sector_CheckAlternateRoom, ha]
    rw [resolveInRoom_out_of_range w s r h]

/-- C30 at `portalWorld`: the sector of room `1` has no portal and room `1` has no base and
no alternate room; the sector of room `3` resolves, raw and through its base room, into
room `2`, where its first index is `-7`. -/
theorem C30_sector_resolution_edge_cases_witness :
    (TR_Sector_CheckPortalPointerRaw portalWorld (some ⟨1, 0⟩) = some ⟨1, 0⟩ ∧
      TR_Sector_CheckPortalPointer portalWorld (some ⟨1, 0⟩) = some ⟨1, 0⟩) ∧
    TR_Sector_CheckBaseRoom portalWorld (some ⟨1, 0⟩) = some ⟨1, 0⟩ ∧
    TR_Sector_CheckAlternateRoom portalWorld (some ⟨1, 0⟩) = some ⟨1, 0⟩ ∧
    TR_Sector_CheckPortalPointerRaw portalWorld (some ⟨3, 0⟩) = some ⟨3, 0⟩ ∧
    TR_Sector_CheckBaseRoom portalWorld (some ⟨3, 0⟩) = some ⟨3, 0⟩ ∧
    TR_Sector_CheckAlternateRoom portalWorld (some ⟨2, 0⟩) = some ⟨2, 0⟩ ∧
    resolveIndX portalWorld ⟨3, 0⟩ 2 = -7 ∧
    TR_Sector_CheckPortalPointerRaw portalWorld (some ⟨0, 0⟩) = some ⟨1, 0⟩ :=
  have h := C30_sector_resolution_edge_cases portalWorld
  ⟨h.2.1 ⟨1, 0⟩ (by decide), h.2.2.1 ⟨1, 0⟩ (by decide), h.2.2.2.1 ⟨1, 0⟩ (by decide),
   h.2.2.2.2.1 ⟨3, 0⟩ (by decide), h.2.2.2.2.2.2.1 ⟨3, 0⟩ 2 (by decide) (by decide),
   h.2.2.2.2.2.2.2 ⟨2, 0⟩ 3 (by decide) (by decide), by decide, by decide⟩

/-- C31 as stated fails in `flipPortalWorld`. The owner room `0` of the first sector is a
base room (alternate room `2`, no base room) and the portal destination, room `1`, has the
alternate room `3`; the indices are in range in room `3`; the result is the sector of
room `1`, not of room `3`. The owner room `2` of the other sector is an alternate room and
its portal destination, room `3`, has the base room `1`; the result is the sector of room
`3`, not of room `1`. -/
theorem C31_base_owner_stays_in_destination :
    ((flipPortalWorld.room_heap 0).alternate_room = some 2 ∧
      (flipPortalWorld.room_heap 0).base_room = none ∧
      (sectorAt flipPortalWorld ⟨0, 0⟩).owner_room = 0 ∧
      roomAt flipPortalWorld (sectorAt flipPortalWorld ⟨0, 0⟩).portal_to_room = 1 ∧
      (flipPortalWorld.room_heap 1).alternate_room = some 3 ∧
      resolveInRoom flipPortalWorld ⟨0, 0⟩ 3 = ⟨3, 0⟩ ∧
      TR_Sector_CheckPortalPointer flipPortalWorld (some ⟨0, 0⟩) = some ⟨1, 0⟩) ∧
    ((flipPortalWorld.room_heap 2).base_room = some 0 ∧
      (sectorAt flipPortalWorld ⟨2, 1⟩).owner_room = 2 ∧
      roomAt flipPortalWorld (sectorAt flipPortalWorld ⟨2, 1⟩).portal_to_room = 3 ∧
      (flipPortalWorld.room_heap 3).base_room = some 1 ∧
      resolveInRoom flipPortalWorld ⟨2, 1⟩ 1 = ⟨1, 1⟩ ∧
      TR_Sector_CheckPortalPointer flipPortalWorld (some ⟨2, 1⟩) = some ⟨3, 1⟩) := by
  decide

/-- C31 (amended): for a portal sector `s` (`portal_to_room >= 0`) whose owner room has a
base room (it is an alternate room) and whose portal destination room has an alternate
room `a`, `TR_Sector_CheckPortalPointer` returns, when the computed indices are in range,
the sector of `a` at these indices; otherwise, when the owner room has an alternate room
(it is a base room) and the destination room has a base room `b`, it returns the sector of
`b` at the computed indices. -/
theorem C31_flip_aware_direction (w : World) (s : SectorRef)
    (hp : (sectorAt w s).portal_to_room ≥ 0) :
    (∀ b a : RoomRef,
      (w.room_heap (sectorAt w s).owner_room).base_room = some b →
      (w.room_heap (roomAt w (sectorAt w s).portal_to_room)).alternate_room = some a →
      (0 ≤ resolveIndX w s a ∧ resolveIndX w s a < (w.room_heap a).sectors_x ∧
        0 ≤ resolveIndY w s a ∧ resolveIndY w s a < (w.room_heap a).sectors_y) →
      TR_Sector_CheckPortalPointer w (some s)
        = some ⟨a, (resolveIndX w s a * (w.room_heap a).sectors_y + resolveIndY w s a).toNat⟩) ∧
    (∀ a b : RoomRef,
      ((w.room_heap (sectorAt w s).owner_room).base_room = none ∨
        (w.room_heap (roomAt w (sectorAt w s).portal_to_room)).alternate_room = none) →
      (w.room_heap (sectorAt w s).owner_room).alternate_room = some a →
      (w.room_heap (roomAt w (sectorAt w s).portal_to_room)).base_room = some b →
      (0 ≤ resolveIndX w s b ∧ resolveIndX w s b < (w.room_heap b).sectors_x ∧
        0 ≤ resolveIndY w s b ∧ resolveIndY w s b < (w.room_heap b).sectors_y) →
      TR_Sector_CheckPortalPointer w (some s)
        = some ⟨b, (resolveIndX w s b * (w.room_heap b).sectors_y + resolveIndY w s b).toNat⟩) := by
  constructor
  · intro b a hb ha hr
    have ht : flipTarget w s = a := by simp [flipTarget, hb, ha]
    simp only [TR_Sector_CheckPortalPointer, hp, if_true, ht]
    rw [resolveInRoom_in_range w s a hr]
    rfl
  · intro a b hno ha hb hr
    have ht : flipTarget w s = b := by
      rcases hno with h | h
      · simp [flipTarget, h, ha, hb]
      · simp only [flipTarget, h, ha, hb]
        cases (w.room_heap (sectorAt w s).owner_room).base_room <;> rfl
    simp only [TR_Sector_CheckPortalPointer, hp, if_true, ht]
    rw [resolveInRoom_in_range w s b hr]
    rfl

/-- C31 (amended) at `flipPortalWorld`: from the alternate room `2` the portal to room `1`
resolves into room `3`, the alternate of room `1`; from the base room `0` the portal to
room `3` resolves into room `1`, the base room of room `3`. -/
theorem C31_flip_aware_direction_witness :
    TR_Sector_CheckPortalPointer flipPortalWorld (some ⟨2, 0⟩) = some ⟨3, 0⟩ ∧
    TR_Sector_CheckPortalPointer flipPortalWorld (some ⟨0, 1⟩) = some ⟨1, 1⟩ :=
  ⟨((C31_flip_aware_direction flipPortalWorld ⟨2, 0⟩ (by decide)).1 0 3 (by decide) (by decide)
      (by decide)).trans (by decide),
   ((C31_flip_aware_direction flipPortalWorld ⟨0, 1⟩ (by decide)).2 2 1 (by decide) (by decide)
      (by decide) (by decide)).trans (by decide)⟩

/-- C32: the flip-aware resolutions of two non-null sectors `s1` and `s2` are non-null,
and when they have the same owner room `Sectors_Is2SidePortals(s1, s2)` returns `0`; in
particular `Sectors_Is2SidePortals(s, s)` returns `0` for every non-null sector `s`. -/
theorem C32_same_owner_not_two_sided (w : World) (s1 s2 : SectorRef) :
    (∃ t1 t2 : SectorRef,
      TR_Sector_CheckPortalPointer w (some s1) = some t1 ∧
      TR_Sector_CheckPortalPointer w (some s2) = some t2 ∧
      ((sectorAt w t1).owner_room = (sectorAt w t2).owner_room →
        Sectors_Is2SidePortals w s1 s2 = some 0)) ∧
    Sectors_Is2SidePortals w s1 s1 = some 0 := by
  have tot : ∀ s : SectorRef, ∃ t, TR_Sector_CheckPortalPointer w (some s) = some t := by
    intro s
    by_cases hp : (sectorAt w s).portal_to_room ≥ 0
    · exact ⟨resolveInRoom w s (flipTarget w s),
        by simp only [TR_Sector_CheckPortalPointer, if_pos hp]⟩
    · exact ⟨s, by simp only [TR_Sector_CheckPortalPointer, if_neg hp]⟩
  obtain ⟨t1, h1⟩ := tot s1
  obtain ⟨t2, h2⟩ := tot s2
  refine ⟨⟨t1, t2, h1, h2, ?_⟩, ?_⟩
  · intro ho
    unfold Sectors_Is2SidePortals
    rw [h1, h2]
    simp only [ho, if_true]
  · unfold Sectors_Is2SidePortals
    rw [h1]
    simp only [if_true]

/-- C32 at `flipPortalWorld`: the sector `(2, 0)` resolves to the sector `(3, 0)`, the
sector `(3, 1)` to itself; both are owned by room `3` and the result is `0`. -/
theorem C32_same_owner_not_two_sided_witness :
    TR_Sector_CheckPortalPointer flipPortalWorld (some ⟨2, 0⟩) = some ⟨3, 0⟩ ∧
    TR_Sector_CheckPortalPointer flipPortalWorld (some ⟨3, 1⟩) = some ⟨3, 1⟩ ∧
    Sectors_Is2SidePortals flipPortalWorld ⟨2, 0⟩ ⟨3, 1⟩ = some 0 := by
  obtain ⟨t1, t2, h1, h2, h⟩ := (C32_same_owner_not_two_sided flipPortalWorld ⟨2, 0⟩ ⟨3, 1⟩).1
  have e1 : TR_Sector_CheckPortalPointer flipPortalWorld (some ⟨2, 0⟩) = some ⟨3, 0⟩ := by
    decide
  have e2 : TR_Sector_CheckPortalPointer flipPortalWorld (some ⟨3, 1⟩) = some ⟨3, 1⟩ := by
    decide
  rw [e1] at h1
  rw [e2] at h2
  cases h1
  cases h2
  exact ⟨e1, e2, h (by decide)⟩

/-- C34: after `Room_BuildNearRoomsList(R)` every entry of the near-room list of `R` is the
destination of a portal of `R`, or the destination of a portal of a room that is the
destination of a portal of `R`. -/
theorem C34_near_list_two_hops (w : World) (R : RoomRef) :
    ∀ e ∈ nearEntries (Room_BuildNearRoomsList w R) R,
      (∃ p ∈ (w.room_heap R).portals, p.dest_room = e) ∨
      (∃ m, (∃ p ∈ (w.room_heap R).portals, p.dest_room = m) ∧
        ∃ q ∈ (w.room_heap m).portals, q.dest_room = e) := by
  intro e he
  simp only [nearEntries, List.mem_map, List.mem_range] at he
  obtain ⟨j, hj, hje⟩ := he
  have h := (build_entries w R j hj).2
  rw [hje] at h
  exact h

/-- C34 at `chainWorld`: room `2` is in the near-room list of room `0` after
`Room_BuildNearRoomsList(0)`, as the destination of a portal of room `1`. -/
theorem C34_near_list_two_hops_witness :
    (∃ p ∈ (chainWorld.room_heap 0).portals, p.dest_room = 2) ∨
    (∃ m, (∃ p ∈ (chainWorld.room_heap 0).portals, p.dest_room = m) ∧
      ∃ q ∈ (chainWorld.room_heap m).portals, q.dest_room = 2) :=
  C34_near_list_two_hops chainWorld 0 2 (by decide)

/-- C35 as stated fails in `idWorld`: the sector has `portal_to_room = 1` and the computed
indices are in range, and `TR_Sector_CheckPortalPointerRaw` returns the sector of the room
at table position `1`, whose id is `0`; the room whose id is `1` is the room at position
`0`. -/
theorem C35_portal_target_is_table_position :
    (sectorAt idWorld ⟨0, 0⟩).portal_to_room = 1 ∧
    TR_Sector_CheckPortalPointerRaw idWorld (some ⟨0, 0⟩) = some ⟨1, 0⟩ ∧
    (idWorld.room_heap 1).id = 0 ∧
    (idWorld.room_heap 0).id = 1 ∧
    idWorld.rooms = [0, 1] := by
  decide

/-- C35 (amended): for a sector with `portal_to_room = k >= 0`, `k` below the number of
rooms, for which the computed indices are in range, the sector returned by
`TR_Sector_CheckPortalPointerRaw` is the sector at these indices of the room at position
`k` of the room table. -/
theorem C35_portal_target_room (w : World) (s : SectorRef) (r : RoomRef)
    (hp : (sectorAt w s).portal_to_room ≥ 0)
    (hr : w.rooms[(sectorAt w s).portal_to_room.toNat]? = some r)
    (hin : 0 ≤ resolveIndX w s r ∧ resolveIndX w s r < (w.room_heap r).sectors_x ∧
        0 ≤ resolveIndY w s r ∧ resolveIndY w s r < (w.room_heap r).sectors_y) :
    TR_Sector_CheckPortalPointerRaw w (some s)
      = some ⟨r, (resolveIndX w s r * (w.room_heap r).sectors_y + resolveIndY w s r).toNat⟩ := by
  simp only [TR_Sector_CheckPortalPointerRaw, hp, if_true, roomAt_eq w _ r hr]
  rw [resolveInRoom_in_range w s r hin]
  rfl

/-- C35 (amended) at `idWorld`: the portal sector with `portal_to_room = 1` resolves into
the room at table position `1`. -/
theorem C35_portal_target_room_witness :
    TR_Sector_CheckPortalPointerRaw idWorld (some ⟨0, 0⟩) = some ⟨1, 0⟩ :=
  (C35_portal_target_room idWorld ⟨0, 0⟩ 1 (by decide) (by decide) (by decide)).trans
    (by decide)

set_option maxRecDepth 100000 in
/-- C36, evaluated: the array `near_room_list` is declared with 32 elements; for room `0`
of `manyPortalWorld`, whose list is empty before the call, `Room_BuildNearRoomsList(0)`
stores 64 entries, the rooms `1 .. 64` at the indices `0 .. 63`: room `33` at index `32`
and room `64` at index `63`, which are not indices of the declared array. -/
theorem C36_near_list_stored_past_declared_length :
    near_room_list_declared_len = 32 ∧
    (manyPortalWorld.room_heap 0).near_room_list_size = 0 ∧
    ((Room_BuildNearRoomsList manyPortalWorld 0).room_heap 0).near_room_list_size = 64 ∧
    nearEntries (Room_BuildNearRoomsList manyPortalWorld 0) 0
      = (List.range 64).map (fun k => k + 1) ∧
    (manyPortalWorld.room_heap 0).near_room_list 32 = 0 ∧
    ((Room_BuildNearRoomsList manyPortalWorld 0).room_heap 0).near_room_list 32 = 33 ∧
    ((Room_BuildNearRoomsList manyPortalWorld 0).room_heap 0).near_room_list 63 = 64 ∧
    ¬ 32 < near_room_list_declared_len ∧
    ¬ 63 < near_room_list_declared_len := by
  decide

/-- C37, evaluated: in `nearListWorld` the near-room list of room `0` is `[1, 2]`. Room
`1`, with an empty list, is an entry of it and `Room_IsInNearRoomsList(0, 1)` returns `0`;
room `3`, with the list `[0]`, is not an entry of it and has another id, and
`Room_IsInNearRoomsList(0, 3)` returns `1`. With room `2`, whose list is as long as the
one of room `0` in `chainWorld`, and with a null argument the result is as claimed. -/
theorem C37_near_list_test_scans_shorter_list :
    nearEntries nearListWorld 0 = [1, 2] ∧
    nearEntries nearListWorld 1 = [] ∧
    nearEntries nearListWorld 3 = [0] ∧
    Room_IsInNearRoomsList nearListWorld (some 0) (some 1) = 0 ∧
    Room_IsInNearRoomsList nearListWorld (some 0) (some 3) = 1 ∧
    (nearListWorld.room_heap 3).id ≠ (nearListWorld.room_heap 0).id ∧
    (∀ e ∈ nearEntries nearListWorld 0,
      (nearListWorld.room_heap e).id ≠ (nearListWorld.room_heap 3).id) ∧
    Room_IsInNearRoomsList nearListWorld none (some 1) = 0 ∧
    Room_IsInNearRoomsList nearListWorld (some 0) none = 0 := by
  decide

/-- C38: after `Room_BuildNearRoomsList(R)` no entry `e` of the near-room list of `R`
satisfies `Room_IsOverlapped(R, e)`, in the state before the call and in the state after
it; so a room with `Room_IsOverlapped(R, e)` nonzero is not in the list. -/
theorem C38_near_list_excludes_overlapped (w : World) (R : RoomRef) :
    (∀ e ∈ nearEntries (Room_BuildNearRoomsList w R) R,
      Room_IsOverlapped w R e = 0 ∧ Room_IsOverlapped (Room_BuildNearRoomsList w R) R e = 0) ∧
    (∀ e, Room_IsOverlapped w R e ≠ 0 → e ∉ nearEntries (Room_BuildNearRoomsList w R) R) := by
  have key : ∀ e ∈ nearEntries (Room_BuildNearRoomsList w R) R, Room_IsOverlapped w R e = 0 := by
    intro e he
    simp only [nearEntries, List.mem_map, List.mem_range] at he
    obtain ⟨j, hj, hje⟩ := he
    have h := (build_entries w R j hj).1
    rw [hje] at h
    exact h
  refine ⟨fun e he => ⟨key e he, ?_⟩, fun e hne he => hne (key e he)⟩
  rw [isOverlapped_congr_near w _ (nearOnly_build w R)]
  exact key e he

/-- C38 at `nearOverlapWorld`: room `2` is two portal hops from room `0` and overlapped
with it, and it is not in the near-room list of room `0`, which is `[1]`. -/
theorem C38_near_list_excludes_overlapped_witness :
    2 ∉ nearEntries (Room_BuildNearRoomsList nearOverlapWorld 0) 0 ∧
    Room_IsOverlapped nearOverlapWorld 0 1 = 0 :=
  ⟨(C38_near_list_excludes_overlapped nearOverlapWorld 0).2 2 (by decide),
   ((C38_near_list_excludes_overlapped nearOverlapWorld 0).1 1 (by decide)).1⟩

/-- C39, evaluated: the model table of `modelWorld [10]` and of `itemWorld` holds the
single id `10`. With the empty item table of `modelWorld [10]` and the model id `5` the
call of `World_CreateItem` does not return, whatever the fuel of the model lookup, and
neither does it with the item table of `itemWorld`, which is not empty. With the model id
`10` the call returns `0` on the empty item table, which is left unchanged, and `1` on the
item table of `itemWorld`, where the new item replaces the one stored under the id `1`. -/
theorem C39_create_item_does_not_return (fuel : Nat) :
    (modelWorld [10]).items_tree = [] ∧
    World_CreateItem fuel (modelWorld [10]) 1 5 0 0 1 none = none ∧
    itemWorld.items_tree ≠ [] ∧
    World_CreateItem fuel itemWorld 1 5 0 0 1 none = none ∧
    World_CreateItem fuel (modelWorld [10]) 1 10 0 0 1 none = some (0, modelWorld [10]) ∧
    (World_CreateItem fuel itemWorld 1 10 4 2 3 none).map (fun r => (r.1, r.2.items_tree))
      = some (1, [(1, { id := 1, world_model_id := 4, type := 2, count := 3,
                        bf_model := some 0 })]) := by
  have h5 : ∀ w : World, w.skeletal_models = [⟨10⟩] → World_GetModelByID fuel w 5 = none := by
    intro w hw
    have h0 := getModelLoop_stuck w.skeletal_models 5 (by rw [hw]; decide) fuel
    simpa [World_GetModelByID, hw, modelAt] using h0
  have h10 : ∀ w : World, w.skeletal_models = [⟨10⟩] →
      World_GetModelByID fuel w 10 = some (some 0) := by
    intro w hw
    cases fuel <;> simp [World_GetModelByID, hw, getModelLoop, modelAt]
  refine ⟨rfl, ?_, by decide, ?_, ?_, ?_⟩
  · unfold World_CreateItem
    rw [h5 _ rfl]
  · unfold World_CreateItem
    rw [h5 _ rfl]
  · unfold World_CreateItem
    rw [h10 _ rfl]
    rfl
  · unfold World_CreateItem
    rw [h10 _ rfl]
    rfl

/-- C40, evaluated: the sequence `oneFrameSeq true` has one frame, `current_frame = 0`
below the number of frames, the type `TR_ANIMTEXTURE_REVERSE`, `reverse_direction` set and
`frame_lock` unset; one frame advance of `World::updateAnimTextures` leaves
`current_frame = 1`, which is not below the number of frames. The sequence is the result
of one frame advance of `oneFrameSeq false`. -/
theorem C40_reverse_branch_leaves_range :
    (oneFrameSeq true).frames.length = 1 ∧
    (oneFrameSeq true).current_frame < (oneFrameSeq true).frames.length ∧
    (oneFrameSeq true).frame_lock = false ∧
    (({ modelWorld [] with anim_sequences := [oneFrameSeq true] } : World).updateAnimTextures
        1).anim_sequences
      = [{ oneFrameSeq false with current_frame := 1 }] ∧
    ¬ (updateAnimSeq 1 (oneFrameSeq true)).current_frame
        < (updateAnimSeq 1 (oneFrameSeq true)).frames.length ∧
    updateAnimSeq 1 (oneFrameSeq false) = oneFrameSeq true := by
  decide

end OpenTomb
